import Mathlib

/-!
# Terrain collision and character movement (`model_loading.cpp`)

A shallow embedding of the collision core of `model_loading.cpp`:
the 2D rectangle primitives (`IntersectsXZ`, `ResolveStaticXZ`), the geometry
classifier (`BuildMapCollision`), the floor sampler (`RaycastTri`,
`SampleFloorY`), the height-aware wall test (`IntersectsWallAtHeight`), the
horizontal step (`TryMoveWithStepUp`), the spawn resolver (`NudgeSpawn`), the
push-out loops of `processInput` and of the main loop, and the vertical integration and
step-down snap blocks of the main loop.

Conventions of the embedding.

* Two models of the arithmetic are given. In the exact model (`IntersectsXZ`,
  `ResolveStaticXZ`, `SampleFloorY`, `TryMoveWithStepUp`, ...) `float` values are exact
  rationals (`ℚ`) and the decimal constants of the source (`0.6f`, `1.25f`, ...) are the
  rationals they denote. In the single precision model (`Single.IntersectsXZ`,
  `Single.ResolveStaticXZ`, ...) every `float` operation of the source is rounded to IEEE
  754 binary32 by `round32` (round to nearest, ties to even) and the constants are the
  binary32 numbers the compiler stores. Values stay rationals: overflow, infinities and NaN
  are not modelled, and each operation is rounded on its own (no fused multiply-add).
* The statements about the scenario of the single step obstacle, the spawn resolver, the
  geometry classifier and the step-down snap are proved in the exact model; the statements
  whose truth depends on rounding (overlap test, push-out, height gate, step window, floor
  sampling, floor clamp, corner push-out) are proved in the single precision model, and the
  exact model serves them as the reference they are compared with.
* The process-wide globals `gFloorTris`, `gWalls`, `MAP_Y_OFFSET`,
  `PLAYER_FOOT_BIAS` are explicit arguments.
* Reference (`&`) parameters that the source mutates are returned in the result.
* `glm::vec2`/`glm::vec3` are the records `Vec2`/`Vec3`; `glm::cross`/`glm::dot`
  are `cross`/`dot`.
-/

namespace ModelLoading

/-! ## Vectors -/

/-- The type `glm::vec2`. For an `AABB2D` the field `y` holds the world z coordinate. -/
structure Vec2 where
  x : ℚ
  y : ℚ
  deriving DecidableEq

/-- The type `glm::vec3`. -/
structure Vec3 where
  x : ℚ
  y : ℚ
  z : ℚ
  deriving DecidableEq

/-- Component-wise sum, `glm::vec3 operator+`. -/
def Vec3.add (p q : Vec3) : Vec3 := ⟨p.x + q.x, p.y + q.y, p.z + q.z⟩

/-- Component-wise difference, `glm::vec3 operator-`. -/
def Vec3.sub (p q : Vec3) : Vec3 := ⟨p.x - q.x, p.y - q.y, p.z - q.z⟩

/-- Cross product `glm::cross`. -/
def cross (p q : Vec3) : Vec3 :=
  ⟨p.y * q.z - q.y * p.z, p.z * q.x - q.z * p.x, p.x * q.y - q.x * p.y⟩

/-- Dot product `glm::dot`. -/
def dot (p q : Vec3) : ℚ := p.x * q.x + p.y * q.y + p.z * q.z

/-! ## Constants -/

/-- Max height we can step up. -/
def STEP_MAX : ℚ := 5 / 4

/-- Tolerance below which a floor change is ignored. -/
def STEP_SNAP_EPS : ℚ := 3 / 100

/-- Max height of the step-down snap. -/
def STEP_DOWN_MAX : ℚ := 27 / 20

/-- Skin removed from the footprint by the unstick pass. -/
def SKIN : ℚ := 1 / 25

/-- Number of push-out passes. -/
def UNSTICK_ITER : Nat := 4

/-- Gravity of the vertical integration. -/
def GRAVITY : ℚ := 25

/-- Jump impulse. -/
def JUMP_FORCE : ℚ := 19 / 2

/-- The record `struct AABB2D { glm::vec2 center, halfExt; }`. -/
structure AABB2D where
  center : Vec2
  halfExt : Vec2
  deriving DecidableEq

/-- Overlap test of two horizontal rectangles (source lines 95-99). -/
def IntersectsXZ (a b : AABB2D) : Bool :=
  if |a.center.x - b.center.x| > a.halfExt.x + b.halfExt.x then false
  else if |a.center.y - b.center.y| > a.halfExt.y + b.halfExt.y then false
  else true

/-- Push-out of `dynBox` (and of the caller position `posXZ`) from `statBox`
(source lines 100-108). Returns the updated `dynBox` and `posXZ`. -/
def ResolveStaticXZ (statBox dynBox : AABB2D) (posXZ : Vec3) : AABB2D × Vec3 :=
  let dx := dynBox.center.x - statBox.center.x
  let dz := dynBox.center.y - statBox.center.y
  let px := (dynBox.halfExt.x + statBox.halfExt.x) - |dx|
  let pz := (dynBox.halfExt.y + statBox.halfExt.y) - |dz|
  if px < 0 ∨ pz < 0 then (dynBox, posXZ)
  else if px < pz then
    let sx : ℚ := if dx < 0 then -1 else 1
    ({ dynBox with center := { dynBox.center with x := dynBox.center.x + sx * px } },
     { posXZ with x := posXZ.x + sx * px })
  else
    let sz : ℚ := if dz < 0 then -1 else 1
    ({ dynBox with center := { dynBox.center with y := dynBox.center.y + sz * pz } },
     { posXZ with z := posXZ.z + sz * pz })

/-! ## Map collision data -/

/-- The record `struct Tri { glm::vec3 a, b, c; glm::vec3 n; }`. -/
structure Tri where
  a : Vec3
  b : Vec3
  c : Vec3
  n : Vec3
  deriving DecidableEq

/-- Height-aware wall box. -/
structure WallBox where
  boxXZ : AABB2D
  minY : ℚ
  maxY : ℚ
  deriving DecidableEq

/-- The globals `gFloorTris` and `gWalls`: the collision dataset of one map. -/
structure CollisionData where
  gFloorTris : List Tri
  gWalls : List WallBox
  deriving DecidableEq

/-- Möller–Trumbore ray/triangle test (source lines 186-202). Returns `some tHit` when
the source returns `true`, and `none` when it returns `false`. -/
def RaycastTri (ro rd : Vec3) (tri : Tri) : Option ℚ :=
  let EPS : ℚ := 1 / 1000000
  let v0v1 := tri.b.sub tri.a
  let v0v2 := tri.c.sub tri.a
  let pvec := cross rd v0v2
  let det := dot v0v1 pvec
  if |det| < EPS then none
  else
    let invDet := 1 / det
    let tvec := ro.sub tri.a
    let u := dot tvec pvec * invDet
    if u < 0 ∨ u > 1 then none
    else
      let qvec := cross tvec v0v1
      let v := dot rd qvec * invDet
      if v < 0 ∨ u + v > 1 then none
      else
        let t := dot v0v2 qvec * invDet
        if t ≤ 0 then none else some t

/-- The comparison `t < bestT`, where `none` is the initial `bestT = +infinity`. -/
def ltBest (t : ℚ) : Option ℚ → Bool
  | none => true
  | some bestT => decide (t < bestT)

/-- One iteration of the loop of `SampleFloorY`. The state is `none` while
`hit == false` (`bestT` is `+infinity`) and `some bestT` once `hit == true`. -/
def sampleStep (ro rd : Vec3) (best : Option ℚ) (tri : Tri) : Option ℚ :=
  match RaycastTri ro rd tri with
  | some t => if decide (t > 0) && ltBest t best then some t else best
  | none => best

/-- Floor sampler (source lines 204-219). -/
def SampleFloorY (gFloorTris : List Tri) (MAP_Y_OFFSET : ℚ) (worldPosXZ : Vec3) : ℚ :=
  let ro : Vec3 := ⟨worldPosXZ.x, 1000, worldPosXZ.z⟩
  let rd : Vec3 := ⟨0, -1, 0⟩
  match gFloorTris.foldl (sampleStep ro rd) none with
  | some bestT => ro.y + bestT * rd.y
  | none => MAP_Y_OFFSET

/-! ## Height-aware wall check -/

/-- Height-aware wall check (source lines 222-227). -/
def IntersectsWallAtHeight (w : WallBox) (ply : AABB2D) (footY : ℚ) : Bool :=
  let Y_PAD_DOWN : ℚ := 3 / 5
  let Y_PAD_UP : ℚ := 9 / 5
  if footY < w.minY - Y_PAD_DOWN ∨ footY > w.maxY + Y_PAD_UP then false
  else IntersectsXZ ply w.boxXZ

/-- The loop `for (w : gWalls) if (IntersectsWallAtHeight(w, box, footY)) { collide = true;
break; }` of `TryMoveWithStepUp` (source lines 270-271 and 284-285). -/
def collide (gWalls : List WallBox) (box : AABB2D) (footY : ℚ) : Bool :=
  gWalls.any fun w => IntersectsWallAtHeight w box footY

/-! ## Horizontal step -/

/-- Result of `TryMoveWithStepUp`: the returned flag and the three reference
parameters `posXZ`, `playerBox`, `outNewFootY`. -/
structure MoveResult where
  ok : Bool
  posXZ : Vec3
  playerBox : AABB2D
  outNewFootY : ℚ
  deriving DecidableEq

/-- Move with step-up (source lines 264-293). -/
def TryMoveWithStepUp (d : CollisionData) (MAP_Y_OFFSET : ℚ) (posXZ moveXZ : Vec3)
    (currentFootY : ℚ) (playerBox : AABB2D) (outNewFootY : ℚ) : MoveResult :=
  let candidate := posXZ.add moveXZ
  let candBox : AABB2D := { playerBox with center := ⟨candidate.x, candidate.z⟩ }
  if !collide d.gWalls candBox currentFootY then
    ⟨true, candidate, { playerBox with center := candBox.center }, currentFootY⟩
  else
    let newFloorY := SampleFloorY d.gFloorTris MAP_Y_OFFSET candidate
    let diff := newFloorY - currentFootY
    if diff > -STEP_SNAP_EPS ∧ diff ≤ STEP_MAX then
      if !collide d.gWalls candBox newFloorY then
        ⟨true, candidate, { playerBox with center := candBox.center }, newFloorY⟩
      else ⟨false, posXZ, playerBox, outNewFootY⟩
    else ⟨false, posXZ, playerBox, outNewFootY⟩

/-! ## Spawn resolver -/

/-- The lambda `blocked` of `NudgeSpawn` (source lines 380-384); `box` and `footY` are
the variables it captures by reference. -/
def blocked (gWalls : List WallBox) (box : AABB2D) (footY : ℚ) (p : Vec3) : Bool :=
  gWalls.any fun w => IntersectsWallAtHeight w { box with center := ⟨p.x, p.z⟩ } footY

/-- The integers `lo, lo + 1, ..., hi` of a loop `for (int k = lo; k <= hi; ++k)`. -/
def intRange (lo hi : Int) : List Int :=
  (List.range (hi - lo + 1).toNat).map fun k => lo + (k : Int)

/-- The pairs `(dx, dz)` in the order the three nested loops of `NudgeSpawn` visit
them: `r = 1..40`, `dx = -r..r`, `dz = -r..r`. -/
def nudgeOffsets : List (Int × Int) :=
  (List.range 40).flatMap fun k =>
    (intRange (-((k : Int) + 1)) ((k : Int) + 1)).flatMap fun dx =>
      (intRange (-((k : Int) + 1)) ((k : Int) + 1)).map fun dz => (dx, dz)

/-- The candidate `c = posXZ + glm::vec3(dx * STEP, 0, dz * STEP)` with `STEP = 0.5f`. -/
def nudgeCandidate (posXZ : Vec3) (o : Int × Int) : Vec3 :=
  posXZ.add ⟨(o.1 : ℚ) * (1 / 2), 0, (o.2 : ℚ) * (1 / 2)⟩

/-- The three reference parameters of `NudgeSpawn`. -/
structure SpawnState where
  posXZ : Vec3
  box : AABB2D
  footY : ℚ
  deriving DecidableEq

/-- Spawn resolver (source lines 379-403). -/
def NudgeSpawn (d : CollisionData) (MAP_Y_OFFSET : ℚ) (posXZ : Vec3) (box : AABB2D)
    (footY : ℚ) : SpawnState :=
  if !blocked d.gWalls box footY posXZ then ⟨posXZ, box, footY⟩
  else
    match nudgeOffsets.find? fun o => !blocked d.gWalls box footY (nudgeCandidate posXZ o) with
    | some o =>
        let c := nudgeCandidate posXZ o
        let y := SampleFloorY d.gFloorTris MAP_Y_OFFSET c
        ⟨c, { box with center := ⟨c.x, c.z⟩ }, y⟩
    | none => ⟨posXZ, box, footY⟩

/-! ## Vertical physics of the main loop -/

/-- The player variables of `main` that the frame update reads and writes. -/
structure PlayerState where
  playerPosXZ : Vec3
  playerBox : AABB2D
  playerAbs : Vec3
  playerFootY : ℚ
  gVelY : ℚ
  gGrounded : Bool
  deriving DecidableEq

/-- The block `// Vertical physics` of the main loop (source lines 489-507). -/
def verticalPhysics (d : CollisionData) (MAP_Y_OFFSET PLAYER_FOOT_BIAS deltaTime : ℚ)
    (s : PlayerState) : PlayerState :=
  let gVelY := s.gVelY - GRAVITY * deltaTime
  let proposedY := s.playerAbs.y + gVelY * deltaTime
  let floorY := SampleFloorY d.gFloorTris MAP_Y_OFFSET s.playerPosXZ
  let minY := floorY + PLAYER_FOOT_BIAS
  if proposedY ≤ minY then
    { s with
      playerAbs := ⟨s.playerPosXZ.x, minY, s.playerPosXZ.z⟩
      gVelY := 0
      gGrounded := true
      playerFootY := floorY }
  else
    { s with
      playerAbs := ⟨s.playerPosXZ.x, proposedY, s.playerPosXZ.z⟩
      gVelY := gVelY
      gGrounded := false }

/-! ## Push-out loops and the frame update -/

/-- The wrapper `ResolveStaticWall` (source lines 229-231). -/
def ResolveStaticWall (w : WallBox) (dynBox : AABB2D) (posXZ : Vec3) : AABB2D × Vec3 :=
  ResolveStaticXZ w.boxXZ dynBox posXZ

/-- The variables of a push-out loop: the box being pushed (`tmp` in `processInput`, `b`
in `main`), the player position, and the flag `any` of the current pass. -/
structure PushState where
  box : AABB2D
  posXZ : Vec3
  any : Bool
  deriving DecidableEq

/-- Body of the loop over the walls in a push-out pass: `if (IntersectsWallAtHeight(w,
tmp, playerFootY)) { ResolveStaticWall(w, tmp, playerPosXZ); any = true; }`. -/
def pushOutStep (footY : ℚ) (st : PushState) (w : WallBox) : PushState :=
  if IntersectsWallAtHeight w st.box footY then
    ⟨(ResolveStaticWall w st.box st.posXZ).1, (ResolveStaticWall w st.box st.posXZ).2, true⟩
  else st

/-- One pass `bool any = false; for (const auto& w : gWalls) ...` of a push-out loop. -/
def pushOutPass (gWalls : List WallBox) (footY : ℚ) (box : AABB2D) (posXZ : Vec3) :
    PushState :=
  gWalls.foldl (pushOutStep footY) ⟨box, posXZ, false⟩

/-- The loop `for (int it = 0; it < n; ++it) { pass; if (!any) break; }` (source lines
324-330 and 515-521). Returns the pushed box and the player position. -/
def pushOutLoop (gWalls : List WallBox) (footY : ℚ) : ℕ → AABB2D → Vec3 → AABB2D × Vec3
  | 0, box, posXZ => (box, posXZ)
  | n + 1, box, posXZ =>
      let st := pushOutPass gWalls footY box posXZ
      if !st.any then (st.box, st.posXZ)
      else pushOutLoop gWalls footY n st.box st.posXZ

/-- The Blocked branch of `processInput` (source lines 322-331): multi-pass push-out of
`tmp`, the player box re-centred at the player position. Returns `playerBox` and
`playerPosXZ`. -/
def blockedPushOut (gWalls : List WallBox) (playerFootY : ℚ) (playerBox : AABB2D)
    (playerPosXZ : Vec3) : AABB2D × Vec3 :=
  let tmp : AABB2D := { playerBox with center := ⟨playerPosXZ.x, playerPosXZ.z⟩ }
  let r := pushOutLoop gWalls playerFootY UNSTICK_ITER tmp playerPosXZ
  ({ playerBox with center := r.1.center }, r.2)

/-- The movement of `processInput` for a displacement `moveXZ` (source lines 320-335). -/
def processInputMove (d : CollisionData) (MAP_Y_OFFSET : ℚ) (moveXZ : Vec3)
    (s : PlayerState) : PlayerState :=
  let r := TryMoveWithStepUp d MAP_Y_OFFSET s.playerPosXZ moveXZ s.playerFootY s.playerBox
    s.playerFootY
  if !r.ok then
    let u := blockedPushOut d.gWalls s.playerFootY r.playerBox r.posXZ
    { s with playerPosXZ := u.2, playerBox := u.1 }
  else
    { s with playerPosXZ := r.posXZ, playerBox := r.playerBox, playerFootY := r.outNewFootY }

/-- The block `// Unstick pass (height-aware)` of the main loop (source lines 509-525). -/
def unstickPass (d : CollisionData) (s : PlayerState) : PlayerState :=
  let b : AABB2D :=
    ⟨s.playerBox.center,
      ⟨max (1 / 100) (s.playerBox.halfExt.x - SKIN), max (1 / 100) (s.playerBox.halfExt.y - SKIN)⟩⟩
  let r := pushOutLoop d.gWalls s.playerFootY UNSTICK_ITER b s.playerPosXZ
  { s with
    playerPosXZ := r.2
    playerBox := { s.playerBox with center := r.1.center }
    playerAbs := ⟨r.2.x, s.playerAbs.y, r.2.z⟩ }

/-- The block `// Step-down snap (smooth descent)` of the main loop (source lines
527-535). -/
def stepDownSnap (d : CollisionData) (MAP_Y_OFFSET PLAYER_FOOT_BIAS : ℚ) (s : PlayerState) :
    PlayerState :=
  let newFloor := SampleFloorY d.gFloorTris MAP_Y_OFFSET s.playerPosXZ
  let drop := s.playerFootY - newFloor
  if s.gGrounded = true ∧ drop > STEP_SNAP_EPS ∧ drop ≤ STEP_DOWN_MAX then
    { s with
      playerFootY := newFloor
      playerAbs := { s.playerAbs with y := newFloor + PLAYER_FOOT_BIAS } }
  else s

/-! ## Single precision

The definitions above compute in exact rational arithmetic. The definitions of this
section are the same functions with every `float` operation of the source rounded to
IEEE 754 binary32 (round to nearest, ties to even): `a + b` is `fadd a b`, and so on; a
literal such as `0.6f` is `round32 (3 / 5)`. Negation, `std::abs` and comparisons are
exact. Values are finite: overflow, infinities and NaN are not modelled. -/

/-- Rounding of a rational to the nearest integer, ties to even. -/
def roundEven (q : ℚ) : ℤ :=
  if q - ⌊q⌋ < 1 / 2 then ⌊q⌋
  else if 1 / 2 < q - ⌊q⌋ then ⌊q⌋ + 1
  else if ⌊q⌋ % 2 = 0 then ⌊q⌋ else ⌊q⌋ + 1

/-- The binary exponent of the binade of `x`, not below the exponent -126 of the
subnormal numbers. -/
def binade (x : ℚ) : ℤ := max (Int.log 2 |x|) (-126)

/-- The spacing of the binary32 numbers in the binade of `x` (24 significant bits). -/
def ulp32 (x : ℚ) : ℚ := (2 : ℚ) ^ (binade x - 23)

/-- The binary32 number nearest to `x`, ties to even. -/
def round32 (x : ℚ) : ℚ := (roundEven (x / ulp32 x) : ℚ) * ulp32 x

/-- The `float` sum `a + b`. -/
def fadd (a b : ℚ) : ℚ := round32 (a + b)

/-- The `float` difference `a - b`. -/
def fsub (a b : ℚ) : ℚ := round32 (a - b)

/-- The `float` product `a * b`. -/
def fmul (a b : ℚ) : ℚ := round32 (a * b)

/-- The `float` quotient `a / b`. -/
def fdiv (a b : ℚ) : ℚ := round32 (a / b)

/-- Single precision `glm::vec3 operator+`. -/
def Single.vadd (p q : Vec3) : Vec3 := ⟨fadd p.x q.x, fadd p.y q.y, fadd p.z q.z⟩

/-- Single precision `glm::vec3 operator-`. -/
def Single.vsub (p q : Vec3) : Vec3 := ⟨fsub p.x q.x, fsub p.y q.y, fsub p.z q.z⟩

/-- Single precision `glm::cross`. -/
def Single.cross (p q : Vec3) : Vec3 :=
  ⟨fsub (fmul p.y q.z) (fmul q.y p.z), fsub (fmul p.z q.x) (fmul q.z p.x),
    fsub (fmul p.x q.y) (fmul q.x p.y)⟩

/-- Single precision `glm::dot`: the three products are summed left to right. -/
def Single.dot (p q : Vec3) : ℚ := fadd (fadd (fmul p.x q.x) (fmul p.y q.y)) (fmul p.z q.z)

/-- The constant `STEP_MAX = 1.25f`. -/
def Single.STEP_MAX : ℚ := round32 (5 / 4)

/-- The constant `STEP_SNAP_EPS = 0.03f`. -/
def Single.STEP_SNAP_EPS : ℚ := round32 (3 / 100)

/-- The constant `GRAVITY = 25.0f`. -/
def Single.GRAVITY : ℚ := round32 25

/-- Single precision `IntersectsXZ` (source lines 95-99). -/
def Single.IntersectsXZ (a b : AABB2D) : Bool :=
  if |fsub a.center.x b.center.x| > fadd a.halfExt.x b.halfExt.x then false
  else if |fsub a.center.y b.center.y| > fadd a.halfExt.y b.halfExt.y then false
  else true

/-- Single precision `ResolveStaticXZ` (source lines 100-108). -/
def Single.ResolveStaticXZ (statBox dynBox : AABB2D) (posXZ : Vec3) : AABB2D × Vec3 :=
  let dx := fsub dynBox.center.x statBox.center.x
  let dz := fsub dynBox.center.y statBox.center.y
  let px := fsub (fadd dynBox.halfExt.x statBox.halfExt.x) |dx|
  let pz := fsub (fadd dynBox.halfExt.y statBox.halfExt.y) |dz|
  if px < 0 ∨ pz < 0 then (dynBox, posXZ)
  else if px < pz then
    let sx : ℚ := if dx < 0 then -1 else 1
    ({ dynBox with center := { dynBox.center with x := fadd dynBox.center.x (fmul sx px) } },
     { posXZ with x := fadd posXZ.x (fmul sx px) })
  else
    let sz : ℚ := if dz < 0 then -1 else 1
    ({ dynBox with center := { dynBox.center with y := fadd dynBox.center.y (fmul sz pz) } },
     { posXZ with z := fadd posXZ.z (fmul sz pz) })

/-- Single precision `RaycastTri` (source lines 186-202). -/
def Single.RaycastTri (ro rd : Vec3) (tri : Tri) : Option ℚ :=
  let EPS : ℚ := round32 (1 / 1000000)
  let v0v1 := Single.vsub tri.b tri.a
  let v0v2 := Single.vsub tri.c tri.a
  let pvec := Single.cross rd v0v2
  let det := Single.dot v0v1 pvec
  if |det| < EPS then none
  else
    let invDet := fdiv 1 det
    let tvec := Single.vsub ro tri.a
    let u := fmul (Single.dot tvec pvec) invDet
    if u < 0 ∨ u > 1 then none
    else
      let qvec := Single.cross tvec v0v1
      let v := fmul (Single.dot rd qvec) invDet
      if v < 0 ∨ fadd u v > 1 then none
      else
        let t := fmul (Single.dot v0v2 qvec) invDet
        if t ≤ 0 then none else some t

/-- One iteration of the loop of the single precision `SampleFloorY`. -/
def Single.sampleStep (ro rd : Vec3) (best : Option ℚ) (tri : Tri) : Option ℚ :=
  match Single.RaycastTri ro rd tri with
  | some t => if decide (t > 0) && ltBest t best then some t else best
  | none => best

/-- Single precision `SampleFloorY` (source lines 204-219). -/
def Single.SampleFloorY (gFloorTris : List Tri) (MAP_Y_OFFSET : ℚ) (worldPosXZ : Vec3) : ℚ :=
  let ro : Vec3 := ⟨worldPosXZ.x, 1000, worldPosXZ.z⟩
  let rd : Vec3 := ⟨0, -1, 0⟩
  match gFloorTris.foldl (Single.sampleStep ro rd) none with
  | some bestT => fadd ro.y (fmul bestT rd.y)
  | none => MAP_Y_OFFSET

/-- Single precision `IntersectsWallAtHeight` (source lines 222-227). -/
def Single.IntersectsWallAtHeight (w : WallBox) (ply : AABB2D) (footY : ℚ) : Bool :=
  let Y_PAD_DOWN : ℚ := round32 (3 / 5)
  let Y_PAD_UP : ℚ := round32 (9 / 5)
  if footY < fsub w.minY Y_PAD_DOWN ∨ footY > fadd w.maxY Y_PAD_UP then false
  else Single.IntersectsXZ ply w.boxXZ

/-- The wall loop of the single precision `TryMoveWithStepUp`. -/
def Single.collide (gWalls : List WallBox) (box : AABB2D) (footY : ℚ) : Bool :=
  gWalls.any fun w => Single.IntersectsWallAtHeight w box footY

/-- The lambda `blocked` of `NudgeSpawn` in single precision. -/
def Single.blocked (gWalls : List WallBox) (box : AABB2D) (footY : ℚ) (p : Vec3) : Bool :=
  gWalls.any fun w => Single.IntersectsWallAtHeight w { box with center := ⟨p.x, p.z⟩ } footY

/-- Single precision `TryMoveWithStepUp` (source lines 264-293). -/
def Single.TryMoveWithStepUp (d : CollisionData) (MAP_Y_OFFSET : ℚ) (posXZ moveXZ : Vec3)
    (currentFootY : ℚ) (playerBox : AABB2D) (outNewFootY : ℚ) : MoveResult :=
  let candidate := Single.vadd posXZ moveXZ
  let candBox : AABB2D := { playerBox with center := ⟨candidate.x, candidate.z⟩ }
  if !Single.collide d.gWalls candBox currentFootY then
    ⟨true, candidate, { playerBox with center := candBox.center }, currentFootY⟩
  else
    let newFloorY := Single.SampleFloorY d.gFloorTris MAP_Y_OFFSET candidate
    let diff := fsub newFloorY currentFootY
    if diff > -Single.STEP_SNAP_EPS ∧ diff ≤ Single.STEP_MAX then
      if !Single.collide d.gWalls candBox newFloorY then
        ⟨true, candidate, { playerBox with center := candBox.center }, newFloorY⟩
      else ⟨false, posXZ, playerBox, outNewFootY⟩
    else ⟨false, posXZ, playerBox, outNewFootY⟩

/-- Single precision `// Vertical physics` block of the main loop (source lines 489-507). -/
def Single.verticalPhysics (d : CollisionData) (MAP_Y_OFFSET PLAYER_FOOT_BIAS deltaTime : ℚ)
    (s : PlayerState) : PlayerState :=
  let gVelY := fsub s.gVelY (fmul Single.GRAVITY deltaTime)
  let proposedY := fadd s.playerAbs.y (fmul gVelY deltaTime)
  let floorY := Single.SampleFloorY d.gFloorTris MAP_Y_OFFSET s.playerPosXZ
  let minY := fadd floorY PLAYER_FOOT_BIAS
  if proposedY ≤ minY then
    { s with
      playerAbs := ⟨s.playerPosXZ.x, minY, s.playerPosXZ.z⟩
      gVelY := 0
      gGrounded := true
      playerFootY := floorY }
  else
    { s with
      playerAbs := ⟨s.playerPosXZ.x, proposedY, s.playerPosXZ.z⟩
      gVelY := gVelY
      gGrounded := false }

/-- Single precision wrapper `ResolveStaticWall` (source lines 229-231). -/
def Single.ResolveStaticWall (w : WallBox) (dynBox : AABB2D) (posXZ : Vec3) : AABB2D × Vec3 :=
  Single.ResolveStaticXZ w.boxXZ dynBox posXZ

/-- Single precision body of the wall loop of a push-out pass. -/
def Single.pushOutStep (footY : ℚ) (st : PushState) (w : WallBox) : PushState :=
  if Single.IntersectsWallAtHeight w st.box footY then
    ⟨(Single.ResolveStaticWall w st.box st.posXZ).1,
      (Single.ResolveStaticWall w st.box st.posXZ).2, true⟩
  else st

/-- Single precision push-out pass. -/
def Single.pushOutPass (gWalls : List WallBox) (footY : ℚ) (box : AABB2D) (posXZ : Vec3) :
    PushState :=
  gWalls.foldl (Single.pushOutStep footY) ⟨box, posXZ, false⟩

/-- Single precision push-out loop (source lines 324-330 and 515-521). -/
def Single.pushOutLoop (gWalls : List WallBox) (footY : ℚ) : ℕ → AABB2D → Vec3 → AABB2D × Vec3
  | 0, box, posXZ => (box, posXZ)
  | n + 1, box, posXZ =>
      let st := Single.pushOutPass gWalls footY box posXZ
      if !st.any then (st.box, st.posXZ)
      else Single.pushOutLoop gWalls footY n st.box st.posXZ

/-- Single precision Blocked branch of `processInput` (source lines 322-331). -/
def Single.blockedPushOut (gWalls : List WallBox) (playerFootY : ℚ) (playerBox : AABB2D)
    (playerPosXZ : Vec3) : AABB2D × Vec3 :=
  let tmp : AABB2D := { playerBox with center := ⟨playerPosXZ.x, playerPosXZ.z⟩ }
  let r := Single.pushOutLoop gWalls playerFootY UNSTICK_ITER tmp playerPosXZ
  ({ playerBox with center := r.1.center }, r.2)

/-! ## Quantities used in the statements -/

/-- Penetration depth on x of `dynBox` into `statBox`: sum of the x half-extents minus
the x distance of the centres (`px` of `ResolveStaticXZ`). -/
def penX (statBox dynBox : AABB2D) : ℚ :=
  (dynBox.halfExt.x + statBox.halfExt.x) - |dynBox.center.x - statBox.center.x|

/-- Penetration depth on z of `dynBox` into `statBox` (`pz` of `ResolveStaticXZ`). -/
def penZ (statBox dynBox : AABB2D) : ℚ :=
  (dynBox.halfExt.y + statBox.halfExt.y) - |dynBox.center.y - statBox.center.y|

/-- The sign `(d < 0 ? -1.f : 1.f)` that points away from the static centre. -/
def awaySign (d : ℚ) : ℚ := if d < 0 then -1 else 1

/-- The wall `w` height-gates the foot elevation `f`: `f` lies in
`[w.minY - 0.6, w.maxY + 1.8]`. -/
def heightGates (w : WallBox) (f : ℚ) : Prop := w.minY - 3 / 5 ≤ f ∧ f ≤ w.maxY + 9 / 5

/-- Some wall volume of the dataset both height-gates `f` and horizontally overlaps the
footprint `r` (the `testBlocked(rect, footY)` of the specification). -/
def wallBlocks (gWalls : List WallBox) (r : AABB2D) (f : ℚ) : Prop :=
  ∃ w ∈ gWalls, heightGates w f ∧ IntersectsXZ r w.boxXZ = true

/-- The footprint `box` re-centred at the horizontal position `p`. -/
def footprintAt (box : AABB2D) (p : Vec3) : AABB2D := ⟨⟨p.x, p.z⟩, box.halfExt⟩

/-- Free case of the horizontal step: no wall volume blocks the candidate footprint at
the current foot elevation `f`. -/
def isFree (d : CollisionData) (posXZ moveXZ : Vec3) (f : ℚ) (playerBox : AABB2D) : Prop :=
  ¬ wallBlocks d.gWalls (footprintAt playerBox (posXZ.add moveXZ)) f

/-- StepUp case of the horizontal step: the candidate footprint is blocked at `f`, the
floor `F` sampled at the candidate satisfies `-STEP_SNAP_EPS < F - f <= STEP_MAX`, and no
wall volume blocks the candidate footprint at `F`. -/
def isStepUp (d : CollisionData) (MAP_Y_OFFSET : ℚ) (posXZ moveXZ : Vec3) (f : ℚ)
    (playerBox : AABB2D) : Prop :=
  wallBlocks d.gWalls (footprintAt playerBox (posXZ.add moveXZ)) f ∧
    -STEP_SNAP_EPS < SampleFloorY d.gFloorTris MAP_Y_OFFSET (posXZ.add moveXZ) - f ∧
    SampleFloorY d.gFloorTris MAP_Y_OFFSET (posXZ.add moveXZ) - f ≤ STEP_MAX ∧
    ¬ wallBlocks d.gWalls (footprintAt playerBox (posXZ.add moveXZ))
        (SampleFloorY d.gFloorTris MAP_Y_OFFSET (posXZ.add moveXZ))

/-- The value of `det` in `RaycastTri`. -/
def rayDet (rd : Vec3) (tri : Tri) : ℚ := dot (tri.b.sub tri.a) (cross rd (tri.c.sub tri.a))

/-- The value of `u` in `RaycastTri`. -/
def rayU (ro rd : Vec3) (tri : Tri) : ℚ :=
  dot (ro.sub tri.a) (cross rd (tri.c.sub tri.a)) * (1 / rayDet rd tri)

/-- The value of `v` in `RaycastTri`. -/
def rayV (ro rd : Vec3) (tri : Tri) : ℚ :=
  dot rd (cross (ro.sub tri.a) (tri.b.sub tri.a)) * (1 / rayDet rd tri)

/-- The value of `t` in `RaycastTri`. -/
def rayT (ro rd : Vec3) (tri : Tri) : ℚ :=
  dot (tri.c.sub tri.a) (cross (ro.sub tri.a) (tri.b.sub tri.a)) * (1 / rayDet rd tri)

/-- The determinant of `RaycastTri` for the vertical probe direction `(0, -1, 0)`: twice
the signed area of the horizontal projection of the triangle. -/
def projDet (tri : Tri) : ℚ :=
  (tri.b.z - tri.a.z) * (tri.c.x - tri.a.x) - (tri.b.x - tri.a.x) * (tri.c.z - tri.a.z)

/-- The point `p` lies on the triangle `tri`: it is `a + u (b - a) + v (c - a)` with
`u >= 0`, `v >= 0`, `u + v <= 1`. -/
def onTriangle (tri : Tri) (p : Vec3) : Prop :=
  ∃ u v : ℚ, 0 ≤ u ∧ 0 ≤ v ∧ u + v ≤ 1 ∧
    p.x = tri.a.x + u * (tri.b.x - tri.a.x) + v * (tri.c.x - tri.a.x) ∧
    p.y = tri.a.y + u * (tri.b.y - tri.a.y) + v * (tri.c.y - tri.a.y) ∧
    p.z = tri.a.z + u * (tri.b.z - tri.a.z) + v * (tri.c.z - tri.a.z)

/-- The vertical probe through `(x, z)` hits `tri` at ray parameter `t`: the test
`RaycastTri` of the sampler, from the probe origin at height 1000 straight down. -/
def probeHits (x z : ℚ) (tri : Tri) (t : ℚ) : Prop :=
  RaycastTri ⟨x, 1000, z⟩ ⟨0, -1, 0⟩ tri = some t

/-- The triangle `tri` is horizontal at elevation `h`. -/
def flatAt (h : ℚ) (tri : Tri) : Prop := tri.a.y = h ∧ tri.b.y = h ∧ tri.c.y = h

/-- The footprint `dynBox` penetrates the rectangle `statBox`: the penetration depth is
positive on both axes (the footprint is not outside the rectangle). -/
def penetrates (statBox dynBox : AABB2D) : Prop :=
  0 < penX statBox dynBox ∧ 0 < penZ statBox dynBox

/-- The player state of a frame when the step-down snap is evaluated: after the vertical
physics and the unstick pass (source lines 489-525). -/
def beforeSnap (d : CollisionData) (MAP_Y_OFFSET PLAYER_FOOT_BIAS deltaTime : ℚ)
    (s : PlayerState) : PlayerState :=
  unstickPass d (verticalPhysics d MAP_Y_OFFSET PLAYER_FOOT_BIAS deltaTime s)

/-- The floor elevation `F` sampled at the player column by the vertical physics. -/
def sampledFloor (d : CollisionData) (MAP_Y_OFFSET : ℚ) (s : PlayerState) : ℚ :=
  SampleFloorY d.gFloorTris MAP_Y_OFFSET s.playerPosXZ

/-- The integrated vertical velocity `v' = v - GRAVITY * dt`. -/
def integratedVel (deltaTime : ℚ) (s : PlayerState) : ℚ := s.gVelY - GRAVITY * deltaTime

/-- The proposed height `y + v' * dt`. -/
def proposedHeight (deltaTime : ℚ) (s : PlayerState) : ℚ :=
  s.playerAbs.y + integratedVel deltaTime s * deltaTime

/-! ## Concrete data used by the scenarios -/

/-- A unit-square footprint at the origin (half-extents 1). -/
def unitBox : AABB2D := ⟨⟨0, 0⟩, ⟨1, 1⟩⟩

/-- A unit-square rectangle whose left edge is the right edge of `unitBox`. -/
def touchingBox : AABB2D := ⟨⟨2, 0⟩, ⟨1, 1⟩⟩

/-- A unit-square rectangle overlapping `unitBox` by 1/2 along x. -/
def overlapBox : AABB2D := ⟨⟨3 / 2, 0⟩, ⟨1, 1⟩⟩

/-- A wall volume of vertical extent `[0, 1]` over the square of half-width 1/2 centred
at `(2, 0)`. -/
def stepWall : WallBox := ⟨⟨⟨2, 0⟩, ⟨1 / 2, 1 / 2⟩⟩, 0, 1⟩

/-- A horizontal floor triangle at elevation `h` with corners `(0, -5)`, `(0, 5)`,
`(10, 0)` in the horizontal plane and upward normal. -/
def floorAt (h : ℚ) : Tri := ⟨⟨0, h, -5⟩, ⟨0, h, 5⟩, ⟨10, h, 0⟩, ⟨0, 1, 0⟩⟩

/-- The single step obstacle scene: `stepWall` and a floor at elevation `h`. -/
def stepScene (h : ℚ) : CollisionData := ⟨[floorAt h], [stepWall]⟩

/-- The footprint of the player of `main` (half-extents 0.40) centred at `(1, 0)`. -/
def agentBox : AABB2D := ⟨⟨1, 0⟩, ⟨2 / 5, 2 / 5⟩⟩

/-- The agent position `(1, 0)` in the horizontal plane. -/
def agentPos : Vec3 := ⟨1, 0, 0⟩

/-- A displacement of 1/2 along x, into `stepWall`. -/
def agentMove : Vec3 := ⟨1 / 2, 0, 0⟩

/-- An agent dropped at height 10 over the column `(3/2, 0)`, at rest, not grounded. -/
def droppedPlayer : PlayerState :=
  { playerPosXZ := ⟨3 / 2, 0, 0⟩
    playerBox := ⟨⟨3 / 2, 0⟩, ⟨2 / 5, 2 / 5⟩⟩
    playerAbs := ⟨3 / 2, 10, 0⟩
    playerFootY := 0
    gVelY := 0
    gGrounded := false }

/-- First half of the square `[0, 10] x [0, 10]` at elevation 0. -/
def quadTri1 : Tri := ⟨⟨0, 0, 0⟩, ⟨0, 0, 10⟩, ⟨10, 0, 0⟩, ⟨0, 1, 0⟩⟩

/-- A wall volume of vertical extent `[0, 1]` standing on the ground at the spawn. -/
def spawnWallA : WallBox := ⟨⟨⟨0, 0⟩, ⟨3 / 50, 4 / 25⟩⟩, 0, 1⟩

/-- A wall volume of vertical extent `[10, 11]` standing on the platform. -/
def spawnWallB : WallBox := ⟨⟨⟨-1 / 2, -1 / 2⟩, ⟨3 / 50, 4 / 25⟩⟩, 10, 11⟩

/-- The ground: a large floor triangle at elevation 0. -/
def groundTri : Tri := ⟨⟨-100, 0, -100⟩, ⟨-100, 0, 100⟩, ⟨100, 0, 0⟩, ⟨0, 1, 0⟩⟩

/-- A platform: a floor triangle at elevation 10 over `(-1/2, -1/2)`, not over the origin. -/
def platformTri : Tri := ⟨⟨-3 / 4, 10, -3 / 4⟩, ⟨-3 / 4, 10, 0⟩, ⟨0, 10, -3 / 4⟩, ⟨0, 1, 0⟩⟩

/-- The spawn scene: ground with a wall at the spawn, and a platform with a wall on it. -/
def spawnScene : CollisionData := ⟨[groundTri, platformTri], [spawnWallA, spawnWallB]⟩

/-- The player footprint of `main` at the spawn `(0, 0)`. -/
def spawnBox : AABB2D := ⟨⟨0, 0⟩, ⟨2 / 5, 2 / 5⟩⟩

/-- A flat floor at elevation 0 without walls. -/
def flatScene : CollisionData := ⟨[floorAt 0], []⟩

/-- The wall `w` height-gates the foot elevation `f` in single precision: `f` lies
between the computed bounds `w.minY - 0.6f` and `w.maxY + 1.8f`. -/
def Single.heightGates (w : WallBox) (f : ℚ) : Prop :=
  fsub w.minY (round32 (3 / 5)) ≤ f ∧ f ≤ fadd w.maxY (round32 (9 / 5))

/-- Some wall volume of the dataset both height-gates `f` and horizontally overlaps the
footprint `r`, as computed in single precision. -/
def Single.wallBlocks (gWalls : List WallBox) (r : AABB2D) (f : ℚ) : Prop :=
  ∃ w ∈ gWalls, Single.heightGates w f ∧ Single.IntersectsXZ r w.boxXZ = true

/-- A wall volume of vertical extent `[1, 2]` over the unit square at the origin. -/
def gateWall : WallBox := ⟨⟨⟨0, 0⟩, ⟨1, 1⟩⟩, 1, 2⟩

/-- The binary32 number just below 0.4 (`0.39999997615814`). -/
def gateFoot : ℚ := 3355443 / 8388608

/-- Free case of the horizontal step in single precision: no wall volume blocks the
candidate footprint at the current foot elevation `f`. -/
def Single.isFree (d : CollisionData) (posXZ moveXZ : Vec3) (f : ℚ) (playerBox : AABB2D) :
    Prop :=
  ¬ Single.wallBlocks d.gWalls (footprintAt playerBox (Single.vadd posXZ moveXZ)) f

/-- StepUp case of the horizontal step in single precision: the candidate footprint is
blocked at `f`, the floor `F` sampled at the candidate satisfies
`-STEP_SNAP_EPS < fl(F - f) <= STEP_MAX`, and no wall volume blocks the candidate
footprint at `F`. -/
def Single.isStepUp (d : CollisionData) (MAP_Y_OFFSET : ℚ) (posXZ moveXZ : Vec3) (f : ℚ)
    (playerBox : AABB2D) : Prop :=
  Single.wallBlocks d.gWalls (footprintAt playerBox (Single.vadd posXZ moveXZ)) f ∧
    -Single.STEP_SNAP_EPS <
      fsub (Single.SampleFloorY d.gFloorTris MAP_Y_OFFSET (Single.vadd posXZ moveXZ)) f ∧
    fsub (Single.SampleFloorY d.gFloorTris MAP_Y_OFFSET (Single.vadd posXZ moveXZ)) f ≤
      Single.STEP_MAX ∧
    ¬ Single.wallBlocks d.gWalls (footprintAt playerBox (Single.vadd posXZ moveXZ))
        (Single.SampleFloorY d.gFloorTris MAP_Y_OFFSET (Single.vadd posXZ moveXZ))

/-- A horizontal floor triangle at elevation 1.25 with corners `(0, 0)`, `(0, 16)`,
`(16, 0)` in the horizontal plane. -/
def ledgeTri : Tri := ⟨⟨0, 5 / 4, 0⟩, ⟨0, 5 / 4, 16⟩, ⟨16, 5 / 4, 0⟩, ⟨0, 1, 0⟩⟩

/-- A wall volume of vertical extent `[-1.25, -1]` over the square of half-width 1 centred
at `(4, 4)`. -/
def ledgeWall : WallBox := ⟨⟨⟨4, 4⟩, ⟨1, 1⟩⟩, -(5 / 4), -1⟩

/-- The ledge scene: `ledgeTri` and `ledgeWall`. -/
def ledgeScene : CollisionData := ⟨[ledgeTri], [ledgeWall]⟩

/-- The agent position `(3, 4)` in the horizontal plane. -/
def ledgePos : Vec3 := ⟨3, 0, 4⟩

/-- The player footprint of `main` (half-extents `0.40f`) centred at `(3, 4)`. -/
def ledgeBox : AABB2D := ⟨⟨3, 4⟩, ⟨13421773 / 33554432, 13421773 / 33554432⟩⟩

/-- A foot elevation just below zero, `-2^-27`. -/
def ledgeFoot : ℚ := -(1 / 134217728)

/-- The single precision vertical probe through `(x, z)` reports a hit of `tri` at ray
parameter `t`: the test `RaycastTri` of the sampler in binary32 arithmetic, from the probe
origin at height 1000 straight down. -/
def Single.probeHits (x z : ℚ) (tri : Tri) (t : ℚ) : Prop :=
  Single.RaycastTri ⟨x, 1000, z⟩ ⟨0, -1, 0⟩ tri = some t

/-- The floor elevation `F` sampled at the player column by the single precision vertical
physics. -/
def Single.sampledFloor (d : CollisionData) (MAP_Y_OFFSET : ℚ) (s : PlayerState) : ℚ :=
  Single.SampleFloorY d.gFloorTris MAP_Y_OFFSET s.playerPosXZ

/-- The integrated vertical velocity `v' = fl(v - fl(GRAVITY * dt))`. -/
def Single.integratedVel (deltaTime : ℚ) (s : PlayerState) : ℚ :=
  fsub s.gVelY (fmul Single.GRAVITY deltaTime)

/-- The proposed height `fl(y + fl(v' * dt))`. -/
def Single.proposedHeight (deltaTime : ℚ) (s : PlayerState) : ℚ :=
  fadd s.playerAbs.y (fmul (Single.integratedVel deltaTime s) deltaTime)

/-- The constant `PLAYER_FOOT_BIAS = 1.15f` of `main`. -/
def footBias : ℚ := 9646899 / 8388608

/-- A player standing on the ledge at the column `(7/2, 4)`: height `fl(1.25 + 1.15f)`,
vertical velocity `26 / 4096`, not grounded. -/
def ledgePlayer : PlayerState :=
  { playerPosXZ := ⟨7 / 2, 0, 4⟩
    playerBox := ⟨⟨7 / 2, 4⟩, ⟨13421773 / 33554432, 13421773 / 33554432⟩⟩
    playerAbs := ⟨7 / 2, 5033165 / 2097152, 4⟩
    playerFootY := 5 / 4
    gVelY := 13 / 2048
    gGrounded := false }

/-- Penetration depth on x as computed by the single precision `ResolveStaticXZ`:
`px = fl(fl(hd + hs) - |fl(cd - cs)|)`. -/
def Single.penX (statBox dynBox : AABB2D) : ℚ :=
  fsub (fadd dynBox.halfExt.x statBox.halfExt.x) |fsub dynBox.center.x statBox.center.x|

/-- Penetration depth on z as computed by the single precision `ResolveStaticXZ`. -/
def Single.penZ (statBox dynBox : AABB2D) : ℚ :=
  fsub (fadd dynBox.halfExt.y statBox.halfExt.y) |fsub dynBox.center.y statBox.center.y|

/-- A static unit square centred at `(1025.5, 0)`. -/
def farBox : AABB2D := ⟨⟨2051 / 2, 0⟩, ⟨1, 1⟩⟩

/-- A dynamic rectangle centred at `(1024, 0)` with half-extents `(1 + 2^-20, 1)`. -/
def farDyn : AABB2D := ⟨⟨1024, 0⟩, ⟨1048577 / 1048576, 1⟩⟩

/-- The overlap test is the non-strict separating-axis test. -/
lemma IntersectsXZ_eq_true_iff (a b : AABB2D) :
    IntersectsXZ a b = true ↔
      |a.center.x - b.center.x| ≤ a.halfExt.x + b.halfExt.x ∧
      |a.center.y - b.center.y| ≤ a.halfExt.y + b.halfExt.y := by
  unfold IntersectsXZ
  split_ifs with h1 h2
  · simp only [Bool.false_eq_true, false_iff, not_and, not_le]
    intro h; exact absurd h (not_le.mpr h1)
  · simp only [Bool.false_eq_true, false_iff, not_and, not_le]
    intro _; exact h2
  · simp only [true_iff]
    exact ⟨not_lt.mp h1, not_lt.mp h2⟩

/-- Exact arithmetic: `IntersectsXZ a b` is true if and only if on each axis the centre
distance is at most (less than or equal to) the sum of the half-extents on that axis; so
rectangles that only touch along an edge do count as overlapping. -/
lemma IntersectsXZ_iff_le (a b : AABB2D) :
    IntersectsXZ a b = true ↔
      |a.center.x - b.center.x| ≤ a.halfExt.x + b.halfExt.x ∧
      |a.center.y - b.center.y| ≤ a.halfExt.y + b.halfExt.y :=
  IntersectsXZ_eq_true_iff a b

/-! ## Push-out resolution -/

lemma abs_add_awaySign_mul (d p : ℚ) (hp : 0 ≤ p) : |d + awaySign d * p| = |d| + p := by
  unfold awaySign
  split_ifs with h
  · rw [abs_of_neg h, abs_of_nonpos (by linarith)]; ring
  · rw [abs_of_nonneg (not_lt.mp h), abs_of_nonneg (by linarith [not_lt.mp h])]; ring

lemma IntersectsXZ_iff_pen (statBox dynBox : AABB2D) :
    IntersectsXZ statBox dynBox = true ↔ 0 ≤ penX statBox dynBox ∧ 0 ≤ penZ statBox dynBox := by
  rw [IntersectsXZ_eq_true_iff]
  unfold penX penZ
  rw [abs_sub_comm statBox.center.x, abs_sub_comm statBox.center.y]
  constructor <;> rintro ⟨h1, h2⟩ <;> constructor <;> linarith

lemma ResolveStaticXZ_of_not_overlap (statBox dynBox : AABB2D) (posXZ : Vec3)
    (h : IntersectsXZ statBox dynBox = false) :
    ResolveStaticXZ statBox dynBox posXZ = (dynBox, posXZ) := by
  have h' : ¬ (0 ≤ penX statBox dynBox ∧ 0 ≤ penZ statBox dynBox) := by
    rw [← IntersectsXZ_iff_pen, h]; simp
  unfold penX penZ at h'
  unfold ResolveStaticXZ
  simp only
  rw [if_pos]
  by_contra hc
  rw [not_or, not_lt, not_lt] at hc
  exact h' hc

lemma ResolveStaticXZ_of_x (statBox dynBox : AABB2D) (posXZ : Vec3)
    (h : IntersectsXZ statBox dynBox = true) (hlt : penX statBox dynBox < penZ statBox dynBox) :
    ResolveStaticXZ statBox dynBox posXZ =
      (⟨⟨dynBox.center.x +
            awaySign (dynBox.center.x - statBox.center.x) * penX statBox dynBox,
          dynBox.center.y⟩, dynBox.halfExt⟩,
        ⟨posXZ.x + awaySign (dynBox.center.x - statBox.center.x) * penX statBox dynBox,
          posXZ.y, posXZ.z⟩) := by
  obtain ⟨h1, h2⟩ := (IntersectsXZ_iff_pen statBox dynBox).mp h
  simp only [penX, penZ] at h1 h2 hlt
  unfold ResolveStaticXZ penX awaySign
  simp only
  rw [if_neg (by rw [not_or, not_lt, not_lt]; exact ⟨h1, h2⟩), if_pos hlt]

lemma ResolveStaticXZ_of_z (statBox dynBox : AABB2D) (posXZ : Vec3)
    (h : IntersectsXZ statBox dynBox = true) (hle : penZ statBox dynBox ≤ penX statBox dynBox) :
    ResolveStaticXZ statBox dynBox posXZ =
      (⟨⟨dynBox.center.x,
          dynBox.center.y +
            awaySign (dynBox.center.y - statBox.center.y) * penZ statBox dynBox⟩,
          dynBox.halfExt⟩,
        ⟨posXZ.x, posXZ.y,
          posXZ.z + awaySign (dynBox.center.y - statBox.center.y) * penZ statBox dynBox⟩) := by
  obtain ⟨h1, h2⟩ := (IntersectsXZ_iff_pen statBox dynBox).mp h
  simp only [penX, penZ] at h1 h2 hle
  unfold ResolveStaticXZ penZ awaySign
  simp only
  rw [if_neg (by rw [not_or, not_lt, not_lt]; exact ⟨h1, h2⟩), if_neg (not_lt.mpr hle)]

/-- After a push-out of an overlapping pair the penetration depth on one axis is zero
and on the other axis is unchanged and non-negative. -/
lemma pen_after_resolve (statBox dynBox : AABB2D) (posXZ : Vec3)
    (h : IntersectsXZ statBox dynBox = true) :
    (penX statBox (ResolveStaticXZ statBox dynBox posXZ).1 = 0 ∧
        penZ statBox (ResolveStaticXZ statBox dynBox posXZ).1 = penZ statBox dynBox) ∨
      (penZ statBox (ResolveStaticXZ statBox dynBox posXZ).1 = 0 ∧
        penX statBox (ResolveStaticXZ statBox dynBox posXZ).1 = penX statBox dynBox) := by
  obtain ⟨h1, h2⟩ := (IntersectsXZ_iff_pen statBox dynBox).mp h
  rcases lt_or_le (penX statBox dynBox) (penZ statBox dynBox) with hlt | hle
  · left
    rw [ResolveStaticXZ_of_x statBox dynBox posXZ h hlt]
    refine ⟨?_, rfl⟩
    show (dynBox.halfExt.x + statBox.halfExt.x) -
      |dynBox.center.x + awaySign (dynBox.center.x - statBox.center.x) * penX statBox dynBox
        - statBox.center.x| = 0
    have e := abs_add_awaySign_mul (dynBox.center.x - statBox.center.x) _ h1
    rw [show dynBox.center.x + awaySign (dynBox.center.x - statBox.center.x) *
          penX statBox dynBox - statBox.center.x =
        dynBox.center.x - statBox.center.x +
          awaySign (dynBox.center.x - statBox.center.x) * penX statBox dynBox by ring, e]
    unfold penX; ring
  · right
    rw [ResolveStaticXZ_of_z statBox dynBox posXZ h hle]
    refine ⟨?_, rfl⟩
    show (dynBox.halfExt.y + statBox.halfExt.y) -
      |dynBox.center.y + awaySign (dynBox.center.y - statBox.center.y) * penZ statBox dynBox
        - statBox.center.y| = 0
    have e := abs_add_awaySign_mul (dynBox.center.y - statBox.center.y) _ h2
    rw [show dynBox.center.y + awaySign (dynBox.center.y - statBox.center.y) *
          penZ statBox dynBox - statBox.center.y =
        dynBox.center.y - statBox.center.y +
          awaySign (dynBox.center.y - statBox.center.y) * penZ statBox dynBox by ring, e]
    unfold penZ; ring

/-- Exact arithmetic: for every static and dynamic rectangle that `IntersectsXZ` reports as
overlapping, after `ResolveStaticXZ` the penetration depth is exactly zero on one axis (the
rectangles touch there), so the resolved rectangle does not strictly overlap the static one (it
is not the case that on both axes the centre distance is less than the sum of half-extents);
`IntersectsXZ`, which counts touching, still returns true. -/
lemma ResolveStaticXZ_no_strict_overlap (statBox dynBox : AABB2D) (posXZ : Vec3)
    (h : IntersectsXZ statBox dynBox = true) :
    (penX statBox (ResolveStaticXZ statBox dynBox posXZ).1 = 0 ∨
        penZ statBox (ResolveStaticXZ statBox dynBox posXZ).1 = 0) ∧
      ¬ (|(ResolveStaticXZ statBox dynBox posXZ).1.center.x - statBox.center.x| <
            (ResolveStaticXZ statBox dynBox posXZ).1.halfExt.x + statBox.halfExt.x ∧
          |(ResolveStaticXZ statBox dynBox posXZ).1.center.y - statBox.center.y| <
            (ResolveStaticXZ statBox dynBox posXZ).1.halfExt.y + statBox.halfExt.y) ∧
      IntersectsXZ statBox (ResolveStaticXZ statBox dynBox posXZ).1 = true := by
  obtain ⟨h1, h2⟩ := (IntersectsXZ_iff_pen statBox dynBox).mp h
  have key := pen_after_resolve statBox dynBox posXZ h
  refine ⟨?_, ?_, ?_⟩
  · rcases key with ⟨k, _⟩ | ⟨k, _⟩
    · exact Or.inl k
    · exact Or.inr k
  · rintro ⟨a1, a2⟩
    rcases key with ⟨k, _⟩ | ⟨k, _⟩
    · unfold penX at k; linarith
    · unfold penZ at k; linarith
  · rw [IntersectsXZ_iff_pen]
    rcases key with ⟨k, k'⟩ | ⟨k, k'⟩
    · exact ⟨by rw [k], by rw [k']; exact h2⟩
    · exact ⟨by rw [k']; exact h1, by rw [k]⟩

/-- Exact arithmetic: minimum-translation push-out. With `penX`, `penZ` the penetration depths
and `awaySign` the sign of the dynamic-minus-static centre difference: if the rectangles
overlap and the x penetration is the smaller one, `ResolveStaticXZ` adds `awaySign dx * penX`
to the x coordinate of both the dynamic centre and the caller position, which moves the centre
away from the static centre by exactly `penX`, and leaves the other coordinates and the
half-extents unchanged; if they overlap and the z penetration is the smaller one (or both are
equal) the same holds along z with `penZ`; if the rectangles do not overlap, the dynamic
rectangle and the position are unchanged. -/
lemma ResolveStaticXZ_min_translation (statBox dynBox : AABB2D) (posXZ : Vec3) :
    (IntersectsXZ statBox dynBox = true → penX statBox dynBox < penZ statBox dynBox →
      (ResolveStaticXZ statBox dynBox posXZ).1.center.x =
          dynBox.center.x +
            awaySign (dynBox.center.x - statBox.center.x) * penX statBox dynBox ∧
        (ResolveStaticXZ statBox dynBox posXZ).2.x =
          posXZ.x + awaySign (dynBox.center.x - statBox.center.x) * penX statBox dynBox ∧
        |(ResolveStaticXZ statBox dynBox posXZ).1.center.x - statBox.center.x| =
          |dynBox.center.x - statBox.center.x| + penX statBox dynBox ∧
        (ResolveStaticXZ statBox dynBox posXZ).1.center.y = dynBox.center.y ∧
        (ResolveStaticXZ statBox dynBox posXZ).1.halfExt = dynBox.halfExt ∧
        (ResolveStaticXZ statBox dynBox posXZ).2.y = posXZ.y ∧
        (ResolveStaticXZ statBox dynBox posXZ).2.z = posXZ.z) ∧
    (IntersectsXZ statBox dynBox = true → penZ statBox dynBox ≤ penX statBox dynBox →
      (ResolveStaticXZ statBox dynBox posXZ).1.center.y =
          dynBox.center.y +
            awaySign (dynBox.center.y - statBox.center.y) * penZ statBox dynBox ∧
        (ResolveStaticXZ statBox dynBox posXZ).2.z =
          posXZ.z + awaySign (dynBox.center.y - statBox.center.y) * penZ statBox dynBox ∧
        |(ResolveStaticXZ statBox dynBox posXZ).1.center.y - statBox.center.y| =
          |dynBox.center.y - statBox.center.y| + penZ statBox dynBox ∧
        (ResolveStaticXZ statBox dynBox posXZ).1.center.x = dynBox.center.x ∧
        (ResolveStaticXZ statBox dynBox posXZ).1.halfExt = dynBox.halfExt ∧
        (ResolveStaticXZ statBox dynBox posXZ).2.x = posXZ.x ∧
        (ResolveStaticXZ statBox dynBox posXZ).2.y = posXZ.y) ∧
    (IntersectsXZ statBox dynBox = false →
      ResolveStaticXZ statBox dynBox posXZ = (dynBox, posXZ)) := by
  refine ⟨fun h hlt => ?_, fun h hle => ?_, fun h => ResolveStaticXZ_of_not_overlap _ _ _ h⟩
  · obtain ⟨h1, _⟩ := (IntersectsXZ_iff_pen statBox dynBox).mp h
    rw [ResolveStaticXZ_of_x statBox dynBox posXZ h hlt]
    refine ⟨rfl, rfl, ?_, rfl, rfl, rfl, rfl⟩
    have e := abs_add_awaySign_mul (dynBox.center.x - statBox.center.x) _ h1
    rw [← e]
    congr 1
    show dynBox.center.x + _ - statBox.center.x = _
    ring
  · obtain ⟨_, h2⟩ := (IntersectsXZ_iff_pen statBox dynBox).mp h
    rw [ResolveStaticXZ_of_z statBox dynBox posXZ h hle]
    refine ⟨rfl, rfl, ?_, rfl, rfl, rfl, rfl⟩
    have e := abs_add_awaySign_mul (dynBox.center.y - statBox.center.y) _ h2
    rw [← e]
    congr 1
    show dynBox.center.y + _ - statBox.center.y = _
    ring

/-! ## Height-aware gating -/

lemma IntersectsWallAtHeight_eq_true_iff (w : WallBox) (r : AABB2D) (f : ℚ) :
    IntersectsWallAtHeight w r f = true ↔ heightGates w f ∧ IntersectsXZ r w.boxXZ = true := by
  unfold IntersectsWallAtHeight heightGates
  simp only
  split_ifs with h
  · simp only [Bool.false_eq_true, false_iff, not_and]
    intro hg
    rcases h with h | h
    · exact absurd hg.1 (not_le.mpr h)
    · exact absurd hg.2 (not_le.mpr h)
  · rw [not_or, not_lt, not_lt] at h
    exact ⟨fun hx => ⟨h, hx⟩, fun hx => hx.2⟩

lemma collide_eq_true_iff (gWalls : List WallBox) (r : AABB2D) (f : ℚ) :
    collide gWalls r f = true ↔ wallBlocks gWalls r f := by
  unfold collide wallBlocks
  rw [List.any_eq_true]
  constructor
  · rintro ⟨w, hw, h⟩
    exact ⟨w, hw, (IntersectsWallAtHeight_eq_true_iff w r f).mp h⟩
  · rintro ⟨w, hw, h⟩
    exact ⟨w, hw, (IntersectsWallAtHeight_eq_true_iff w r f).mpr h⟩

lemma blocked_eq_collide (gWalls : List WallBox) (box : AABB2D) (f : ℚ) (p : Vec3) :
    blocked gWalls box f p = collide gWalls (footprintAt box p) f := rfl

/-- Exact arithmetic: height-aware gating. `IntersectsWallAtHeight w r f` is true if and only
if `w.minY - 0.6 <= f <= w.maxY + 1.8` and `IntersectsXZ r w.boxXZ` is true; consequently the
blocked test of `TryMoveWithStepUp` (`collide`) and the one of `NudgeSpawn` (`blocked`) are
true if and only if some wall volume of the dataset both height-gates `f` and horizontally
overlaps the tested footprint. -/
lemma IntersectsWallAtHeight_gating (w : WallBox) (gWalls : List WallBox) (r : AABB2D)
    (f : ℚ) (p : Vec3) :
    (IntersectsWallAtHeight w r f = true ↔
        (w.minY - 3 / 5 ≤ f ∧ f ≤ w.maxY + 9 / 5) ∧ IntersectsXZ r w.boxXZ = true) ∧
      (collide gWalls r f = true ↔
        ∃ v ∈ gWalls, (v.minY - 3 / 5 ≤ f ∧ f ≤ v.maxY + 9 / 5) ∧
          IntersectsXZ r v.boxXZ = true) ∧
      (blocked gWalls r f p = true ↔
        ∃ v ∈ gWalls, (v.minY - 3 / 5 ≤ f ∧ f ≤ v.maxY + 9 / 5) ∧
          IntersectsXZ ⟨⟨p.x, p.z⟩, r.halfExt⟩ v.boxXZ = true) := by
  refine ⟨IntersectsWallAtHeight_eq_true_iff w r f, collide_eq_true_iff gWalls r f, ?_⟩
  rw [blocked_eq_collide]
  exact collide_eq_true_iff gWalls (footprintAt r p) f

/-! ## The horizontal step -/

lemma TryMoveWithStepUp_of_free (d : CollisionData) (MAP_Y_OFFSET : ℚ) (posXZ moveXZ : Vec3)
    (f : ℚ) (playerBox : AABB2D) (out : ℚ) (h : isFree d posXZ moveXZ f playerBox) :
    TryMoveWithStepUp d MAP_Y_OFFSET posXZ moveXZ f playerBox out =
      ⟨true, posXZ.add moveXZ, footprintAt playerBox (posXZ.add moveXZ), f⟩ := by
  unfold isFree at h
  rw [← collide_eq_true_iff, Bool.not_eq_true] at h
  unfold footprintAt at h
  unfold TryMoveWithStepUp footprintAt
  simp only [h, Bool.not_false, if_true]

lemma TryMoveWithStepUp_of_stepUp (d : CollisionData) (MAP_Y_OFFSET : ℚ)
    (posXZ moveXZ : Vec3) (f : ℚ) (playerBox : AABB2D) (out : ℚ)
    (h : isStepUp d MAP_Y_OFFSET posXZ moveXZ f playerBox) :
    TryMoveWithStepUp d MAP_Y_OFFSET posXZ moveXZ f playerBox out =
      ⟨true, posXZ.add moveXZ, footprintAt playerBox (posXZ.add moveXZ),
        SampleFloorY d.gFloorTris MAP_Y_OFFSET (posXZ.add moveXZ)⟩ := by
  obtain ⟨hb, h1, h2, hn⟩ := h
  rw [← collide_eq_true_iff] at hb
  rw [← collide_eq_true_iff, Bool.not_eq_true] at hn
  unfold footprintAt at hb hn
  unfold TryMoveWithStepUp footprintAt
  simp only [hb, hn, Bool.not_true, Bool.not_false, if_true, Bool.false_eq_true, if_false]
  rw [if_pos ⟨h1, h2⟩]

lemma TryMoveWithStepUp_of_blocked (d : CollisionData) (MAP_Y_OFFSET : ℚ)
    (posXZ moveXZ : Vec3) (f : ℚ) (playerBox : AABB2D) (out : ℚ)
    (hf : ¬ isFree d posXZ moveXZ f playerBox)
    (hs : ¬ isStepUp d MAP_Y_OFFSET posXZ moveXZ f playerBox) :
    TryMoveWithStepUp d MAP_Y_OFFSET posXZ moveXZ f playerBox out =
      ⟨false, posXZ, playerBox, out⟩ := by
  unfold isFree at hf
  rw [not_not] at hf
  have hb := hf
  rw [← collide_eq_true_iff] at hb
  unfold footprintAt at hb
  unfold TryMoveWithStepUp
  simp only [hb, Bool.not_true, Bool.false_eq_true, if_false]
  split_ifs with h1 h2
  · exfalso
    apply hs
    refine ⟨hf, h1.1, h1.2, ?_⟩
    rw [← collide_eq_true_iff]
    unfold footprintAt
    simpa using h2
  · rfl
  · rfl

/-- Exact arithmetic: free / StepUp / Blocked decision. With candidate = position +
displacement and `F = SampleFloorY(candidate)`: `TryMoveWithStepUp` returns true exactly in the
Free case (no wall blocks the candidate footprint at `f`) or the StepUp case (blocked at `f`,
`-0.03 < F - f <= 1.25`, not blocked at `F`); in the Free case position and footprint centre
become the candidate and the output foot elevation is `f`; in the StepUp case they become the
candidate and the output foot elevation is `F`; in every other case it returns false and leaves
position, footprint and output foot elevation unchanged. A blocked move with `F - f = 1.25` and
a free footprint at `F` is admitted; a blocked move with `F - f = 1.25 + eps`, `eps > 0`, is
rejected. -/
lemma TryMoveWithStepUp_decision (d : CollisionData) (MAP_Y_OFFSET : ℚ)
    (posXZ moveXZ : Vec3) (f : ℚ) (playerBox : AABB2D) (out : ℚ) :
    ((TryMoveWithStepUp d MAP_Y_OFFSET posXZ moveXZ f playerBox out).ok = true ↔
        isFree d posXZ moveXZ f playerBox ∨
          isStepUp d MAP_Y_OFFSET posXZ moveXZ f playerBox) ∧
      (isFree d posXZ moveXZ f playerBox →
        TryMoveWithStepUp d MAP_Y_OFFSET posXZ moveXZ f playerBox out =
          ⟨true, posXZ.add moveXZ, ⟨⟨(posXZ.add moveXZ).x, (posXZ.add moveXZ).z⟩,
            playerBox.halfExt⟩, f⟩) ∧
      (isStepUp d MAP_Y_OFFSET posXZ moveXZ f playerBox →
        TryMoveWithStepUp d MAP_Y_OFFSET posXZ moveXZ f playerBox out =
          ⟨true, posXZ.add moveXZ, ⟨⟨(posXZ.add moveXZ).x, (posXZ.add moveXZ).z⟩,
            playerBox.halfExt⟩, SampleFloorY d.gFloorTris MAP_Y_OFFSET (posXZ.add moveXZ)⟩) ∧
      (¬ isFree d posXZ moveXZ f playerBox →
        ¬ isStepUp d MAP_Y_OFFSET posXZ moveXZ f playerBox →
        TryMoveWithStepUp d MAP_Y_OFFSET posXZ moveXZ f playerBox out =
          ⟨false, posXZ, playerBox, out⟩) ∧
      (¬ isFree d posXZ moveXZ f playerBox →
        SampleFloorY d.gFloorTris MAP_Y_OFFSET (posXZ.add moveXZ) - f = 5 / 4 →
        ¬ wallBlocks d.gWalls (footprintAt playerBox (posXZ.add moveXZ))
            (SampleFloorY d.gFloorTris MAP_Y_OFFSET (posXZ.add moveXZ)) →
        (TryMoveWithStepUp d MAP_Y_OFFSET posXZ moveXZ f playerBox out).ok = true) ∧
      (¬ isFree d posXZ moveXZ f playerBox →
        ∀ eps : ℚ, 0 < eps →
          SampleFloorY d.gFloorTris MAP_Y_OFFSET (posXZ.add moveXZ) - f = 5 / 4 + eps →
          (TryMoveWithStepUp d MAP_Y_OFFSET posXZ moveXZ f playerBox out).ok = false) := by
  have hfree := TryMoveWithStepUp_of_free d MAP_Y_OFFSET posXZ moveXZ f playerBox out
  have hstep := TryMoveWithStepUp_of_stepUp d MAP_Y_OFFSET posXZ moveXZ f playerBox out
  have hblk := TryMoveWithStepUp_of_blocked d MAP_Y_OFFSET posXZ moveXZ f playerBox out
  refine ⟨?_, hfree, hstep, hblk, ?_, ?_⟩
  · constructor
    · intro hok
      by_contra hc
      rw [not_or] at hc
      rw [hblk hc.1 hc.2] at hok
      exact Bool.false_ne_true hok
    · rintro (h | h)
      · rw [hfree h]
      · rw [hstep h]
  · intro hnf hd hn
    have hs : isStepUp d MAP_Y_OFFSET posXZ moveXZ f playerBox := by
      refine ⟨not_not.mp hnf, ?_, ?_, hn⟩
      · rw [hd]; norm_num [STEP_SNAP_EPS]
      · rw [hd]; norm_num [STEP_MAX]
    rw [hstep hs]
  · intro hnf eps heps hd
    have hs : ¬ isStepUp d MAP_Y_OFFSET posXZ moveXZ f playerBox := by
      rintro ⟨_, _, h2, _⟩
      rw [hd] at h2
      unfold STEP_MAX at h2
      linarith
    rw [hblk hnf hs]

/-- The probe at the candidate column `(3/2, 0)` hits `floorAt h` at ray parameter
`1000 - h` whenever the floor lies below the probe origin. -/
lemma RaycastTri_floorAt (h : ℚ) (hh : h < 1000) :
    RaycastTri ⟨3 / 2, 1000, 0⟩ ⟨0, -1, 0⟩ (floorAt h) = some (1000 - h) := by
  norm_num [RaycastTri, floorAt, cross, dot, Vec3.sub, abs_eq_max_neg]
  exact ⟨hh, by ring⟩

lemma SampleFloorY_floorAt (h mapY y : ℚ) (hh : h < 1000) :
    SampleFloorY [floorAt h] mapY ⟨3 / 2, y, 0⟩ = h := by
  have h0 : (0 : ℚ) < 1000 - h := by linarith
  have e : sampleStep ⟨3 / 2, 1000, 0⟩ ⟨0, -1, 0⟩ none (floorAt h) = some (1000 - h) := by
    unfold sampleStep
    rw [RaycastTri_floorAt h hh]
    simp [ltBest, h0]
  show (match List.foldl (sampleStep ⟨3 / 2, 1000, 0⟩ ⟨0, -1, 0⟩) none [floorAt h] with
    | some bestT => (1000 : ℚ) + bestT * (-1)
    | none => mapY) = h
  rw [List.foldl_cons, List.foldl_nil, e]
  ring

/-- The candidate footprint of the step scene overlaps `stepWall` horizontally. -/
lemma agent_candidate_overlaps :
    IntersectsXZ (footprintAt agentBox (agentPos.add agentMove)) stepWall.boxXZ = true := by
  rw [IntersectsXZ_eq_true_iff]
  norm_num [footprintAt, agentBox, agentPos, agentMove, stepWall, Vec3.add, abs_eq_max_neg]

lemma wallBlocks_stepWall_iff (f : ℚ) :
    wallBlocks [stepWall] (footprintAt agentBox (agentPos.add agentMove)) f ↔
      -(3 / 5) ≤ f ∧ f ≤ 14 / 5 := by
  unfold wallBlocks
  simp only [List.mem_singleton, exists_eq_left, agent_candidate_overlaps, and_true]
  have e1 : stepWall.minY = 0 := rfl
  have e2 : stepWall.maxY = 1 := rfl
  unfold heightGates
  rw [e1, e2]
  constructor <;> rintro ⟨h1, h2⟩ <;> constructor <;> linarith

lemma agent_candidate_eq : agentPos.add agentMove = ⟨3 / 2, 0, 0⟩ := by
  norm_num [agentPos, agentMove, Vec3.add]

/-! ## Scenario: single step obstacle -/

/-- A single wall of vertical extent `[0, 1]` gates every foot elevation in
`[-0.6, 2.8]`, so a move into it from foot elevation 0 with the floor beyond at 0.8 is
blocked at both elevations and rejected. -/
lemma single_step_blocked (d : CollisionData) (MAP_Y_OFFSET : ℚ) (posXZ moveXZ : Vec3)
    (playerBox : AABB2D) (out : ℚ) (w : WallBox) (hw : d.gWalls = [w]) (hmin : w.minY = 0)
    (hmax : w.maxY = 1)
    (hov : IntersectsXZ (footprintAt playerBox (posXZ.add moveXZ)) w.boxXZ = true)
    (hF : SampleFloorY d.gFloorTris MAP_Y_OFFSET (posXZ.add moveXZ) = 4 / 5) :
    TryMoveWithStepUp d MAP_Y_OFFSET posXZ moveXZ 0 playerBox out =
      ⟨false, posXZ, playerBox, out⟩ := by
  have hb : ∀ f : ℚ, -(3 / 5) ≤ f → f ≤ 14 / 5 →
      wallBlocks d.gWalls (footprintAt playerBox (posXZ.add moveXZ)) f := by
    intro f h1 h2
    refine ⟨w, by rw [hw]; exact List.mem_singleton_self w, ⟨?_, ?_⟩, hov⟩
    · rw [hmin]; linarith
    · rw [hmax]; linarith
  apply TryMoveWithStepUp_of_blocked
  · unfold isFree
    rw [not_not]
    exact hb 0 (by norm_num) (by norm_num)
  · rintro ⟨_, _, _, hn⟩
    apply hn
    rw [hF]
    exact hb (4 / 5) (by norm_num) (by norm_num)

/-- C1 (as stated, refuted): in the step scene (only wall of vertical extent `[0, 1]`,
candidate footprint overlapping it, floor sampled at the candidate equal to 0.8, agent at
foot elevation 0) `TryMoveWithStepUp` does not accept the move: it returns false and
leaves position, footprint and output foot elevation unchanged. -/
theorem TryMoveWithStepUp_single_step_counterexample :
    (stepScene (4 / 5)).gWalls = [stepWall] ∧ stepWall.minY = 0 ∧ stepWall.maxY = 1 ∧
      IntersectsXZ (footprintAt agentBox (agentPos.add agentMove)) stepWall.boxXZ = true ∧
      SampleFloorY (stepScene (4 / 5)).gFloorTris (-20) (agentPos.add agentMove) = 4 / 5 ∧
      TryMoveWithStepUp (stepScene (4 / 5)) (-20) agentPos agentMove 0 agentBox 0 =
        ⟨false, agentPos, agentBox, 0⟩ := by
  have hF : SampleFloorY (stepScene (4 / 5)).gFloorTris (-20) (agentPos.add agentMove)
      = 4 / 5 := by
    rw [agent_candidate_eq]
    exact SampleFloorY_floorAt (4 / 5) (-20) 0 (by norm_num)
  exact ⟨rfl, rfl, rfl, agent_candidate_overlaps, hF,
    single_step_blocked (stepScene (4 / 5)) (-20) agentPos agentMove agentBox 0 stepWall rfl
      rfl rfl agent_candidate_overlaps hF⟩

/-- C1 (amended): for a collision dataset whose only wall volume has vertical extent
`minY = 0`, `maxY = 1`, an agent at foot elevation 0 whose candidate footprint horizontally
overlaps that wall, and a floor elevation of 0.8 sampled at the candidate position,
`TryMoveWithStepUp` rejects the move (the wall gates 0.8 as well, since
`0.8 <= maxY + 1.8`): it returns false and leaves the position, the footprint and the
output foot elevation unchanged. -/
theorem TryMoveWithStepUp_single_step_rejected (d : CollisionData) (MAP_Y_OFFSET : ℚ)
    (posXZ moveXZ : Vec3) (playerBox : AABB2D) (out : ℚ) (w : WallBox)
    (hw : d.gWalls = [w]) (hmin : w.minY = 0) (hmax : w.maxY = 1)
    (hov : IntersectsXZ ⟨⟨(posXZ.add moveXZ).x, (posXZ.add moveXZ).z⟩, playerBox.halfExt⟩
      w.boxXZ = true)
    (hF : SampleFloorY d.gFloorTris MAP_Y_OFFSET (posXZ.add moveXZ) = 4 / 5) :
    TryMoveWithStepUp d MAP_Y_OFFSET posXZ moveXZ 0 playerBox out =
      ⟨false, posXZ, playerBox, out⟩ :=
  single_step_blocked d MAP_Y_OFFSET posXZ moveXZ playerBox out w hw hmin hmax hov hF

/-- Witness of `TryMoveWithStepUp_single_step_rejected` in the step scene. -/
theorem TryMoveWithStepUp_single_step_rejected_witness :
    (TryMoveWithStepUp (stepScene (4 / 5)) (-20) agentPos agentMove 0 agentBox 0).ok = false :=
  have hF : SampleFloorY (stepScene (4 / 5)).gFloorTris (-20) (agentPos.add agentMove)
      = 4 / 5 := by
    rw [agent_candidate_eq]
    exact SampleFloorY_floorAt (4 / 5) (-20) 0 (by norm_num)
  congrArg MoveResult.ok
    (TryMoveWithStepUp_single_step_rejected (stepScene (4 / 5)) (-20) agentPos agentMove
      agentBox 0 stepWall rfl rfl rfl agent_candidate_overlaps hF)

/-! ## Vertical integration -/

/-- Exact arithmetic: floor clamping in vertical integration. With `F` the floor sampled at the
current column, `v' = v - GRAVITY * dt` and `proposed = y + v' * dt`: if `proposed <= F +
PLAYER_FOOT_BIAS` then afterwards height = `F + PLAYER_FOOT_BIAS`, vertical velocity = 0,
grounded = true and foot elevation = `F`; otherwise height = `proposed`, vertical velocity =
`v'`, grounded = false and the foot elevation is unchanged; in both cases the resulting height
is at least `F + PLAYER_FOOT_BIAS`, and grounded = true implies vertical velocity = 0. -/
lemma verticalPhysics_floor_clamp (d : CollisionData)
    (MAP_Y_OFFSET PLAYER_FOOT_BIAS deltaTime : ℚ) (s : PlayerState) :
    (proposedHeight deltaTime s ≤ sampledFloor d MAP_Y_OFFSET s + PLAYER_FOOT_BIAS →
        (verticalPhysics d MAP_Y_OFFSET PLAYER_FOOT_BIAS deltaTime s).playerAbs.y =
            sampledFloor d MAP_Y_OFFSET s + PLAYER_FOOT_BIAS ∧
          (verticalPhysics d MAP_Y_OFFSET PLAYER_FOOT_BIAS deltaTime s).gVelY = 0 ∧
          (verticalPhysics d MAP_Y_OFFSET PLAYER_FOOT_BIAS deltaTime s).gGrounded = true ∧
          (verticalPhysics d MAP_Y_OFFSET PLAYER_FOOT_BIAS deltaTime s).playerFootY =
            sampledFloor d MAP_Y_OFFSET s) ∧
      (¬ proposedHeight deltaTime s ≤ sampledFloor d MAP_Y_OFFSET s + PLAYER_FOOT_BIAS →
        (verticalPhysics d MAP_Y_OFFSET PLAYER_FOOT_BIAS deltaTime s).playerAbs.y =
            proposedHeight deltaTime s ∧
          (verticalPhysics d MAP_Y_OFFSET PLAYER_FOOT_BIAS deltaTime s).gVelY =
            integratedVel deltaTime s ∧
          (verticalPhysics d MAP_Y_OFFSET PLAYER_FOOT_BIAS deltaTime s).gGrounded = false ∧
          (verticalPhysics d MAP_Y_OFFSET PLAYER_FOOT_BIAS deltaTime s).playerFootY =
            s.playerFootY) ∧
      sampledFloor d MAP_Y_OFFSET s + PLAYER_FOOT_BIAS ≤
        (verticalPhysics d MAP_Y_OFFSET PLAYER_FOOT_BIAS deltaTime s).playerAbs.y ∧
      ((verticalPhysics d MAP_Y_OFFSET PLAYER_FOOT_BIAS deltaTime s).gGrounded = true →
        (verticalPhysics d MAP_Y_OFFSET PLAYER_FOOT_BIAS deltaTime s).gVelY = 0) := by
  unfold verticalPhysics proposedHeight integratedVel sampledFloor
  simp only
  by_cases h : s.playerAbs.y + (s.gVelY - GRAVITY * deltaTime) * deltaTime ≤
      SampleFloorY d.gFloorTris MAP_Y_OFFSET s.playerPosXZ + PLAYER_FOOT_BIAS
  · rw [if_pos h]
    exact ⟨fun _ => ⟨rfl, rfl, rfl, rfl⟩, fun hn => absurd h hn, le_refl _, fun _ => rfl⟩
  · rw [if_neg h]
    refine ⟨fun hp => absurd hp h, fun _ => ⟨rfl, rfl, rfl, rfl⟩, le_of_lt (not_le.mp h), ?_⟩
    intro hg
    exact absurd hg Bool.false_ne_true

/-! ## Geometry classifier -/

lemma RaycastTri_eq (ro rd : Vec3) (tri : Tri) :
    RaycastTri ro rd tri =
      if |rayDet rd tri| < 1 / 1000000 then none
      else if rayU ro rd tri < 0 ∨ rayU ro rd tri > 1 then none
      else if rayV ro rd tri < 0 ∨ rayU ro rd tri + rayV ro rd tri > 1 then none
      else if rayT ro rd tri ≤ 0 then none else some (rayT ro rd tri) := rfl

lemma rayDet_vertical (tri : Tri) : rayDet ⟨0, -1, 0⟩ tri = projDet tri := by
  unfold rayDet projDet dot cross Vec3.sub
  simp only
  ring

lemma RaycastTri_pos (ro rd : Vec3) (tri : Tri) (t : ℚ) (h : RaycastTri ro rd tri = some t) :
    0 < t := by
  rw [RaycastTri_eq] at h
  split_ifs at h with h1 h2 h3 h4
  rw [Option.some.injEq] at h
  rw [← h]
  exact not_le.mp h4

/-- A hit of the vertical probe is a point of the triangle below the probe origin. -/
lemma probeHits_sound (x z : ℚ) (tri : Tri) (t : ℚ) (h : probeHits x z tri t) :
    1 / 1000000 ≤ |projDet tri| ∧ 0 < t ∧ onTriangle tri ⟨x, 1000 - t, z⟩ := by
  have ht := RaycastTri_pos _ _ _ _ h
  unfold probeHits at h
  rw [RaycastTri_eq, rayDet_vertical] at h
  split_ifs at h with h1 h2 h3 h4
  rw [Option.some.injEq] at h
  have hne : projDet tri ≠ 0 := by
    intro h0; rw [h0] at h1; norm_num at h1
  refine ⟨not_lt.mp h1, ht, ?_⟩
  rw [not_or, not_lt, not_lt] at h2 h3
  refine ⟨_, _, h2.1, h3.1, h3.2, ?_, ?_, ?_⟩
  · show x = _
    unfold rayU rayV
    rw [rayDet_vertical]
    simp only [cross, dot, Vec3.sub]
    field_simp
    unfold projDet
    ring
  · show 1000 - t = _
    rw [← h]
    unfold rayU rayV rayT
    rw [rayDet_vertical]
    simp only [cross, dot, Vec3.sub]
    field_simp
    unfold projDet
    ring
  · show z = _
    unfold rayU rayV
    rw [rayDet_vertical]
    simp only [cross, dot, Vec3.sub]
    field_simp
    unfold projDet
    ring

/-- A point of a triangle with non-degenerate horizontal projection that lies below the
probe origin is hit by the vertical probe. -/
lemma probeHits_complete (x z : ℚ) (tri : Tri) (t : ℚ) (hd : 1 / 1000000 ≤ |projDet tri|)
    (ht : 0 < t) (hon : onTriangle tri ⟨x, 1000 - t, z⟩) : probeHits x z tri t := by
  obtain ⟨u, v, hu, hv, huv, hx, hy, hz⟩ := hon
  have hx' : x = tri.a.x + u * (tri.b.x - tri.a.x) + v * (tri.c.x - tri.a.x) := hx
  have hy' : 1000 - t = tri.a.y + u * (tri.b.y - tri.a.y) + v * (tri.c.y - tri.a.y) := hy
  have hz' : z = tri.a.z + u * (tri.b.z - tri.a.z) + v * (tri.c.z - tri.a.z) := hz
  have hne : projDet tri ≠ 0 := by
    intro h0; rw [h0] at hd; norm_num at hd
  have ht' : t = 1000 - (tri.a.y + u * (tri.b.y - tri.a.y) + v * (tri.c.y - tri.a.y)) := by
    linarith
  have eU : rayU ⟨x, 1000, z⟩ ⟨0, -1, 0⟩ tri = u := by
    unfold rayU
    rw [rayDet_vertical]
    simp only [cross, dot, Vec3.sub]
    rw [hx', hz']
    field_simp
    unfold projDet
    ring
  have eV : rayV ⟨x, 1000, z⟩ ⟨0, -1, 0⟩ tri = v := by
    unfold rayV
    rw [rayDet_vertical]
    simp only [cross, dot, Vec3.sub]
    rw [hx', hz']
    field_simp
    unfold projDet
    ring
  have eT : rayT ⟨x, 1000, z⟩ ⟨0, -1, 0⟩ tri = t := by
    unfold rayT
    rw [rayDet_vertical]
    simp only [cross, dot, Vec3.sub]
    rw [hx', hz', ht']
    field_simp
    unfold projDet
    ring
  unfold probeHits
  rw [RaycastTri_eq, rayDet_vertical, eU, eV, eT]
  rw [if_neg (not_lt.mpr hd), if_neg, if_neg, if_neg (not_le.mpr ht)]
  · rw [not_or, not_lt, not_lt]; exact ⟨hv, huv⟩
  · rw [not_or, not_lt, not_lt]; exact ⟨hu, by linarith⟩

lemma sampleStep_of_none (ro rd : Vec3) (best : Option ℚ) (tri : Tri)
    (h : RaycastTri ro rd tri = none) : sampleStep ro rd best tri = best := by
  unfold sampleStep
  rw [h]

lemma sampleStep_none_of_some (ro rd : Vec3) (tri : Tri) (t : ℚ)
    (h : RaycastTri ro rd tri = some t) : sampleStep ro rd none tri = some t := by
  have ht := RaycastTri_pos ro rd tri t h
  unfold sampleStep
  rw [h]
  simp [ltBest, ht]

lemma sampleStep_some_of_some (ro rd : Vec3) (tri : Tri) (t b : ℚ)
    (h : RaycastTri ro rd tri = some t) :
    sampleStep ro rd (some b) tri = some (if t < b then t else b) := by
  have ht := RaycastTri_pos ro rd tri t h
  unfold sampleStep
  rw [h]
  by_cases hb : t < b
  · simp [ltBest, ht, hb]
  · simp [ltBest, ht, hb]

/-- The loop of `SampleFloorY` ends without a hit exactly when it starts without one and
no triangle is hit. -/
lemma foldl_sampleStep_eq_none (ro rd : Vec3) (tris : List Tri) :
    ∀ best : Option ℚ, tris.foldl (sampleStep ro rd) best = none ↔
      best = none ∧ ∀ tri ∈ tris, RaycastTri ro rd tri = none := by
  induction tris with
  | nil => intro best; simp
  | cons tri tris ih =>
    intro best
    rw [List.foldl_cons, ih]
    cases hr : RaycastTri ro rd tri with
    | none =>
      rw [sampleStep_of_none ro rd best tri hr]
      constructor
      · rintro ⟨h1, h2⟩
        refine ⟨h1, ?_⟩
        intro tri' hmem
        rcases List.mem_cons.mp hmem with rfl | hmem
        · exact hr
        · exact h2 tri' hmem
      · rintro ⟨h1, h2⟩
        exact ⟨h1, fun tri' hmem => h2 tri' (List.mem_cons_of_mem _ hmem)⟩
    | some t =>
      constructor
      · rintro ⟨h1, _⟩
        exfalso
        cases best with
        | none => rw [sampleStep_none_of_some ro rd tri t hr] at h1; exact Option.noConfusion h1
        | some b =>
          rw [sampleStep_some_of_some ro rd tri t b hr] at h1; exact Option.noConfusion h1
      · rintro ⟨_, h2⟩
        exfalso
        have := h2 tri (List.mem_cons_self _ _)
        rw [hr] at this
        exact Option.noConfusion this

/-- The loop of `SampleFloorY` ends with the least ray parameter among the initial best
and all the hits. -/
lemma foldl_sampleStep_eq_some (ro rd : Vec3) (tris : List Tri) :
    ∀ (best : Option ℚ) (t : ℚ), tris.foldl (sampleStep ro rd) best = some t →
      (best = some t ∨ ∃ tri ∈ tris, RaycastTri ro rd tri = some t) ∧
        (∀ b, best = some b → t ≤ b) ∧
        ∀ tri ∈ tris, ∀ t', RaycastTri ro rd tri = some t' → t ≤ t' := by
  induction tris with
  | nil =>
    intro best t h
    rw [List.foldl_nil] at h
    refine ⟨Or.inl h, ?_, ?_⟩
    · intro b hb
      rw [h, Option.some.injEq] at hb
      exact le_of_eq hb
    · intro tri hmem
      exact absurd hmem (List.not_mem_nil tri)
  | cons tri tris ih =>
    intro best t h
    rw [List.foldl_cons] at h
    obtain ⟨ha, hb, hc⟩ := ih _ t h
    have hc' : (∀ t', RaycastTri ro rd tri = some t' → t ≤ t') →
        ∀ tri' ∈ tri :: tris, ∀ t', RaycastTri ro rd tri' = some t' → t ≤ t' := by
      intro hhead tri' hmem t' ht'
      rcases List.mem_cons.mp hmem with rfl | hmem
      · exact hhead t' ht'
      · exact hc tri' hmem t' ht'
    have ha' : (∃ tri' ∈ tris, RaycastTri ro rd tri' = some t) →
        ∃ tri' ∈ tri :: tris, RaycastTri ro rd tri' = some t := by
      rintro ⟨tri', hmem, ht'⟩
      exact ⟨tri', List.mem_cons_of_mem _ hmem, ht'⟩
    cases hr : RaycastTri ro rd tri with
    | none =>
      rw [sampleStep_of_none ro rd best tri hr] at ha hb
      refine ⟨?_, hb, hc' ?_⟩
      · rcases ha with ha | ha
        · exact Or.inl ha
        · exact Or.inr (ha' ha)
      · intro t' ht'
        rw [hr] at ht'
        exact Option.noConfusion ht'
    | some t1 =>
      cases best with
      | none =>
        rw [sampleStep_none_of_some ro rd tri t1 hr] at ha hb
        have hle : t ≤ t1 := hb t1 rfl
        refine ⟨?_, ?_, hc' ?_⟩
        · rcases ha with ha | ha
          · rw [Option.some.injEq] at ha
            exact Or.inr ⟨tri, List.mem_cons_self _ _, by rw [hr, ha]⟩
          · exact Or.inr (ha' ha)
        · intro b hb'
          exact Option.noConfusion hb'
        · intro t' ht'
          rw [hr, Option.some.injEq] at ht'
          rw [← ht']; exact hle
      | some b0 =>
        rw [sampleStep_some_of_some ro rd tri t1 b0 hr] at ha hb
        have hm := hb _ rfl
        have hle1 : t ≤ t1 := by
          split_ifs at hm with hlt
          · exact hm
          · exact le_trans hm (not_lt.mp hlt)
        have hle0 : t ≤ b0 := by
          split_ifs at hm with hlt
          · exact le_trans hm (le_of_lt hlt)
          · exact hm
        refine ⟨?_, ?_, hc' ?_⟩
        · rcases ha with ha | ha
          · rw [Option.some.injEq] at ha
            split_ifs at ha with hlt
            · exact Or.inr ⟨tri, List.mem_cons_self _ _, by rw [hr, ha]⟩
            · exact Or.inl (by rw [ha])
          · exact Or.inr (ha' ha)
        · intro b hb'
          rw [Option.some.injEq] at hb'
          rw [← hb']; exact hle0
        · intro t' ht'
          rw [hr, Option.some.injEq] at ht'
          rw [← ht']; exact hle1

lemma SampleFloorY_eq (gFloorTris : List Tri) (MAP_Y_OFFSET : ℚ) (p : Vec3) :
    SampleFloorY gFloorTris MAP_Y_OFFSET p =
      match gFloorTris.foldl (sampleStep ⟨p.x, 1000, p.z⟩ ⟨0, -1, 0⟩) none with
      | some bestT => 1000 - bestT
      | none => MAP_Y_OFFSET := by
  unfold SampleFloorY
  simp only
  cases gFloorTris.foldl (sampleStep ⟨p.x, 1000, p.z⟩ ⟨0, -1, 0⟩) none with
  | none => rfl
  | some b => simp only; ring

/-- Without any hit the sampler returns the fallback baseline. -/
lemma SampleFloorY_of_no_hit (gFloorTris : List Tri) (MAP_Y_OFFSET : ℚ) (p : Vec3)
    (h : ∀ tri ∈ gFloorTris, ∀ t, ¬ probeHits p.x p.z tri t) :
    SampleFloorY gFloorTris MAP_Y_OFFSET p = MAP_Y_OFFSET := by
  have hn : gFloorTris.foldl (sampleStep ⟨p.x, 1000, p.z⟩ ⟨0, -1, 0⟩) none = none := by
    rw [foldl_sampleStep_eq_none]
    refine ⟨rfl, ?_⟩
    intro tri hmem
    cases hr : RaycastTri ⟨p.x, 1000, p.z⟩ ⟨0, -1, 0⟩ tri with
    | none => rfl
    | some t => exact absurd hr (h tri hmem t)
  rw [SampleFloorY_eq, hn]

/-- With a hit the sampler returns `1000 - t` for the least hit parameter `t`. -/
lemma SampleFloorY_of_hit (gFloorTris : List Tri) (MAP_Y_OFFSET : ℚ) (p : Vec3)
    (h : ∃ tri ∈ gFloorTris, ∃ t, probeHits p.x p.z tri t) :
    ∃ tri ∈ gFloorTris, ∃ t, probeHits p.x p.z tri t ∧
      SampleFloorY gFloorTris MAP_Y_OFFSET p = 1000 - t ∧
      ∀ tri' ∈ gFloorTris, ∀ t', probeHits p.x p.z tri' t' → t ≤ t' := by
  cases hf : gFloorTris.foldl (sampleStep ⟨p.x, 1000, p.z⟩ ⟨0, -1, 0⟩) none with
  | none =>
    exfalso
    obtain ⟨tri, hmem, t, ht⟩ := h
    have := ((foldl_sampleStep_eq_none _ _ gFloorTris none).mp hf).2 tri hmem
    unfold probeHits at ht
    rw [ht] at this
    exact Option.noConfusion this
  | some t =>
    obtain ⟨ha, _, hc⟩ := foldl_sampleStep_eq_some _ _ gFloorTris none t hf
    rcases ha with ha | ⟨tri, hmem, ht⟩
    · exact Option.noConfusion ha
    · refine ⟨tri, hmem, t, ht, ?_, hc⟩
      rw [SampleFloorY_eq, hf]

/-- A hit on a triangle that is horizontal at elevation `h` has ray parameter `1000 - h`. -/
lemma probeHits_flatAt (x z h t : ℚ) (tri : Tri) (hf : flatAt h tri)
    (ht : probeHits x z tri t) : t = 1000 - h := by
  obtain ⟨_, _, u, v, _, _, _, _, hy, _⟩ := probeHits_sound x z tri t ht
  obtain ⟨ha, hb, hc⟩ := hf
  have hy' : 1000 - t = tri.a.y + u * (tri.b.y - tri.a.y) + v * (tri.c.y - tri.a.y) := hy
  rw [ha, hb, hc] at hy'
  linarith

/-- Exact arithmetic: floor sampling. A hit is a positive result `t` of the ray/triangle test
`RaycastTri` for the probe from height 1000 straight down through `(x, z)`; the hit point `(x,
1000 - t, z)` lies on the triangle, below the probe origin. `SampleFloorY` returns the fallback
baseline `MAP_Y_OFFSET` when no floor triangle is hit, in particular for the empty collection;
otherwise it returns `1000 - t` for the hit with the smallest ray parameter `t`, which is a
point of a floor triangle on the vertical line, below height 1000, and is the highest elevation
of all hits (and of all points below height 1000 where the vertical line meets a floor triangle
whose horizontal projection is not degenerate for the ray test). For two horizontal floor
triangles at `y = 0` of which the probe at `(5, 5)` hits at least one, `SampleFloorY` at `(5,
5)` returns 0. -/
lemma SampleFloorY_highest_floor (gFloorTris : List Tri) (MAP_Y_OFFSET : ℚ) (p : Vec3) :
    ((∀ tri ∈ gFloorTris, ∀ t, ¬ probeHits p.x p.z tri t) →
        SampleFloorY gFloorTris MAP_Y_OFFSET p = MAP_Y_OFFSET) ∧
      SampleFloorY [] MAP_Y_OFFSET p = MAP_Y_OFFSET ∧
      ((∃ tri ∈ gFloorTris, ∃ t, probeHits p.x p.z tri t) →
        ∃ tri ∈ gFloorTris, ∃ t, probeHits p.x p.z tri t ∧ 0 < t ∧
          SampleFloorY gFloorTris MAP_Y_OFFSET p = 1000 - t ∧
          SampleFloorY gFloorTris MAP_Y_OFFSET p < 1000 ∧
          onTriangle tri ⟨p.x, SampleFloorY gFloorTris MAP_Y_OFFSET p, p.z⟩ ∧
          (∀ tri' ∈ gFloorTris, ∀ t', probeHits p.x p.z tri' t' →
            t ≤ t' ∧ 1000 - t' ≤ SampleFloorY gFloorTris MAP_Y_OFFSET p) ∧
          (∀ tri' ∈ gFloorTris, ∀ y, y < 1000 → 1 / 1000000 ≤ |projDet tri'| →
            onTriangle tri' ⟨p.x, y, p.z⟩ → y ≤ SampleFloorY gFloorTris MAP_Y_OFFSET p)) ∧
      (∀ t1 t2 : Tri, flatAt 0 t1 → flatAt 0 t2 →
        ((∃ t, probeHits 5 5 t1 t) ∨ (∃ t, probeHits 5 5 t2 t)) →
        SampleFloorY [t1, t2] MAP_Y_OFFSET ⟨5, p.y, 5⟩ = 0) := by
  refine ⟨SampleFloorY_of_no_hit gFloorTris MAP_Y_OFFSET p, rfl, ?_, ?_⟩
  · intro h
    obtain ⟨tri, hmem, t, ht, hS, hmin⟩ := SampleFloorY_of_hit gFloorTris MAP_Y_OFFSET p h
    obtain ⟨_, htpos, hon⟩ := probeHits_sound p.x p.z tri t ht
    refine ⟨tri, hmem, t, ht, htpos, hS, by rw [hS]; linarith, by rw [hS]; exact hon, ?_, ?_⟩
    · intro tri' hmem' t' ht'
      have := hmin tri' hmem' t' ht'
      exact ⟨this, by rw [hS]; linarith⟩
    · intro tri' hmem' y hy hd hon'
      have hy' : (0 : ℚ) < 1000 - y := by linarith
      have hhit : probeHits p.x p.z tri' (1000 - y) := by
        apply probeHits_complete p.x p.z tri' (1000 - y) hd hy'
        rw [sub_sub_cancel]
        exact hon'
      have := hmin tri' hmem' (1000 - y) hhit
      rw [hS]; linarith
  · intro t1 t2 hf1 hf2 hcov
    have hex : ∃ tri ∈ [t1, t2], ∃ t, probeHits 5 5 tri t := by
      rcases hcov with ⟨t, ht⟩ | ⟨t, ht⟩
      · exact ⟨t1, List.mem_cons_self _ _, t, ht⟩
      · exact ⟨t2, List.mem_cons_of_mem _ (List.mem_cons_self _ _), t, ht⟩
    obtain ⟨tri, hmem, t, ht, hS, _⟩ :=
      SampleFloorY_of_hit [t1, t2] MAP_Y_OFFSET ⟨5, p.y, 5⟩ hex
    have hflat : flatAt 0 tri := by
      rcases List.mem_cons.mp hmem with rfl | hmem
      · exact hf1
      · rcases List.mem_cons.mp hmem with rfl | hmem
        · exact hf2
        · exact absurd hmem (List.not_mem_nil _)
    have : t = 1000 - 0 := probeHits_flatAt 5 5 0 t tri hflat ht
    rw [hS, this]; norm_num

lemma probeHits_quadTri1 : probeHits 5 5 quadTri1 1000 := by
  unfold probeHits
  norm_num [RaycastTri, quadTri1, cross, dot, Vec3.sub, abs_eq_max_neg]

/-! ## Spawn resolver -/

lemma intRange_neg_one_one : intRange (-((0 : ℕ) + 1 : ℤ)) (((0 : ℕ) : ℤ) + 1) = [-1, 0, 1] := by
  have h : ((((0 : ℕ) : ℤ) + 1) - (-((0 : ℕ) + 1 : ℤ)) + 1).toNat = 3 := by
    norm_num
    rfl
  unfold intRange
  rw [h]
  simp [List.range_succ]

/-- The first offset the nested loops of `NudgeSpawn` visit is `(-1, -1)`. -/
lemma nudgeOffsets_head : ∃ rest, nudgeOffsets = (-1, -1) :: rest := by
  unfold nudgeOffsets
  rw [List.range_succ_eq_map 39, List.flatMap_cons, intRange_neg_one_one]
  simp only [List.flatMap_cons, List.map_cons, List.cons_append]
  exact ⟨_, rfl⟩

lemma spawn_blocked_initial : blocked spawnScene.gWalls spawnBox 0 ⟨0, 0, 0⟩ = true := by
  rw [blocked_eq_collide, collide_eq_true_iff]
  refine ⟨spawnWallA, List.mem_cons_self _ _, ?_, ?_⟩
  · norm_num [heightGates, spawnWallA]
  · rw [IntersectsXZ_eq_true_iff]
    norm_num [footprintAt, spawnBox, spawnWallA, abs_eq_max_neg]

lemma spawn_candidate_free :
    blocked spawnScene.gWalls spawnBox 0 (nudgeCandidate ⟨0, 0, 0⟩ (-1, -1)) = false := by
  rw [← Bool.not_eq_true, blocked_eq_collide, collide_eq_true_iff]
  rintro ⟨w, hw, hg, hx⟩
  rw [IntersectsXZ_eq_true_iff] at hx
  have hw' : w = spawnWallA ∨ w = spawnWallB := by
    simpa [spawnScene] using hw
  rcases hw' with rfl | rfl
  · norm_num [footprintAt, spawnBox, spawnWallA, nudgeCandidate, Vec3.add, abs_eq_max_neg]
      at hx
  · norm_num [heightGates, spawnWallB] at hg

lemma spawn_candidate_eq : nudgeCandidate ⟨0, 0, 0⟩ (-1, -1) = ⟨-1 / 2, 0, -1 / 2⟩ := by
  norm_num [nudgeCandidate, Vec3.add]

lemma probeHits_groundTri_origin : probeHits 0 0 groundTri 1000 := by
  unfold probeHits
  norm_num [RaycastTri, groundTri, cross, dot, Vec3.sub, abs_eq_max_neg]

lemma not_probeHits_platformTri_origin (t : ℚ) : ¬ probeHits 0 0 platformTri t := by
  have h : RaycastTri ⟨0, 1000, 0⟩ ⟨0, -1, 0⟩ platformTri = none := by
    norm_num [RaycastTri, platformTri, cross, dot, Vec3.sub, abs_eq_max_neg]
  unfold probeHits
  rw [h]
  exact fun hc => Option.noConfusion hc

lemma probeHits_groundTri_candidate : probeHits (-1 / 2) (-1 / 2) groundTri 1000 := by
  unfold probeHits
  norm_num [RaycastTri, groundTri, cross, dot, Vec3.sub, abs_eq_max_neg]

lemma probeHits_platformTri_candidate : probeHits (-1 / 2) (-1 / 2) platformTri 990 := by
  unfold probeHits
  norm_num [RaycastTri, platformTri, cross, dot, Vec3.sub, abs_eq_max_neg]

lemma spawn_initial_floor : SampleFloorY spawnScene.gFloorTris (-20) ⟨0, 0, 0⟩ = 0 := by
  have hp : ∀ t, RaycastTri ⟨0, 1000, 0⟩ ⟨0, -1, 0⟩ platformTri ≠ some t :=
    not_probeHits_platformTri_origin
  have hn : RaycastTri ⟨0, 1000, 0⟩ ⟨0, -1, 0⟩ platformTri = none := by
    cases h : RaycastTri ⟨0, 1000, 0⟩ ⟨0, -1, 0⟩ platformTri with
    | none => rfl
    | some t => exact absurd h (hp t)
  rw [SampleFloorY_eq]
  show ((match List.foldl (sampleStep ⟨0, 1000, 0⟩ ⟨0, -1, 0⟩) none
      [groundTri, platformTri] with
    | some bestT => 1000 - bestT
    | none => -20) : ℚ) = 0
  rw [List.foldl_cons, List.foldl_cons, List.foldl_nil,
    sampleStep_none_of_some _ _ _ _ probeHits_groundTri_origin,
    sampleStep_of_none _ _ _ _ hn]
  norm_num

lemma spawn_candidate_floor :
    SampleFloorY spawnScene.gFloorTris (-20) (nudgeCandidate ⟨0, 0, 0⟩ (-1, -1)) = 10 := by
  rw [spawn_candidate_eq, SampleFloorY_eq]
  show ((match List.foldl (sampleStep ⟨-1 / 2, 1000, -1 / 2⟩ ⟨0, -1, 0⟩) none
      [groundTri, platformTri] with
    | some bestT => 1000 - bestT
    | none => -20) : ℚ) = 10
  rw [List.foldl_cons, List.foldl_cons, List.foldl_nil,
    sampleStep_none_of_some _ _ _ _ probeHits_groundTri_candidate,
    sampleStep_some_of_some _ _ _ _ _ probeHits_platformTri_candidate]
  norm_num

/-- When the spawn is blocked and the scan finds the offset `o`, `NudgeSpawn` moves to the
candidate of `o` and sets the foot elevation to the floor sampled there. -/
lemma NudgeSpawn_of_found (d : CollisionData) (MAP_Y_OFFSET : ℚ) (posXZ : Vec3)
    (box : AABB2D) (footY : ℚ) (o : Int × Int)
    (hb : blocked d.gWalls box footY posXZ = true)
    (hf : (nudgeOffsets.find? fun o =>
      !blocked d.gWalls box footY (nudgeCandidate posXZ o)) = some o) :
    NudgeSpawn d MAP_Y_OFFSET posXZ box footY =
      ⟨nudgeCandidate posXZ o, footprintAt box (nudgeCandidate posXZ o),
        SampleFloorY d.gFloorTris MAP_Y_OFFSET (nudgeCandidate posXZ o)⟩ := by
  unfold NudgeSpawn
  rw [hb, hf]
  rfl

/-- C2 (the code at the failing input): in the spawn scene the spawn `(0, 0)` of `main`
is blocked at its foot elevation 0; `NudgeSpawn` relocates the agent to the first scanned
candidate `(-1/2, -1/2)`, which is free at the initial foot elevation 0, and returns the
foot elevation 10 sampled there; at that returned foot elevation the returned footprint is
blocked by the wall standing on the platform. -/
theorem NudgeSpawn_returns_blocked_spawn :
    SampleFloorY spawnScene.gFloorTris (-20) ⟨0, 0, 0⟩ = 0 ∧
      blocked spawnScene.gWalls spawnBox 0 ⟨0, 0, 0⟩ = true ∧
      NudgeSpawn spawnScene (-20) ⟨0, 0, 0⟩ spawnBox 0 =
        ⟨⟨-1 / 2, 0, -1 / 2⟩, ⟨⟨-1 / 2, -1 / 2⟩, ⟨2 / 5, 2 / 5⟩⟩, 10⟩ ∧
      SampleFloorY spawnScene.gFloorTris (-20) ⟨-1 / 2, 0, -1 / 2⟩ = 10 ∧
      blocked spawnScene.gWalls ⟨⟨-1 / 2, -1 / 2⟩, ⟨2 / 5, 2 / 5⟩⟩ 10 ⟨-1 / 2, 0, -1 / 2⟩ = true ∧
      wallBlocks spawnScene.gWalls ⟨⟨-1 / 2, -1 / 2⟩, ⟨2 / 5, 2 / 5⟩⟩ 10 := by
  have hfloor : SampleFloorY spawnScene.gFloorTris (-20) ⟨-1 / 2, 0, -1 / 2⟩ = 10 := by
    rw [← spawn_candidate_eq]; exact spawn_candidate_floor
  have hfind : (nudgeOffsets.find? fun o =>
      !blocked spawnScene.gWalls spawnBox 0 (nudgeCandidate ⟨0, 0, 0⟩ o)) = some (-1, -1) := by
    obtain ⟨rest, hrest⟩ := nudgeOffsets_head
    rw [hrest, List.find?_cons_of_pos]
    rw [spawn_candidate_free]
    rfl
  have hwb : wallBlocks spawnScene.gWalls ⟨⟨-1 / 2, -1 / 2⟩, ⟨2 / 5, 2 / 5⟩⟩ 10 := by
    refine ⟨spawnWallB, List.mem_cons_of_mem _ (List.mem_cons_self _ _), ?_, ?_⟩
    · norm_num [heightGates, spawnWallB]
    · rw [IntersectsXZ_eq_true_iff]
      norm_num [spawnWallB, abs_eq_max_neg]
  refine ⟨spawn_initial_floor, spawn_blocked_initial, ?_, hfloor, ?_, hwb⟩
  · rw [NudgeSpawn_of_found spawnScene (-20) ⟨0, 0, 0⟩ spawnBox 0 (-1, -1)
      spawn_blocked_initial hfind, spawn_candidate_floor, spawn_candidate_eq]
    rfl
  · rw [blocked_eq_collide, collide_eq_true_iff]
    exact hwb

/-! ## Push-out loops -/

lemma awaySign_mul_zero (d : ℚ) : awaySign d * 0 = 0 := mul_zero _

/-- A push-out from a rectangle that the box does not penetrate changes nothing. -/
lemma ResolveStaticXZ_of_not_penetrates (S D : AABB2D) (posXZ : Vec3)
    (h : ¬ penetrates S D) : ResolveStaticXZ S D posXZ = (D, posXZ) := by
  by_cases ho : IntersectsXZ S D = true
  · obtain ⟨h1, h2⟩ := (IntersectsXZ_iff_pen S D).mp ho
    rcases lt_or_le (penX S D) (penZ S D) with hlt | hle
    · have h0 : penX S D = 0 := by
        by_contra hne
        exact h ⟨lt_of_le_of_ne h1 (Ne.symm hne), lt_of_le_of_lt h1 hlt⟩
      rw [ResolveStaticXZ_of_x S D posXZ ho hlt, h0, mul_zero, add_zero, add_zero]
    · have h0 : penZ S D = 0 := by
        by_contra hne
        have hz : 0 < penZ S D := lt_of_le_of_ne h2 (Ne.symm hne)
        exact h ⟨lt_of_lt_of_le hz hle, hz⟩
      rw [ResolveStaticXZ_of_z S D posXZ ho hle, h0, mul_zero, add_zero, add_zero]
  · exact ResolveStaticXZ_of_not_overlap S D posXZ (Bool.eq_false_iff.mpr ho)

lemma pushOutStep_of_not_penetrates (f : ℚ) (st : PushState) (w : WallBox)
    (h : ¬ penetrates w.boxXZ st.box) :
    (pushOutStep f st w).box = st.box ∧ (pushOutStep f st w).posXZ = st.posXZ := by
  unfold pushOutStep ResolveStaticWall
  split_ifs
  · rw [ResolveStaticXZ_of_not_penetrates _ _ _ h]
    exact ⟨rfl, rfl⟩
  · exact ⟨rfl, rfl⟩

/-- A pass over walls none of which the box penetrates leaves box and position unchanged. -/
lemma foldl_pushOutStep_fixed (f : ℚ) (gWalls : List WallBox) :
    ∀ st : PushState, (∀ w ∈ gWalls, ¬ penetrates w.boxXZ st.box) →
      (gWalls.foldl (pushOutStep f) st).box = st.box ∧
        (gWalls.foldl (pushOutStep f) st).posXZ = st.posXZ := by
  induction gWalls with
  | nil => intro st _; exact ⟨rfl, rfl⟩
  | cons w ws ih =>
    intro st h
    rw [List.foldl_cons]
    obtain ⟨e1, e2⟩ := pushOutStep_of_not_penetrates f st w (h w (List.mem_cons_self _ _))
    have h' : ∀ v ∈ ws, ¬ penetrates v.boxXZ (pushOutStep f st w).box := by
      intro v hv
      rw [e1]
      exact h v (List.mem_cons_of_mem _ hv)
    obtain ⟨i1, i2⟩ := ih (pushOutStep f st w) h'
    exact ⟨i1.trans e1, i2.trans e2⟩

/-- The push-out loop started from a box that penetrates no wall returns it unchanged. -/
lemma pushOutLoop_fixed (f : ℚ) (gWalls : List WallBox) (n : ℕ) (D : AABB2D) (posXZ : Vec3)
    (h : ∀ w ∈ gWalls, ¬ penetrates w.boxXZ D) :
    pushOutLoop gWalls f n D posXZ = (D, posXZ) := by
  induction n with
  | zero => rfl
  | succ n ih =>
    obtain ⟨e1, e2⟩ := foldl_pushOutStep_fixed f gWalls ⟨D, posXZ, false⟩ h
    have e1' : (pushOutPass gWalls f D posXZ).box = D := e1
    have e2' : (pushOutPass gWalls f D posXZ).posXZ = posXZ := e2
    unfold pushOutLoop
    simp only
    rw [e1', e2', ih]
    split_ifs <;> rfl

/-- The sampled floor depends on the horizontal coordinates of the position only. -/
lemma SampleFloorY_congr (gFloorTris : List Tri) (MAP_Y_OFFSET : ℚ) (p q : Vec3)
    (hx : p.x = q.x) (hz : p.z = q.z) :
    SampleFloorY gFloorTris MAP_Y_OFFSET p = SampleFloorY gFloorTris MAP_Y_OFFSET q := by
  rw [SampleFloorY_eq, SampleFloorY_eq, hx, hz]

lemma verticalPhysics_playerPosXZ (d : CollisionData)
    (MAP_Y_OFFSET PLAYER_FOOT_BIAS deltaTime : ℚ) (s : PlayerState) :
    (verticalPhysics d MAP_Y_OFFSET PLAYER_FOOT_BIAS deltaTime s).playerPosXZ =
      s.playerPosXZ := by
  unfold verticalPhysics
  simp only
  split_ifs <;> rfl

/-- After the vertical physics, grounded means that the foot elevation is the floor
sampled at the player column in this frame. -/
lemma verticalPhysics_grounded (d : CollisionData)
    (MAP_Y_OFFSET PLAYER_FOOT_BIAS deltaTime : ℚ) (s : PlayerState)
    (h : (verticalPhysics d MAP_Y_OFFSET PLAYER_FOOT_BIAS deltaTime s).gGrounded = true) :
    (verticalPhysics d MAP_Y_OFFSET PLAYER_FOOT_BIAS deltaTime s).playerFootY =
      SampleFloorY d.gFloorTris MAP_Y_OFFSET s.playerPosXZ := by
  unfold verticalPhysics at h ⊢
  simp only at h ⊢
  split_ifs at h ⊢
  rfl

lemma unstickPass_gGrounded (d : CollisionData) (s : PlayerState) :
    (unstickPass d s).gGrounded = s.gGrounded := rfl

lemma unstickPass_playerFootY (d : CollisionData) (s : PlayerState) :
    (unstickPass d s).playerFootY = s.playerFootY := rfl

/-- The unstick pass over a dataset without walls does not move the player. -/
lemma unstickPass_no_walls_playerPosXZ (d : CollisionData) (s : PlayerState)
    (h : d.gWalls = []) : (unstickPass d s).playerPosXZ = s.playerPosXZ := by
  unfold unstickPass
  simp only
  rw [h, pushOutLoop_fixed _ [] _ _ _ (fun w hw => absurd hw (List.not_mem_nil w))]

/-- C12: in every frame in which the unstick pass does not change the player's horizontal
position, the step-down snap changes nothing (neither the foot elevation nor the height):
whenever grounded is true when the snap is evaluated, the foot elevation equals the floor
sampled at the position used for the vertical integration of the same frame, so the drop
is 0 and the condition `drop > STEP_SNAP_EPS` is false. -/
theorem stepDownSnap_noop_without_displacement (d : CollisionData)
    (MAP_Y_OFFSET PLAYER_FOOT_BIAS deltaTime : ℚ) (s : PlayerState)
    (hx : (beforeSnap d MAP_Y_OFFSET PLAYER_FOOT_BIAS deltaTime s).playerPosXZ.x =
      s.playerPosXZ.x)
    (hz : (beforeSnap d MAP_Y_OFFSET PLAYER_FOOT_BIAS deltaTime s).playerPosXZ.z =
      s.playerPosXZ.z) :
    stepDownSnap d MAP_Y_OFFSET PLAYER_FOOT_BIAS
        (beforeSnap d MAP_Y_OFFSET PLAYER_FOOT_BIAS deltaTime s) =
      beforeSnap d MAP_Y_OFFSET PLAYER_FOOT_BIAS deltaTime s ∧
    ((beforeSnap d MAP_Y_OFFSET PLAYER_FOOT_BIAS deltaTime s).gGrounded = true →
      (beforeSnap d MAP_Y_OFFSET PLAYER_FOOT_BIAS deltaTime s).playerFootY =
          SampleFloorY d.gFloorTris MAP_Y_OFFSET s.playerPosXZ ∧
        (beforeSnap d MAP_Y_OFFSET PLAYER_FOOT_BIAS deltaTime s).playerFootY -
            SampleFloorY d.gFloorTris MAP_Y_OFFSET
              (beforeSnap d MAP_Y_OFFSET PLAYER_FOOT_BIAS deltaTime s).playerPosXZ = 0 ∧
        ¬ ((beforeSnap d MAP_Y_OFFSET PLAYER_FOOT_BIAS deltaTime s).playerFootY -
            SampleFloorY d.gFloorTris MAP_Y_OFFSET
              (beforeSnap d MAP_Y_OFFSET PLAYER_FOOT_BIAS deltaTime s).playerPosXZ >
          STEP_SNAP_EPS)) := by
  have hfloor : SampleFloorY d.gFloorTris MAP_Y_OFFSET
      (beforeSnap d MAP_Y_OFFSET PLAYER_FOOT_BIAS deltaTime s).playerPosXZ =
      SampleFloorY d.gFloorTris MAP_Y_OFFSET s.playerPosXZ :=
    SampleFloorY_congr _ _ _ _ hx hz
  have hground : (beforeSnap d MAP_Y_OFFSET PLAYER_FOOT_BIAS deltaTime s).gGrounded = true →
      (beforeSnap d MAP_Y_OFFSET PLAYER_FOOT_BIAS deltaTime s).playerFootY =
        SampleFloorY d.gFloorTris MAP_Y_OFFSET s.playerPosXZ := by
    intro hg
    unfold beforeSnap at hg ⊢
    rw [unstickPass_gGrounded] at hg
    rw [unstickPass_playerFootY]
    exact verticalPhysics_grounded d MAP_Y_OFFSET PLAYER_FOOT_BIAS deltaTime s hg
  constructor
  · unfold stepDownSnap
    simp only
    rw [if_neg]
    rintro ⟨hg, hdrop, _⟩
    rw [hfloor, hground hg, sub_self] at hdrop
    unfold STEP_SNAP_EPS at hdrop
    norm_num at hdrop
  · intro hg
    refine ⟨hground hg, ?_, ?_⟩
    · rw [hfloor, hground hg, sub_self]
    · rw [hfloor, hground hg, sub_self]
      unfold STEP_SNAP_EPS
      norm_num

/-- Witness of `stepDownSnap_noop_without_displacement`: the agent dropped over the flat
floor without walls lands in the frame, the unstick pass leaves its position unchanged,
and the step-down snap changes nothing. -/
theorem stepDownSnap_noop_without_displacement_witness :
    (beforeSnap flatScene (-20) (23 / 20) 1 droppedPlayer).playerPosXZ =
        droppedPlayer.playerPosXZ ∧
      (beforeSnap flatScene (-20) (23 / 20) 1 droppedPlayer).gGrounded = true ∧
      stepDownSnap flatScene (-20) (23 / 20)
          (beforeSnap flatScene (-20) (23 / 20) 1 droppedPlayer) =
        beforeSnap flatScene (-20) (23 / 20) 1 droppedPlayer :=
  have hp : (beforeSnap flatScene (-20) (23 / 20) 1 droppedPlayer).playerPosXZ =
      droppedPlayer.playerPosXZ :=
    (unstickPass_no_walls_playerPosXZ flatScene _ rfl).trans
      (verticalPhysics_playerPosXZ flatScene (-20) (23 / 20) 1 droppedPlayer)
  have hF : SampleFloorY flatScene.gFloorTris (-20) droppedPlayer.playerPosXZ = 0 :=
    SampleFloorY_floorAt 0 (-20) 0 (by norm_num)
  have hg : (beforeSnap flatScene (-20) (23 / 20) 1 droppedPlayer).gGrounded = true := by
    show (verticalPhysics flatScene (-20) (23 / 20) 1 droppedPlayer).gGrounded = true
    unfold verticalPhysics
    simp only
    rw [hF, if_pos]
    norm_num [droppedPlayer, GRAVITY]
  ⟨hp, hg,
    (stepDownSnap_noop_without_displacement flatScene (-20) (23 / 20) 1 droppedPlayer
      (congrArg Vec3.x hp) (congrArg Vec3.z hp)).1⟩

/-! ## Single precision: rounding -/

lemma roundEven_of_abs_lt (q : ℚ) (z : ℤ) (h : |q - z| < 1 / 2) : roundEven q = z := by
  rw [abs_lt] at h
  by_cases hz : (z : ℚ) ≤ q
  · have hf : ⌊q⌋ = z := by
      rw [Int.floor_eq_iff]
      constructor
      · exact hz
      · linarith
    unfold roundEven
    rw [hf, if_pos (by linarith)]
  · have hf : ⌊q⌋ = z - 1 := by
      rw [Int.floor_eq_iff]
      push_cast
      constructor <;> linarith
    unfold roundEven
    rw [hf]
    push_cast
    rw [if_neg (by linarith), if_pos (by linarith)]
    ring

/-- Rounding to an integer moves a number by at most one half. -/
lemma abs_roundEven_sub_le (q : ℚ) : |(roundEven q : ℚ) - q| ≤ 1 / 2 := by
  have h1 := Int.floor_le q
  have h2 := Int.lt_floor_add_one q
  unfold roundEven
  split_ifs with a b c
  · rw [abs_le]; constructor <;> linarith
  · push_cast; rw [abs_le]; constructor <;> linarith
  · rw [abs_le]; constructor <;> linarith
  · push_cast; rw [abs_le]; constructor <;> linarith

lemma binade_eq (x : ℚ) (e : ℤ) (he : -126 ≤ e) (hlo : (2 : ℚ) ^ e ≤ |x|)
    (hhi : |x| < (2 : ℚ) ^ (e + 1)) : binade x = e := by
  have hpos : 0 < |x| := lt_of_lt_of_le (by positivity) hlo
  have h1 : e ≤ Int.log 2 |x| :=
    (Int.zpow_le_iff_le_log (b := 2) (by norm_num) (x := e) hpos).mp (by exact_mod_cast hlo)
  have h2 : Int.log 2 |x| < e + 1 :=
    (Int.lt_zpow_iff_log_lt (b := 2) (by norm_num) (x := e + 1) hpos).mp
      (by exact_mod_cast hhi)
  unfold binade
  rw [max_eq_left (by omega)]
  omega

/-- Evaluation of `round32`: for `x` in the binade `[2^e, 2^(e+1))` whose quotient by the
spacing `2^(e-23)` is within one half of the integer `m`, the rounded value is
`m * 2^(e-23)`. -/
lemma round32_eq (x v : ℚ) (e m : ℤ) (he : -126 ≤ e) (hlo : (2 : ℚ) ^ e ≤ |x|)
    (hhi : |x| < (2 : ℚ) ^ (e + 1)) (hm : |x / (2 : ℚ) ^ (e - 23) - m| < 1 / 2)
    (hv : v = m * (2 : ℚ) ^ (e - 23)) : round32 x = v := by
  unfold round32 ulp32
  rw [binade_eq x e he hlo hhi, roundEven_of_abs_lt _ m hm, hv]

lemma round32_zero : round32 0 = 0 := by
  unfold round32
  rw [zero_div, roundEven_of_abs_lt 0 0 (by norm_num)]
  norm_num

lemma ulp32_pos (x : ℚ) : 0 < ulp32 x := by
  unfold ulp32
  positivity

/-- The rounding error is at most half the spacing of the binade. -/
lemma abs_round32_sub_le_ulp (x : ℚ) : |round32 x - x| ≤ ulp32 x / 2 := by
  have hu := ulp32_pos x
  have h := abs_roundEven_sub_le (x / ulp32 x)
  have e : round32 x - x = ((roundEven (x / ulp32 x) : ℚ) - x / ulp32 x) * ulp32 x := by
    unfold round32
    field_simp
  rw [e, abs_mul, abs_of_pos hu]
  calc |(roundEven (x / ulp32 x) : ℚ) - x / ulp32 x| * ulp32 x
      ≤ 1 / 2 * ulp32 x := mul_le_mul_of_nonneg_right h (le_of_lt hu)
    _ = ulp32 x / 2 := by ring

/-- Half the spacing is at most the relative precision `2^-24` of the number, or the
absolute precision `2^-150` of the subnormal numbers. -/
lemma ulp32_half_le (x : ℚ) (hx : x ≠ 0) :
    ulp32 x / 2 ≤ |x| / 16777216 + 1 / 2 ^ 150 := by
  have hpos : 0 < |x| := abs_pos.mpr hx
  unfold ulp32 binade
  rcases le_total (Int.log 2 |x|) (-126) with h | h
  · rw [max_eq_right h]
    have : (2 : ℚ) ^ ((-126 : ℤ) - 23) / 2 = 1 / 2 ^ 150 := by norm_num
    rw [this]
    have : 0 ≤ |x| / 16777216 := by positivity
    linarith
  · rw [max_eq_left h]
    have hle : ((2 : ℕ) : ℚ) ^ Int.log 2 |x| ≤ |x| := Int.zpow_log_le_self (by norm_num) hpos
    have hsplit : (2 : ℚ) ^ (Int.log 2 |x| - 23) / 2 =
        (2 : ℚ) ^ Int.log 2 |x| / 16777216 := by
      rw [zpow_sub₀ (by norm_num : (2 : ℚ) ≠ 0)]
      norm_num
      ring
    rw [hsplit]
    have h1 : (2 : ℚ) ^ Int.log 2 |x| / 16777216 ≤ |x| / 16777216 := by
      apply div_le_div_of_nonneg_right _ (by norm_num)
      exact_mod_cast hle
    have : (0 : ℚ) ≤ 1 / 2 ^ 150 := by positivity
    linarith

/-- The error of a binary32 rounding: relative `2^-24`, or absolute `2^-150`. -/
lemma abs_round32_sub_le (x : ℚ) : |round32 x - x| ≤ |x| / 16777216 + 1 / 2 ^ 150 := by
  by_cases hx : x = 0
  · rw [hx, round32_zero]
    norm_num
  · exact le_trans (abs_round32_sub_le_ulp x) (ulp32_half_le x hx)

lemma roundEven_intCast (n : ℤ) : roundEven (n : ℚ) = n :=
  roundEven_of_abs_lt _ n (by norm_num)

lemma floor_le_roundEven (q : ℚ) : ⌊q⌋ ≤ roundEven q := by
  unfold roundEven
  split_ifs <;> omega

lemma roundEven_le_floor_add_one (q : ℚ) : roundEven q ≤ ⌊q⌋ + 1 := by
  unfold roundEven
  split_ifs <;> omega

/-- Rounding to the nearest integer is monotone. -/
lemma roundEven_mono (q r : ℚ) (h : q ≤ r) : roundEven q ≤ roundEven r := by
  have hf : ⌊q⌋ ≤ ⌊r⌋ := Int.floor_mono h
  rcases lt_or_eq_of_le hf with hlt | heq
  · calc roundEven q ≤ ⌊q⌋ + 1 := roundEven_le_floor_add_one q
      _ ≤ ⌊r⌋ := by omega
      _ ≤ roundEven r := floor_le_roundEven r
  · unfold roundEven
    rw [← heq]
    split_ifs <;> first | omega | (exfalso; linarith)

/-- Rounding to the nearest integer, ties to even, is odd. -/
lemma roundEven_neg (q : ℚ) : roundEven (-q) = -roundEven q := by
  by_cases ht : q - ⌊q⌋ = 1 / 2
  · have hq : q = ⌊q⌋ + 1 / 2 := by linarith
    have hfn : ⌊-q⌋ = -⌊q⌋ - 1 := by
      rw [Int.floor_eq_iff]
      push_cast
      constructor <;> linarith
    have e1 : roundEven q = if ⌊q⌋ % 2 = 0 then ⌊q⌋ else ⌊q⌋ + 1 := by
      unfold roundEven
      rw [if_neg (by linarith), if_neg (by linarith)]
    have e2 : roundEven (-q) = if (-⌊q⌋ - 1) % 2 = 0 then -⌊q⌋ - 1 else -⌊q⌋ - 1 + 1 := by
      unfold roundEven
      rw [hfn]
      push_cast
      rw [if_neg (by linarith), if_neg (by linarith)]
    rw [e1, e2]
    split_ifs <;> omega
  · have hb := abs_roundEven_sub_le q
    have hlt : |(roundEven q : ℚ) - q| < 1 / 2 := by
      apply lt_of_le_of_ne hb
      intro habs
      apply ht
      have h1 := Int.floor_le q
      have h2 := Int.lt_floor_add_one q
      unfold roundEven at habs
      split_ifs at habs with a b c
      · rw [abs_of_nonpos (by linarith)] at habs; linarith
      · push_cast at habs; rw [abs_of_nonneg (by linarith)] at habs; linarith
      · linarith
      · linarith
    apply roundEven_of_abs_lt
    push_cast
    rw [show -q - -(roundEven q : ℚ) = (roundEven q : ℚ) - q by ring]
    exact hlt

lemma binade_neg (x : ℚ) : binade (-x) = binade x := by
  unfold binade
  rw [abs_neg]

lemma ulp32_neg (x : ℚ) : ulp32 (-x) = ulp32 x := by
  unfold ulp32
  rw [binade_neg]

/-- Binary32 rounding is odd. -/
lemma round32_neg (x : ℚ) : round32 (-x) = -round32 x := by
  unfold round32
  rw [ulp32_neg, neg_div, roundEven_neg]
  push_cast
  ring

/-- Binary32 rounding keeps the sign. -/
lemma round32_nonneg (x : ℚ) (h : 0 ≤ x) : 0 ≤ round32 x := by
  unfold round32
  have hu := ulp32_pos x
  have hq : (0 : ℚ) ≤ x / ulp32 x := div_nonneg h (le_of_lt hu)
  have := roundEven_mono 0 _ hq
  rw [show (0 : ℚ) = ((0 : ℤ) : ℚ) by norm_num, roundEven_intCast] at this
  have h2 : (0 : ℚ) ≤ (roundEven (x / ulp32 x) : ℚ) := by exact_mod_cast this
  positivity

lemma round32_nonpos (x : ℚ) (h : x ≤ 0) : round32 x ≤ 0 := by
  have := round32_nonneg (-x) (by linarith)
  rw [round32_neg] at this
  linarith

lemma abs_round32 (x : ℚ) : |round32 x| = round32 |x| := by
  rcases le_total 0 x with h | h
  · rw [abs_of_nonneg h, abs_of_nonneg (round32_nonneg x h)]
  · rw [abs_of_nonpos h, abs_of_nonpos (round32_nonpos x h), round32_neg]

lemma binade_mono_pos (x y : ℚ) (hx : 0 < x) (h : x ≤ y) : binade x ≤ binade y := by
  unfold binade
  rw [abs_of_pos hx, abs_of_pos (lt_of_lt_of_le hx h)]
  exact max_le_max (Int.log_mono_right hx h) le_rfl

lemma two_zpow_split (e : ℤ) : (2 : ℚ) ^ (e + 1) = 16777216 * (2 : ℚ) ^ (e - 23) := by
  rw [show e + 1 = (e - 23) + 24 by ring, zpow_add₀ (by norm_num : (2 : ℚ) ≠ 0)]
  norm_num
  ring

lemma two_zpow_split' (e : ℤ) : (2 : ℚ) ^ e = 8388608 * (2 : ℚ) ^ (e - 23) := by
  rw [show e = (e - 23) + 23 by ring, zpow_add₀ (by norm_num : (2 : ℚ) ≠ 0)]
  norm_num
  ring

lemma lt_two_zpow_binade_succ (x : ℚ) (hx : 0 < x) : x < (2 : ℚ) ^ (binade x + 1) := by
  have h1 : x < ((2 : ℕ) : ℚ) ^ (Int.log 2 x + 1) := Int.lt_zpow_succ_log_self (by norm_num) x
  have h2 : Int.log 2 x + 1 ≤ binade x + 1 := by
    unfold binade
    rw [abs_of_pos hx]
    have := le_max_left (Int.log 2 x) (-126)
    omega
  have h3 : (2 : ℚ) ^ (Int.log 2 x + 1) ≤ (2 : ℚ) ^ (binade x + 1) :=
    zpow_le_zpow_right₀ (by norm_num) h2
  have h1' : x < (2 : ℚ) ^ (Int.log 2 x + 1) := by exact_mod_cast h1
  linarith

lemma two_zpow_binade_le (x : ℚ) (hx : 0 < x) (hb : -126 < binade x) :
    (2 : ℚ) ^ binade x ≤ x := by
  have hlog : binade x = Int.log 2 x := by
    unfold binade at hb ⊢
    rw [abs_of_pos hx] at hb ⊢
    rcases le_total (Int.log 2 x) (-126) with h | h
    · rw [max_eq_right h] at hb; omega
    · rw [max_eq_left h]
  rw [hlog]
  have : ((2 : ℕ) : ℚ) ^ Int.log 2 x ≤ x := Int.zpow_log_le_self (by norm_num) hx
  exact_mod_cast this

lemma round32_le_two_zpow (x : ℚ) (hx : 0 < x) : round32 x ≤ (2 : ℚ) ^ (binade x + 1) := by
  have hu : 0 < (2 : ℚ) ^ (binade x - 23) := by positivity
  have hlt := lt_two_zpow_binade_succ x hx
  rw [two_zpow_split] at hlt ⊢
  have hq : x / (2 : ℚ) ^ (binade x - 23) ≤ ((16777216 : ℤ) : ℚ) := by
    rw [div_le_iff₀ hu]
    push_cast
    linarith
  have hr := roundEven_mono _ _ hq
  rw [roundEven_intCast] at hr
  have hr' : (roundEven (x / (2 : ℚ) ^ (binade x - 23)) : ℚ) ≤ 16777216 := by exact_mod_cast hr
  unfold round32 ulp32
  exact mul_le_mul_of_nonneg_right hr' (le_of_lt hu)

lemma two_zpow_le_round32 (x : ℚ) (hx : 0 < x) (hb : -126 < binade x) :
    (2 : ℚ) ^ binade x ≤ round32 x := by
  have hu : 0 < (2 : ℚ) ^ (binade x - 23) := by positivity
  have hle := two_zpow_binade_le x hx hb
  rw [two_zpow_split'] at hle ⊢
  have hq : ((8388608 : ℤ) : ℚ) ≤ x / (2 : ℚ) ^ (binade x - 23) := by
    rw [le_div_iff₀ hu]
    push_cast
    linarith
  have hr := roundEven_mono _ _ hq
  rw [roundEven_intCast] at hr
  have hr' : (8388608 : ℚ) ≤ (roundEven (x / (2 : ℚ) ^ (binade x - 23)) : ℚ) := by
    exact_mod_cast hr
  unfold round32 ulp32
  exact mul_le_mul_of_nonneg_right hr' (le_of_lt hu)

lemma round32_mono_pos (x y : ℚ) (hx : 0 < x) (h : x ≤ y) : round32 x ≤ round32 y := by
  have hy : 0 < y := lt_of_lt_of_le hx h
  rcases lt_or_eq_of_le (binade_mono_pos x y hx h) with hlt | heq
  · have h1 := round32_le_two_zpow x hx
    have hb : -126 < binade y := by
      have : -126 ≤ binade x := by
        unfold binade
        exact le_max_right _ _
      omega
    have h2 := two_zpow_le_round32 y hy hb
    have h3 : (2 : ℚ) ^ (binade x + 1) ≤ (2 : ℚ) ^ binade y :=
      zpow_le_zpow_right₀ (by norm_num) (by omega)
    linarith
  · unfold round32 ulp32
    rw [heq]
    have hu : 0 < (2 : ℚ) ^ (binade y - 23) := by positivity
    have hq : x / (2 : ℚ) ^ (binade y - 23) ≤ y / (2 : ℚ) ^ (binade y - 23) :=
      div_le_div_of_nonneg_right h (le_of_lt hu)
    have hr := roundEven_mono _ _ hq
    have hr' : (roundEven (x / (2 : ℚ) ^ (binade y - 23)) : ℚ) ≤
        (roundEven (y / (2 : ℚ) ^ (binade y - 23)) : ℚ) := by exact_mod_cast hr
    exact mul_le_mul_of_nonneg_right hr' (le_of_lt hu)

/-- Binary32 rounding is monotone. -/
lemma round32_mono (x y : ℚ) (h : x ≤ y) : round32 x ≤ round32 y := by
  rcases lt_trichotomy 0 x with hx | hx | hx
  · exact round32_mono_pos x y hx h
  · rw [← hx, round32_zero]
    exact round32_nonneg y (by linarith)
  · rcases le_or_lt 0 y with hy | hy
    · exact le_trans (round32_nonpos x (le_of_lt hx)) (round32_nonneg y hy)
    · have := round32_mono_pos (-y) (-x) (by linarith) (by linarith)
      rw [round32_neg, round32_neg] at this
      linarith

/-- A tie above an even integer rounds down to it. -/
lemma roundEven_tie_even (m : ℤ) (hm : m % 2 = 0) : roundEven ((m : ℚ) + 1 / 2) = m := by
  have hf : ⌊(m : ℚ) + 1 / 2⌋ = m := by
    rw [Int.floor_eq_iff]
    constructor <;> linarith
  unfold roundEven
  rw [hf, if_neg (by linarith), if_neg (by linarith), if_pos hm]

/-- A tie above an odd integer rounds up to the next integer. -/
lemma roundEven_tie_odd (m : ℤ) (hm : m % 2 = 1) : roundEven ((m : ℚ) + 1 / 2) = m + 1 := by
  have hf : ⌊(m : ℚ) + 1 / 2⌋ = m := by
    rw [Int.floor_eq_iff]
    constructor <;> linarith
  unfold roundEven
  rw [hf, if_neg (by linarith), if_neg (by linarith), if_neg (by omega)]

/-- Rounding of a number of the binade `[2^e, 2^(e+1))`. -/
lemma round32_of_binade (x : ℚ) (e : ℤ) (he : -126 ≤ e) (hlo : (2 : ℚ) ^ e ≤ |x|)
    (hhi : |x| < (2 : ℚ) ^ (e + 1)) :
    round32 x = (roundEven (x / (2 : ℚ) ^ (e - 23)) : ℚ) * (2 : ℚ) ^ (e - 23) := by
  unfold round32 ulp32
  rw [binade_eq x e he hlo hhi]

/-! ## Single precision: rounded values used by the scenarios -/

/-- Numbers of the scenarios that are binary32 numbers: rounding leaves them unchanged. -/
lemma round32_exact_values :
    round32 (-(3995 / 4)) = -(3995 / 4) ∧
      round32 (-56) = -56 ∧
      round32 (-16) = -16 ∧
      round32 (-2) = -2 ∧
      round32 (-(15518925 / 8388608)) = -(15518925 / 8388608) ∧
      round32 (-(3 / 2)) = -(3 / 2) ∧
      round32 (-(5033165 / 8388608)) = -(5033165 / 8388608) ∧
      round32 (-(1 / 2)) = -(1 / 2) ∧
      round32 (-(1 / 2048)) = -(1 / 2048) ∧
      round32 (1 / 4194304) = 1 / 4194304 ∧
      round32 (1 / 1048576) = 1 / 1048576 ∧
      round32 (1 / 2048) = 1 / 2048 ∧
      round32 (1 / 256) = 1 / 256 ∧
      round32 (7 / 32) = 7 / 32 ∧
      round32 (1 / 4) = 1 / 4 ∧
      round32 (3355443 / 8388608) = 3355443 / 8388608 ∧
      round32 (15 / 32) = 15 / 32 ∧
      round32 (1 / 2) = 1 / 2 ∧
      round32 (524289 / 1048576) = 524289 / 1048576 ∧
      round32 (3355443 / 4194304) = 3355443 / 4194304 ∧
      round32 (1) = 1 ∧
      round32 (5 / 4) = 5 / 4 ∧
      round32 (3 / 2) = 3 / 2 ∧
      round32 (2) = 2 ∧
      round32 (2097153 / 1048576) = 2097153 / 1048576 ∧
      round32 (5 / 2) = 5 / 2 ∧
      round32 (7 / 2) = 7 / 2 ∧
      round32 (15938355 / 4194304) = 15938355 / 4194304 ∧
      round32 (4) = 4 ∧
      round32 (4194305 / 1048576) = 4194305 / 1048576 ∧
      round32 (6815745 / 1048576) = 6815745 / 1048576 ∧
      round32 (16) = 16 ∧
      round32 (25) = 25 ∧
      round32 (56) = 56 ∧
      round32 (64) = 64 ∧
      round32 (256) = 256 ∧
      round32 (3995 / 4) = 3995 / 4 ∧
      round32 (1000) = 1000 ∧
      round32 (15980) = 15980 ∧
      round32 (255680) = 255680 ∧
      round32 (-11000) = -11000 ∧
      round32 (-10000) = -10000 ∧
      round32 (-1000) = -1000 ∧
      round32 (-(16383999 / 16384)) = -(16383999 / 16384) ∧
      round32 (-66) = -66 ∧
      round32 (-55) = -55 ∧
      round32 (-50) = -50 ∧
      round32 (-11) = -11 ∧
      round32 (-10) = -10 ∧
      round32 (-6) = -6 ∧
      round32 (-5) = -5 ∧
      round32 (1 / 16384) = 1 / 16384 ∧
      round32 (7626007 / 8388608) = 7626007 / 8388608 ∧
      round32 (1143901 / 1048576) = 1143901 / 1048576 ∧
      round32 (5) = 5 ∧
      round32 (10) = 10 ∧
      round32 (11) = 11 ∧
      round32 (50) = 50 ∧
      round32 (55) = 55 ∧
      round32 (66) = 66 ∧
      round32 (100) = 100 ∧
      round32 (121) = 121 ∧
      round32 (10000) = 10000 ∧
      round32 (11000) = 11000 ∧
      round32 (100000) = 100000 ∧
      round32 (121000) = 121000 ∧
      round32 (1 / 16777216) = 1 / 16777216 ∧
      round32 (1 / 4096) = 1 / 4096 ∧
      round32 (25 / 4096) = 25 / 4096 :=
  ⟨(round32_eq (-(3995 / 4)) (-(3995 / 4)) (9) (-16363520) (by norm_num)
      (by norm_num [abs_eq_max_neg]) (by norm_num [abs_eq_max_neg])
      (by norm_num [abs_eq_max_neg]) (by norm_num)),
    (round32_eq (-56) (-56) (5) (-14680064) (by norm_num)
      (by norm_num [abs_eq_max_neg]) (by norm_num [abs_eq_max_neg])
      (by norm_num [abs_eq_max_neg]) (by norm_num)),
    (round32_eq (-16) (-16) (4) (-8388608) (by norm_num)
      (by norm_num [abs_eq_max_neg]) (by norm_num [abs_eq_max_neg])
      (by norm_num [abs_eq_max_neg]) (by norm_num)),
    (round32_eq (-2) (-2) (1) (-8388608) (by norm_num)
      (by norm_num [abs_eq_max_neg]) (by norm_num [abs_eq_max_neg])
      (by norm_num [abs_eq_max_neg]) (by norm_num)),
    (round32_eq (-(15518925 / 8388608)) (-(15518925 / 8388608)) (0) (-15518925) (by norm_num)
      (by norm_num [abs_eq_max_neg]) (by norm_num [abs_eq_max_neg])
      (by norm_num [abs_eq_max_neg]) (by norm_num)),
    (round32_eq (-(3 / 2)) (-(3 / 2)) (0) (-12582912) (by norm_num)
      (by norm_num [abs_eq_max_neg]) (by norm_num [abs_eq_max_neg])
      (by norm_num [abs_eq_max_neg]) (by norm_num)),
    (round32_eq (-(5033165 / 8388608)) (-(5033165 / 8388608)) (-1) (-10066330) (by norm_num)
      (by norm_num [abs_eq_max_neg]) (by norm_num [abs_eq_max_neg])
      (by norm_num [abs_eq_max_neg]) (by norm_num)),
    (round32_eq (-(1 / 2)) (-(1 / 2)) (-1) (-8388608) (by norm_num)
      (by norm_num [abs_eq_max_neg]) (by norm_num [abs_eq_max_neg])
      (by norm_num [abs_eq_max_neg]) (by norm_num)),
    (round32_eq (-(1 / 2048)) (-(1 / 2048)) (-11) (-8388608) (by norm_num)
      (by norm_num [abs_eq_max_neg]) (by norm_num [abs_eq_max_neg])
      (by norm_num [abs_eq_max_neg]) (by norm_num)),
    (round32_eq (1 / 4194304) (1 / 4194304) (-22) (8388608) (by norm_num)
      (by norm_num [abs_eq_max_neg]) (by norm_num [abs_eq_max_neg])
      (by norm_num [abs_eq_max_neg]) (by norm_num)),
    (round32_eq (1 / 1048576) (1 / 1048576) (-20) (8388608) (by norm_num)
      (by norm_num [abs_eq_max_neg]) (by norm_num [abs_eq_max_neg])
      (by norm_num [abs_eq_max_neg]) (by norm_num)),
    (round32_eq (1 / 2048) (1 / 2048) (-11) (8388608) (by norm_num)
      (by norm_num [abs_eq_max_neg]) (by norm_num [abs_eq_max_neg])
      (by norm_num [abs_eq_max_neg]) (by norm_num)),
    (round32_eq (1 / 256) (1 / 256) (-8) (8388608) (by norm_num)
      (by norm_num [abs_eq_max_neg]) (by norm_num [abs_eq_max_neg])
      (by norm_num [abs_eq_max_neg]) (by norm_num)),
    (round32_eq (7 / 32) (7 / 32) (-3) (14680064) (by norm_num)
      (by norm_num [abs_eq_max_neg]) (by norm_num [abs_eq_max_neg])
      (by norm_num [abs_eq_max_neg]) (by norm_num)),
    (round32_eq (1 / 4) (1 / 4) (-2) (8388608) (by norm_num)
      (by norm_num [abs_eq_max_neg]) (by norm_num [abs_eq_max_neg])
      (by norm_num [abs_eq_max_neg]) (by norm_num)),
    (round32_eq (3355443 / 8388608) (3355443 / 8388608) (-2) (13421772) (by norm_num)
      (by norm_num [abs_eq_max_neg]) (by norm_num [abs_eq_max_neg])
      (by norm_num [abs_eq_max_neg]) (by norm_num)),
    (round32_eq (15 / 32) (15 / 32) (-2) (15728640) (by norm_num)
      (by norm_num [abs_eq_max_neg]) (by norm_num [abs_eq_max_neg])
      (by norm_num [abs_eq_max_neg]) (by norm_num)),
    (round32_eq (1 / 2) (1 / 2) (-1) (8388608) (by norm_num)
      (by norm_num [abs_eq_max_neg]) (by norm_num [abs_eq_max_neg])
      (by norm_num [abs_eq_max_neg]) (by norm_num)),
    (round32_eq (524289 / 1048576) (524289 / 1048576) (-1) (8388624) (by norm_num)
      (by norm_num [abs_eq_max_neg]) (by norm_num [abs_eq_max_neg])
      (by norm_num [abs_eq_max_neg]) (by norm_num)),
    (round32_eq (3355443 / 4194304) (3355443 / 4194304) (-1) (13421772) (by norm_num)
      (by norm_num [abs_eq_max_neg]) (by norm_num [abs_eq_max_neg])
      (by norm_num [abs_eq_max_neg]) (by norm_num)),
    (round32_eq (1) (1) (0) (8388608) (by norm_num)
      (by norm_num [abs_eq_max_neg]) (by norm_num [abs_eq_max_neg])
      (by norm_num [abs_eq_max_neg]) (by norm_num)),
    (round32_eq (5 / 4) (5 / 4) (0) (10485760) (by norm_num)
      (by norm_num [abs_eq_max_neg]) (by norm_num [abs_eq_max_neg])
      (by norm_num [abs_eq_max_neg]) (by norm_num)),
    (round32_eq (3 / 2) (3 / 2) (0) (12582912) (by norm_num)
      (by norm_num [abs_eq_max_neg]) (by norm_num [abs_eq_max_neg])
      (by norm_num [abs_eq_max_neg]) (by norm_num)),
    (round32_eq (2) (2) (1) (8388608) (by norm_num)
      (by norm_num [abs_eq_max_neg]) (by norm_num [abs_eq_max_neg])
      (by norm_num [abs_eq_max_neg]) (by norm_num)),
    (round32_eq (2097153 / 1048576) (2097153 / 1048576) (1) (8388612) (by norm_num)
      (by norm_num [abs_eq_max_neg]) (by norm_num [abs_eq_max_neg])
      (by norm_num [abs_eq_max_neg]) (by norm_num)),
    (round32_eq (5 / 2) (5 / 2) (1) (10485760) (by norm_num)
      (by norm_num [abs_eq_max_neg]) (by norm_num [abs_eq_max_neg])
      (by norm_num [abs_eq_max_neg]) (by norm_num)),
    (round32_eq (7 / 2) (7 / 2) (1) (14680064) (by norm_num)
      (by norm_num [abs_eq_max_neg]) (by norm_num [abs_eq_max_neg])
      (by norm_num [abs_eq_max_neg]) (by norm_num)),
    (round32_eq (15938355 / 4194304) (15938355 / 4194304) (1) (15938355) (by norm_num)
      (by norm_num [abs_eq_max_neg]) (by norm_num [abs_eq_max_neg])
      (by norm_num [abs_eq_max_neg]) (by norm_num)),
    (round32_eq (4) (4) (2) (8388608) (by norm_num)
      (by norm_num [abs_eq_max_neg]) (by norm_num [abs_eq_max_neg])
      (by norm_num [abs_eq_max_neg]) (by norm_num)),
    (round32_eq (4194305 / 1048576) (4194305 / 1048576) (2) (8388610) (by norm_num)
      (by norm_num [abs_eq_max_neg]) (by norm_num [abs_eq_max_neg])
      (by norm_num [abs_eq_max_neg]) (by norm_num)),
    (round32_eq (6815745 / 1048576) (6815745 / 1048576) (2) (13631490) (by norm_num)
      (by norm_num [abs_eq_max_neg]) (by norm_num [abs_eq_max_neg])
      (by norm_num [abs_eq_max_neg]) (by norm_num)),
    (round32_eq (16) (16) (4) (8388608) (by norm_num)
      (by norm_num [abs_eq_max_neg]) (by norm_num [abs_eq_max_neg])
      (by norm_num [abs_eq_max_neg]) (by norm_num)),
    (round32_eq (25) (25) (4) (13107200) (by norm_num)
      (by norm_num [abs_eq_max_neg]) (by norm_num [abs_eq_max_neg])
      (by norm_num [abs_eq_max_neg]) (by norm_num)),
    (round32_eq (56) (56) (5) (14680064) (by norm_num)
      (by norm_num [abs_eq_max_neg]) (by norm_num [abs_eq_max_neg])
      (by norm_num [abs_eq_max_neg]) (by norm_num)),
    (round32_eq (64) (64) (6) (8388608) (by norm_num)
      (by norm_num [abs_eq_max_neg]) (by norm_num [abs_eq_max_neg])
      (by norm_num [abs_eq_max_neg]) (by norm_num)),
    (round32_eq (256) (256) (8) (8388608) (by norm_num)
      (by norm_num [abs_eq_max_neg]) (by norm_num [abs_eq_max_neg])
      (by norm_num [abs_eq_max_neg]) (by norm_num)),
    (round32_eq (3995 / 4) (3995 / 4) (9) (16363520) (by norm_num)
      (by norm_num [abs_eq_max_neg]) (by norm_num [abs_eq_max_neg])
      (by norm_num [abs_eq_max_neg]) (by norm_num)),
    (round32_eq (1000) (1000) (9) (16384000) (by norm_num)
      (by norm_num [abs_eq_max_neg]) (by norm_num [abs_eq_max_neg])
      (by norm_num [abs_eq_max_neg]) (by norm_num)),
    (round32_eq (15980) (15980) (13) (16363520) (by norm_num)
      (by norm_num [abs_eq_max_neg]) (by norm_num [abs_eq_max_neg])
      (by norm_num [abs_eq_max_neg]) (by norm_num)),
    (round32_eq (255680) (255680) (17) (16363520) (by norm_num)
      (by norm_num [abs_eq_max_neg]) (by norm_num [abs_eq_max_neg])
      (by norm_num [abs_eq_max_neg]) (by norm_num)),
    (round32_eq (-11000) (-11000) (13) (-11264000) (by norm_num)
      (by norm_num [abs_eq_max_neg]) (by norm_num [abs_eq_max_neg])
      (by norm_num [abs_eq_max_neg]) (by norm_num)),
    (round32_eq (-10000) (-10000) (13) (-10240000) (by norm_num)
      (by norm_num [abs_eq_max_neg]) (by norm_num [abs_eq_max_neg])
      (by norm_num [abs_eq_max_neg]) (by norm_num)),
    (round32_eq (-1000) (-1000) (9) (-16384000) (by norm_num)
      (by norm_num [abs_eq_max_neg]) (by norm_num [abs_eq_max_neg])
      (by norm_num [abs_eq_max_neg]) (by norm_num)),
    (round32_eq (-(16383999 / 16384)) (-(16383999 / 16384)) (9) (-16383999) (by norm_num)
      (by norm_num [abs_eq_max_neg]) (by norm_num [abs_eq_max_neg])
      (by norm_num [abs_eq_max_neg]) (by norm_num)),
    (round32_eq (-66) (-66) (6) (-8650752) (by norm_num)
      (by norm_num [abs_eq_max_neg]) (by norm_num [abs_eq_max_neg])
      (by norm_num [abs_eq_max_neg]) (by norm_num)),
    (round32_eq (-55) (-55) (5) (-14417920) (by norm_num)
      (by norm_num [abs_eq_max_neg]) (by norm_num [abs_eq_max_neg])
      (by norm_num [abs_eq_max_neg]) (by norm_num)),
    (round32_eq (-50) (-50) (5) (-13107200) (by norm_num)
      (by norm_num [abs_eq_max_neg]) (by norm_num [abs_eq_max_neg])
      (by norm_num [abs_eq_max_neg]) (by norm_num)),
    (round32_eq (-11) (-11) (3) (-11534336) (by norm_num)
      (by norm_num [abs_eq_max_neg]) (by norm_num [abs_eq_max_neg])
      (by norm_num [abs_eq_max_neg]) (by norm_num)),
    (round32_eq (-10) (-10) (3) (-10485760) (by norm_num)
      (by norm_num [abs_eq_max_neg]) (by norm_num [abs_eq_max_neg])
      (by norm_num [abs_eq_max_neg]) (by norm_num)),
    (round32_eq (-6) (-6) (2) (-12582912) (by norm_num)
      (by norm_num [abs_eq_max_neg]) (by norm_num [abs_eq_max_neg])
      (by norm_num [abs_eq_max_neg]) (by norm_num)),
    (round32_eq (-5) (-5) (2) (-10485760) (by norm_num)
      (by norm_num [abs_eq_max_neg]) (by norm_num [abs_eq_max_neg])
      (by norm_num [abs_eq_max_neg]) (by norm_num)),
    (round32_eq (1 / 16384) (1 / 16384) (-14) (8388608) (by norm_num)
      (by norm_num [abs_eq_max_neg]) (by norm_num [abs_eq_max_neg])
      (by norm_num [abs_eq_max_neg]) (by norm_num)),
    (round32_eq (7626007 / 8388608) (7626007 / 8388608) (-1) (15252014) (by norm_num)
      (by norm_num [abs_eq_max_neg]) (by norm_num [abs_eq_max_neg])
      (by norm_num [abs_eq_max_neg]) (by norm_num)),
    (round32_eq (1143901 / 1048576) (1143901 / 1048576) (0) (9151208) (by norm_num)
      (by norm_num [abs_eq_max_neg]) (by norm_num [abs_eq_max_neg])
      (by norm_num [abs_eq_max_neg]) (by norm_num)),
    (round32_eq (5) (5) (2) (10485760) (by norm_num)
      (by norm_num [abs_eq_max_neg]) (by norm_num [abs_eq_max_neg])
      (by norm_num [abs_eq_max_neg]) (by norm_num)),
    (round32_eq (10) (10) (3) (10485760) (by norm_num)
      (by norm_num [abs_eq_max_neg]) (by norm_num [abs_eq_max_neg])
      (by norm_num [abs_eq_max_neg]) (by norm_num)),
    (round32_eq (11) (11) (3) (11534336) (by norm_num)
      (by norm_num [abs_eq_max_neg]) (by norm_num [abs_eq_max_neg])
      (by norm_num [abs_eq_max_neg]) (by norm_num)),
    (round32_eq (50) (50) (5) (13107200) (by norm_num)
      (by norm_num [abs_eq_max_neg]) (by norm_num [abs_eq_max_neg])
      (by norm_num [abs_eq_max_neg]) (by norm_num)),
    (round32_eq (55) (55) (5) (14417920) (by norm_num)
      (by norm_num [abs_eq_max_neg]) (by norm_num [abs_eq_max_neg])
      (by norm_num [abs_eq_max_neg]) (by norm_num)),
    (round32_eq (66) (66) (6) (8650752) (by norm_num)
      (by norm_num [abs_eq_max_neg]) (by norm_num [abs_eq_max_neg])
      (by norm_num [abs_eq_max_neg]) (by norm_num)),
    (round32_eq (100) (100) (6) (13107200) (by norm_num)
      (by norm_num [abs_eq_max_neg]) (by norm_num [abs_eq_max_neg])
      (by norm_num [abs_eq_max_neg]) (by norm_num)),
    (round32_eq (121) (121) (6) (15859712) (by norm_num)
      (by norm_num [abs_eq_max_neg]) (by norm_num [abs_eq_max_neg])
      (by norm_num [abs_eq_max_neg]) (by norm_num)),
    (round32_eq (10000) (10000) (13) (10240000) (by norm_num)
      (by norm_num [abs_eq_max_neg]) (by norm_num [abs_eq_max_neg])
      (by norm_num [abs_eq_max_neg]) (by norm_num)),
    (round32_eq (11000) (11000) (13) (11264000) (by norm_num)
      (by norm_num [abs_eq_max_neg]) (by norm_num [abs_eq_max_neg])
      (by norm_num [abs_eq_max_neg]) (by norm_num)),
    (round32_eq (100000) (100000) (16) (12800000) (by norm_num)
      (by norm_num [abs_eq_max_neg]) (by norm_num [abs_eq_max_neg])
      (by norm_num [abs_eq_max_neg]) (by norm_num)),
    (round32_eq (121000) (121000) (16) (15488000) (by norm_num)
      (by norm_num [abs_eq_max_neg]) (by norm_num [abs_eq_max_neg])
      (by norm_num [abs_eq_max_neg]) (by norm_num)),
    (round32_eq (1 / 16777216) (1 / 16777216) (-24) (8388608) (by norm_num)
      (by norm_num [abs_eq_max_neg]) (by norm_num [abs_eq_max_neg])
      (by norm_num [abs_eq_max_neg]) (by norm_num)),
    (round32_eq (1 / 4096) (1 / 4096) (-12) (8388608) (by norm_num)
      (by norm_num [abs_eq_max_neg]) (by norm_num [abs_eq_max_neg])
      (by norm_num [abs_eq_max_neg]) (by norm_num)),
    (round32_eq (25 / 4096) (25 / 4096) (-8) (13107200) (by norm_num)
      (by norm_num [abs_eq_max_neg]) (by norm_num [abs_eq_max_neg])
      (by norm_num [abs_eq_max_neg]) (by norm_num))⟩

/-- Numbers of the scenarios that are not binary32 numbers, with their rounded values;
among them the constants `1e-6f`, `0.03f`, `0.6f` and `1.8f` of the source. -/
lemma round32_rounded_values :
    round32 (1 / 1000000) = 8796093 / 8796093022208 ∧
      round32 (3 / 5) = 5033165 / 8388608 ∧
      round32 (167772161 / 134217728) = 5 / 4 ∧
      round32 (46976205 / 33554432) = 11744051 / 8388608 ∧
      round32 (9 / 5) = 7549747 / 4194304 ∧
      round32 (1073217535 / 1048576) = 2047 / 2 ∧
      round32 (1073741823 / 1048576) = 1024 ∧
      round32 (1 / 121) = 8873899 / 1073741824 ∧
      round32 (1 / 100) = 5368709 / 536870912 ∧
      round32 (488064445 / 1073741824) = 7626007 / 16777216 ∧
      round32 (134217725 / 268435456) = 1 / 2 ∧
      round32 (292838667 / 536870912) = 1143901 / 2097152 ∧
      round32 (134217722375 / 134217728) = 16383999 / 16384 ∧
      round32 (16777215625 / 16777216) = 1000 ∧
      round32 (20132659 / 8388608) = 5033165 / 2097152 ∧
      round32 (40265321 / 16777216) = 5033165 / 2097152 :=
  ⟨(round32_eq (1 / 1000000) (8796093 / 8796093022208) (-20) (8796093) (by norm_num)
      (by norm_num [abs_eq_max_neg]) (by norm_num [abs_eq_max_neg])
      (by norm_num [abs_eq_max_neg]) (by norm_num)),
    (round32_eq (3 / 5) (5033165 / 8388608) (-1) (10066330) (by norm_num)
      (by norm_num [abs_eq_max_neg]) (by norm_num [abs_eq_max_neg])
      (by norm_num [abs_eq_max_neg]) (by norm_num)),
    (round32_eq (167772161 / 134217728) (5 / 4) (0) (10485760) (by norm_num)
      (by norm_num [abs_eq_max_neg]) (by norm_num [abs_eq_max_neg])
      (by norm_num [abs_eq_max_neg]) (by norm_num)),
    (round32_eq (46976205 / 33554432) (11744051 / 8388608) (0) (11744051) (by norm_num)
      (by norm_num [abs_eq_max_neg]) (by norm_num [abs_eq_max_neg])
      (by norm_num [abs_eq_max_neg]) (by norm_num)),
    (round32_eq (9 / 5) (7549747 / 4194304) (0) (15099494) (by norm_num)
      (by norm_num [abs_eq_max_neg]) (by norm_num [abs_eq_max_neg])
      (by norm_num [abs_eq_max_neg]) (by norm_num)),
    (round32_eq (1073217535 / 1048576) (2047 / 2) (9) (16769024) (by norm_num)
      (by norm_num [abs_eq_max_neg]) (by norm_num [abs_eq_max_neg])
      (by norm_num [abs_eq_max_neg]) (by norm_num)),
    (round32_eq (1073741823 / 1048576) (1024) (9) (16777216) (by norm_num)
      (by norm_num [abs_eq_max_neg]) (by norm_num [abs_eq_max_neg])
      (by norm_num [abs_eq_max_neg]) (by norm_num)),
    (round32_eq (1 / 121) (8873899 / 1073741824) (-7) (8873899) (by norm_num)
      (by norm_num [abs_eq_max_neg]) (by norm_num [abs_eq_max_neg])
      (by norm_num [abs_eq_max_neg]) (by norm_num)),
    (round32_eq (1 / 100) (5368709 / 536870912) (-7) (10737418) (by norm_num)
      (by norm_num [abs_eq_max_neg]) (by norm_num [abs_eq_max_neg])
      (by norm_num [abs_eq_max_neg]) (by norm_num)),
    (round32_eq (488064445 / 1073741824) (7626007 / 16777216) (-2) (15252014) (by norm_num)
      (by norm_num [abs_eq_max_neg]) (by norm_num [abs_eq_max_neg])
      (by norm_num [abs_eq_max_neg]) (by norm_num)),
    (round32_eq (134217725 / 268435456) (1 / 2) (-2) (16777216) (by norm_num)
      (by norm_num [abs_eq_max_neg]) (by norm_num [abs_eq_max_neg])
      (by norm_num [abs_eq_max_neg]) (by norm_num)),
    (round32_eq (292838667 / 536870912) (1143901 / 2097152) (-1) (9151208) (by norm_num)
      (by norm_num [abs_eq_max_neg]) (by norm_num [abs_eq_max_neg])
      (by norm_num [abs_eq_max_neg]) (by norm_num)),
    (round32_eq (134217722375 / 134217728) (16383999 / 16384) (9) (16383999) (by norm_num)
      (by norm_num [abs_eq_max_neg]) (by norm_num [abs_eq_max_neg])
      (by norm_num [abs_eq_max_neg]) (by norm_num)),
    (round32_eq (16777215625 / 16777216) (1000) (9) (16384000) (by norm_num)
      (by norm_num [abs_eq_max_neg]) (by norm_num [abs_eq_max_neg])
      (by norm_num [abs_eq_max_neg]) (by norm_num)),
    (by
      rw [round32_of_binade _ (1) (by norm_num) (by norm_num [abs_eq_max_neg])
        (by norm_num [abs_eq_max_neg])]
      have e : (20132659 / 8388608 : ℚ) / (2 : ℚ) ^ ((1 : ℤ) - 23) =
          ((10066329 : ℤ) : ℚ) + 1 / 2 := by
        norm_num
      rw [e, roundEven_tie_odd _ (by norm_num)]
      norm_num),
    (round32_eq (40265321 / 16777216) (5033165 / 2097152) (1) (10066330) (by norm_num)
      (by norm_num [abs_eq_max_neg]) (by norm_num [abs_eq_max_neg])
      (by norm_num [abs_eq_max_neg]) (by norm_num))⟩

lemma round32_at_3_100 : round32 (3 / 100) = 16106127 / 536870912 :=
  round32_eq (3 / 100) (16106127 / 536870912) (-6) (16106127) (by norm_num)
    (by norm_num [abs_eq_max_neg]) (by norm_num [abs_eq_max_neg])
    (by norm_num [abs_eq_max_neg]) (by norm_num)

lemma round32_at_3_5 : round32 (3 / 5) = 5033165 / 8388608 :=
  round32_eq (3 / 5) (5033165 / 8388608) (-1) (10066330) (by norm_num)
    (by norm_num [abs_eq_max_neg]) (by norm_num [abs_eq_max_neg])
    (by norm_num [abs_eq_max_neg]) (by norm_num)

lemma round32_at_5_4 : round32 (5 / 4) = 5 / 4 :=
  round32_eq (5 / 4) (5 / 4) (0) (10485760) (by norm_num)
    (by norm_num [abs_eq_max_neg]) (by norm_num [abs_eq_max_neg])
    (by norm_num [abs_eq_max_neg]) (by norm_num)

lemma round32_at_9_5 : round32 (9 / 5) = 7549747 / 4194304 :=
  round32_eq (9 / 5) (7549747 / 4194304) (0) (15099494) (by norm_num)
    (by norm_num [abs_eq_max_neg]) (by norm_num [abs_eq_max_neg])
    (by norm_num [abs_eq_max_neg]) (by norm_num)

lemma round32_at_16106127_536870912 : round32 (16106127 / 536870912) = 16106127 / 536870912 :=
  round32_eq (16106127 / 536870912) (16106127 / 536870912) (-6) (16106127) (by norm_num)
    (by norm_num [abs_eq_max_neg]) (by norm_num [abs_eq_max_neg])
    (by norm_num [abs_eq_max_neg]) (by norm_num)

lemma round32_at_10485761_8388608 : round32 (10485761 / 8388608) = 10485761 / 8388608 :=
  round32_eq (10485761 / 8388608) (10485761 / 8388608) (0) (10485761) (by norm_num)
    (by norm_num [abs_eq_max_neg]) (by norm_num [abs_eq_max_neg])
    (by norm_num [abs_eq_max_neg]) (by norm_num)

/-! ## Single precision: representable numbers -/

/-- A number `m * 2^k` with `|m| < 2^24` and `k >= -149` is a binary32 number: rounding
leaves it unchanged. -/
lemma round32_grid (m k : ℤ) (hk : -149 ≤ k) (hm : |m| < 16777216) :
    round32 ((m : ℚ) * (2 : ℚ) ^ k) = (m : ℚ) * (2 : ℚ) ^ k := by
  by_cases hm0 : m = 0
  · rw [hm0]
    simp [round32_zero]
  have h2k : 0 < (2 : ℚ) ^ k := by positivity
  have hxpos : 0 < |(m : ℚ) * (2 : ℚ) ^ k| := by
    apply abs_pos.mpr
    apply mul_ne_zero
    · exact_mod_cast hm0
    · exact ne_of_gt h2k
  by_cases hke : binade ((m : ℚ) * (2 : ℚ) ^ k) - 23 ≤ k
  · obtain ⟨j, hj⟩ := Int.eq_ofNat_of_zero_le (sub_nonneg.mpr hke)
    have hsplit : (2 : ℚ) ^ k =
        (2 : ℚ) ^ (j : ℤ) * (2 : ℚ) ^ (binade ((m : ℚ) * (2 : ℚ) ^ k) - 23) := by
      rw [← zpow_add₀ (by norm_num : (2 : ℚ) ≠ 0)]
      congr 1
      omega
    have hu : 0 < (2 : ℚ) ^ (binade ((m : ℚ) * (2 : ℚ) ^ k) - 23) := by positivity
    have hq : (m : ℚ) * (2 : ℚ) ^ k / ulp32 ((m : ℚ) * (2 : ℚ) ^ k) =
        ((m * 2 ^ j : ℤ) : ℚ) := by
      unfold ulp32
      rw [div_eq_iff (ne_of_gt hu)]
      push_cast
      rw [zpow_natCast] at hsplit
      rw [mul_assoc, ← hsplit]
    unfold round32
    rw [hq, roundEven_intCast]
    unfold ulp32
    push_cast
    rw [zpow_natCast] at hsplit
    rw [mul_assoc, ← hsplit]
  · exfalso
    push_neg at hke
    have hb : -126 < binade ((m : ℚ) * (2 : ℚ) ^ k) := by omega
    have hb' : binade |(m : ℚ) * (2 : ℚ) ^ k| = binade ((m : ℚ) * (2 : ℚ) ^ k) := by
      unfold binade
      rw [abs_abs]
    have hle := two_zpow_binade_le |(m : ℚ) * (2 : ℚ) ^ k| hxpos (by rw [hb']; exact hb)
    rw [hb', abs_mul, abs_of_pos h2k] at hle
    have h24 : (2 : ℚ) ^ (k + 24) ≤ (2 : ℚ) ^ binade ((m : ℚ) * (2 : ℚ) ^ k) :=
      zpow_le_zpow_right₀ (by norm_num) (by omega)
    rw [zpow_add₀ (by norm_num : (2 : ℚ) ≠ 0)] at h24
    have hmq : |(m : ℚ)| < 16777216 := by exact_mod_cast hm
    have : (2 : ℚ) ^ k * (2 : ℚ) ^ (24 : ℤ) ≤ |(m : ℚ)| * (2 : ℚ) ^ k := le_trans h24 hle
    have h224 : (2 : ℚ) ^ (24 : ℤ) = 16777216 := by norm_num
    rw [h224] at this
    nlinarith

/-- The rounded quotient of a number by the spacing of its binade has at most 24 bits. -/
lemma abs_roundEven_div_ulp_le (x : ℚ) : |roundEven (x / ulp32 x)| ≤ 16777216 := by
  have hu : 0 < ulp32 x := ulp32_pos x
  have key : ∀ y : ℚ, 0 < y → roundEven (y / ulp32 y) ≤ 16777216 := by
    intro y hy
    have hlt := lt_two_zpow_binade_succ y hy
    rw [two_zpow_split] at hlt
    have hq : y / ulp32 y ≤ ((16777216 : ℤ) : ℚ) := by
      unfold ulp32
      rw [div_le_iff₀ (by positivity)]
      push_cast
      linarith
    have hr := roundEven_mono _ _ hq
    rwa [roundEven_intCast] at hr
  have key0 : ∀ y : ℚ, 0 ≤ y → 0 ≤ roundEven (y / ulp32 y) := by
    intro y hy
    have hq : ((0 : ℤ) : ℚ) ≤ y / ulp32 y := by
      push_cast
      exact div_nonneg hy (le_of_lt (ulp32_pos y))
    have hr := roundEven_mono _ _ hq
    rwa [roundEven_intCast] at hr
  rcases lt_trichotomy 0 x with hx | hx | hx
  · rw [abs_of_nonneg (key0 x (le_of_lt hx))]
    exact key x hx
  · rw [← hx, zero_div]
    have : roundEven (0 : ℚ) = 0 := by
      have := roundEven_intCast 0
      simpa using this
    rw [this]
    norm_num
  · have h1 := key (-x) (by linarith)
    have h0 := key0 (-x) (by linarith)
    rw [ulp32_neg, neg_div, roundEven_neg] at h1 h0
    rw [abs_of_nonpos (by omega)]
    exact h1

/-- Binary32 rounding is idempotent: a rounded value is a binary32 number. -/
lemma round32_round32 (x : ℚ) : round32 (round32 x) = round32 x := by
  have hb : -126 ≤ binade x := by
    unfold binade
    exact le_max_right _ _
  have hle := abs_roundEven_div_ulp_le x
  rcases lt_or_eq_of_le hle with hlt | heq
  · unfold round32 ulp32
    exact round32_grid _ _ (by omega) hlt
  · have h2 : (roundEven (x / ulp32 x) : ℚ) * ulp32 x =
        ((roundEven (x / ulp32 x) / 16777216 : ℤ) : ℚ) * (2 : ℚ) ^ (binade x + 1) := by
      rw [two_zpow_split]
      rcases abs_eq (by norm_num : (0 : ℤ) ≤ 16777216) |>.mp heq with h | h
      · rw [h]; unfold ulp32; norm_num
      · rw [h]; unfold ulp32; norm_num
    have h3 : |roundEven (x / ulp32 x) / 16777216| < 16777216 := by
      rcases abs_eq (by norm_num : (0 : ℤ) ≤ 16777216) |>.mp heq with h | h
      · rw [h]; norm_num
      · rw [h]; norm_num
    unfold round32
    rw [h2]
    exact round32_grid _ _ (by omega) h3

/-- The product of a sign and a binary32 number is computed exactly. -/
lemma fmul_awaySign_round32 (d x : ℚ) :
    fmul (awaySign d) (round32 x) = awaySign d * round32 x := by
  unfold fmul awaySign
  split_ifs
  · rw [neg_one_mul, round32_neg, round32_round32]
  · rw [one_mul, round32_round32]

/-- The midpoint between 1.25 and the next binary32 number rounds to 1.25 (ties to even). -/
lemma round32_step_max_tie : round32 (5 / 4 + 1 / 16777216) = 5 / 4 := by
  rw [round32_of_binade _ 0 (by norm_num) (by norm_num [abs_eq_max_neg])
    (by norm_num [abs_eq_max_neg])]
  have e : (5 / 4 + 1 / 16777216 : ℚ) / (2 : ℚ) ^ ((0 : ℤ) - 23) =
      ((10485760 : ℤ) : ℚ) + 1 / 2 := by norm_num
  rw [e, roundEven_tie_even _ (by norm_num)]
  norm_num

/-- A rounded value is at most `STEP_MAX = 1.25` exactly when the exact value is at most
`1.25 + 2^-24`. -/
lemma round32_le_step_max_iff (x : ℚ) : round32 x ≤ 5 / 4 ↔ x ≤ 5 / 4 + 1 / 16777216 := by
  constructor
  · intro h
    by_contra hc
    push_neg at hc
    rcases le_or_lt (10485761 / 8388608 : ℚ) x with h1 | h1
    · have := round32_mono _ _ h1
      rw [round32_at_10485761_8388608] at this
      linarith
    · have hx : 0 < x := by linarith
      have : round32 x = 10485761 / 8388608 :=
        round32_eq x _ 0 10485761 (by norm_num)
          (by rw [abs_of_pos hx]; norm_num; linarith)
          (by rw [abs_of_pos hx]; norm_num; linarith)
          (by
            have e : x / (2 : ℚ) ^ ((0 : ℤ) - 23) = x * 8388608 := by
              norm_num
              ring
            rw [e, abs_lt]
            push_cast
            constructor <;> linarith)
          (by norm_num)
      rw [this] at h
      norm_num at h
  · intro h
    have := round32_mono _ _ h
    rwa [round32_step_max_tie] at this

/-- The midpoint between `0.03f` and the previous binary32 number rounds to the previous
number (ties to even). -/
lemma round32_step_snap_eps_tie :
    round32 (32212253 / 1073741824) = 8053063 / 268435456 := by
  rw [round32_of_binade _ (-6) (by norm_num) (by norm_num [abs_eq_max_neg])
    (by norm_num [abs_eq_max_neg])]
  have e : (32212253 / 1073741824 : ℚ) / (2 : ℚ) ^ ((-6 : ℤ) - 23) =
      ((16106126 : ℤ) : ℚ) + 1 / 2 := by norm_num
  rw [e, roundEven_tie_even _ (by norm_num)]
  norm_num

/-- A rounded value is above `-STEP_SNAP_EPS = -0.03f` exactly when the exact value is at
least `-(0.03f - 2^-30)`. -/
lemma neg_step_snap_eps_lt_round32_iff (x : ℚ) :
    -(16106127 / 536870912) < round32 x ↔ -(32212253 / 1073741824) ≤ x := by
  have hneg : round32 x = -round32 (-x) := by rw [round32_neg, neg_neg]
  rw [hneg]
  constructor
  · intro h
    by_contra hc
    push_neg at hc
    have h1 := round32_mono _ _ (show (32212253 / 1073741824 : ℚ) ≤ -x by linarith)
    -- the exact value is beyond the midpoint, so the rounded value is at least 0.03f
    rcases le_or_lt (16106127 / 536870912 : ℚ) (-x) with h2 | h2
    · have := round32_mono _ _ h2
      rw [round32_at_16106127_536870912] at this
      linarith
    · have hx : 0 < -x := by linarith
      have : round32 (-x) = 16106127 / 536870912 :=
        round32_eq (-x) _ (-6) 16106127 (by norm_num)
          (by rw [abs_of_pos hx]; norm_num; linarith)
          (by rw [abs_of_pos hx]; norm_num; linarith)
          (by
            have e : -x / (2 : ℚ) ^ ((-6 : ℤ) - 23) = -x * 536870912 := by
              norm_num
              ring
            rw [e, abs_lt]
            push_cast
            constructor <;> linarith)
          (by norm_num)
      rw [this] at h
      norm_num at h
  · intro h
    have := round32_mono _ _ (show -x ≤ (32212253 / 1073741824 : ℚ) by linarith)
    rw [round32_step_snap_eps_tie] at this
    linarith

/-! ## Single precision: the overlap test -/

lemma single_IntersectsXZ_eq_true_iff (a b : AABB2D) :
    Single.IntersectsXZ a b = true ↔
      |fsub a.center.x b.center.x| ≤ fadd a.halfExt.x b.halfExt.x ∧
        |fsub a.center.y b.center.y| ≤ fadd a.halfExt.y b.halfExt.y := by
  unfold Single.IntersectsXZ
  constructor
  · intro h
    split_ifs at h with h1 h2
    exact ⟨not_lt.mp h1, not_lt.mp h2⟩
  · rintro ⟨h1, h2⟩
    rw [if_neg (not_lt.mpr h1), if_neg (not_lt.mpr h2)]

/-- An exact bound on a rounded quantity carries over to the exact quantity up to the two
rounding errors. -/
lemma le_of_abs_round32_le (d s : ℚ) (h : |round32 d| ≤ round32 s) :
    |d| ≤ s + (|d| + |s|) / 16777216 + 1 / 2 ^ 149 := by
  have h1 := abs_round32_sub_le d
  have h2 := abs_round32_sub_le s
  have h3 : |d| ≤ |round32 d| + |round32 d - d| := by
    have := abs_sub_abs_le_abs_sub d (round32 d)
    rw [abs_sub_comm] at this
    linarith
  have h4 : round32 s ≤ s + |round32 s - s| := by
    have := le_abs_self (round32 s - s)
    linarith
  have e : (1 : ℚ) / 2 ^ 149 = 1 / 2 ^ 150 + 1 / 2 ^ 150 := by norm_num
  rw [e]
  have : (|d| + |s|) / 16777216 = |d| / 16777216 + |s| / 16777216 := by ring
  rw [this]
  linarith

/-- A rounded distance is within a rounded bound whenever the exact distance is within the
exact bound. -/
lemma abs_round32_le_of_le (d s : ℚ) (h : |d| ≤ s) : |round32 d| ≤ round32 s := by
  rw [abs_round32]
  exact round32_mono _ _ h

/-- C4, original statement refuted in single precision: the unit squares centred at
`(0, 0)` and `(2, 0)` only touch along an edge (the centre distance on x equals the sum
of the half-extents, so it is not strictly less), and `IntersectsXZ` returns true. -/
theorem IntersectsXZ_single_touching_counterexample :
    Single.IntersectsXZ unitBox touchingBox = true ∧
      ¬ (|unitBox.center.x - touchingBox.center.x| <
            unitBox.halfExt.x + touchingBox.halfExt.x ∧
          |unitBox.center.y - touchingBox.center.y| <
            unitBox.halfExt.y + touchingBox.halfExt.y) := by
  constructor
  · rw [single_IntersectsXZ_eq_true_iff]
    norm_num [unitBox, touchingBox, fsub, fadd, round32_zero, abs_eq_max_neg, round32_exact_values]
  · norm_num [unitBox, touchingBox, abs_eq_max_neg]

/-- C4, amended: in binary32 arithmetic `IntersectsXZ(a, b)` is true if and only if on
each axis the absolute value of the rounded centre difference is at most the rounded sum
of the half-extents. Hence it is true whenever on each axis the exact centre distance is
at most the exact sum of the half-extents (rectangles that only touch along an edge count
as overlapping), and whenever it is true the exact centre distance exceeds the exact sum
on neither axis by more than the two rounding errors, `2^-24` of the distance and of the
sum plus `2^-149`. -/
theorem IntersectsXZ_single_iff (a b : AABB2D) :
    (Single.IntersectsXZ a b = true ↔
        |fsub a.center.x b.center.x| ≤ fadd a.halfExt.x b.halfExt.x ∧
          |fsub a.center.y b.center.y| ≤ fadd a.halfExt.y b.halfExt.y) ∧
      (|a.center.x - b.center.x| ≤ a.halfExt.x + b.halfExt.x →
        |a.center.y - b.center.y| ≤ a.halfExt.y + b.halfExt.y →
        Single.IntersectsXZ a b = true) ∧
      (Single.IntersectsXZ a b = true →
        |a.center.x - b.center.x| ≤ a.halfExt.x + b.halfExt.x +
            (|a.center.x - b.center.x| + |a.halfExt.x + b.halfExt.x|) / 16777216 +
            1 / 2 ^ 149 ∧
          |a.center.y - b.center.y| ≤ a.halfExt.y + b.halfExt.y +
            (|a.center.y - b.center.y| + |a.halfExt.y + b.halfExt.y|) / 16777216 +
            1 / 2 ^ 149) := by
  refine ⟨single_IntersectsXZ_eq_true_iff a b, fun hx hy => ?_, fun h => ?_⟩
  · rw [single_IntersectsXZ_eq_true_iff]
    exact ⟨abs_round32_le_of_le _ _ hx, abs_round32_le_of_le _ _ hy⟩
  · rw [single_IntersectsXZ_eq_true_iff] at h
    exact ⟨le_of_abs_round32_le _ _ h.1, le_of_abs_round32_le _ _ h.2⟩

/-- Witness of `IntersectsXZ_single_iff`: the touching unit squares are at exact centre
distance 2 = 1 + 1 on x and 0 on z, so the test returns true. -/
theorem IntersectsXZ_single_iff_witness :
    |unitBox.center.x - touchingBox.center.x| ≤ unitBox.halfExt.x + touchingBox.halfExt.x ∧
      |unitBox.center.y - touchingBox.center.y| ≤
        unitBox.halfExt.y + touchingBox.halfExt.y ∧
      Single.IntersectsXZ unitBox touchingBox = true :=
  have hx : |unitBox.center.x - touchingBox.center.x| ≤
      unitBox.halfExt.x + touchingBox.halfExt.x := by
    norm_num [unitBox, touchingBox, abs_eq_max_neg]
  have hy : |unitBox.center.y - touchingBox.center.y| ≤
      unitBox.halfExt.y + touchingBox.halfExt.y := by
    norm_num [unitBox, touchingBox, abs_eq_max_neg]
  ⟨hx, hy, (IntersectsXZ_single_iff unitBox touchingBox).2.1 hx hy⟩

/-! ## Single precision: height-aware gating -/

lemma single_IntersectsWallAtHeight_eq_true_iff (w : WallBox) (r : AABB2D) (f : ℚ) :
    Single.IntersectsWallAtHeight w r f = true ↔
      Single.heightGates w f ∧ Single.IntersectsXZ r w.boxXZ = true := by
  unfold Single.IntersectsWallAtHeight Single.heightGates
  simp only
  constructor
  · intro h
    split_ifs at h with h1
    rw [not_or, not_lt, not_lt] at h1
    exact ⟨h1, h⟩
  · rintro ⟨⟨h1, h2⟩, h3⟩
    rw [if_neg (by rw [not_or, not_lt, not_lt]; exact ⟨h1, h2⟩)]
    exact h3

lemma single_collide_eq_true_iff (gWalls : List WallBox) (r : AABB2D) (f : ℚ) :
    Single.collide gWalls r f = true ↔ Single.wallBlocks gWalls r f := by
  unfold Single.collide Single.wallBlocks
  rw [List.any_eq_true]
  constructor
  · rintro ⟨w, hw, h⟩
    exact ⟨w, hw, (single_IntersectsWallAtHeight_eq_true_iff w r f).mp h⟩
  · rintro ⟨w, hw, h⟩
    exact ⟨w, hw, (single_IntersectsWallAtHeight_eq_true_iff w r f).mpr h⟩

lemma single_blocked_eq_collide (gWalls : List WallBox) (box : AABB2D) (f : ℚ) (p : Vec3) :
    Single.blocked gWalls box f p = Single.collide gWalls (footprintAt box p) f := rfl

/-- The lower gate bound computed in single precision is within the rounding error of
`w.minY - 0.6`. -/
lemma abs_fsub_pad_down_le (y : ℚ) :
    |fsub y (round32 (3 / 5)) - (y - 3 / 5)| ≤
      |y - 5033165 / 8388608| / 16777216 + 1 / 2 ^ 150 + 1 / 41943040 := by
  unfold fsub
  rw [round32_at_3_5]
  have h := abs_round32_sub_le (y - 5033165 / 8388608)
  have e : round32 (y - 5033165 / 8388608) - (y - 3 / 5) =
      (round32 (y - 5033165 / 8388608) - (y - 5033165 / 8388608)) + -(1 / 41943040) := by
    ring
  rw [e]
  have := abs_add (round32 (y - 5033165 / 8388608) - (y - 5033165 / 8388608))
    (-(1 / 41943040))
  rw [abs_neg, abs_of_pos (by norm_num : (0 : ℚ) < 1 / 41943040)] at this
  linarith

/-- The upper gate bound computed in single precision is within the rounding error of
`w.maxY + 1.8`. -/
lemma abs_fadd_pad_up_le (y : ℚ) :
    |fadd y (round32 (9 / 5)) - (y + 9 / 5)| ≤
      |y + 7549747 / 4194304| / 16777216 + 1 / 2 ^ 150 + 1 / 20971520 := by
  unfold fadd
  rw [round32_at_9_5]
  have h := abs_round32_sub_le (y + 7549747 / 4194304)
  have e : round32 (y + 7549747 / 4194304) - (y + 9 / 5) =
      (round32 (y + 7549747 / 4194304) - (y + 7549747 / 4194304)) + -(1 / 20971520) := by
    ring
  rw [e]
  have := abs_add (round32 (y + 7549747 / 4194304) - (y + 7549747 / 4194304))
    (-(1 / 20971520))
  rw [abs_neg, abs_of_pos (by norm_num : (0 : ℚ) < 1 / 20971520)] at this
  linarith

/-- C8, original statement refuted in single precision: for the wall of vertical extent
`[1, 2]` over the unit square, the unit-square footprint and the foot elevation
`3355443 / 8388608` (the binary32 number just below 0.4), `IntersectsWallAtHeight` returns
true although `f < w.minY - 0.6`: the computed bound `1 - 0.6f` rounds to that number. -/
theorem IntersectsWallAtHeight_single_counterexample :
    Single.IntersectsWallAtHeight gateWall unitBox gateFoot = true ∧
      ¬ (gateWall.minY - 3 / 5 ≤ gateFoot ∧ gateFoot ≤ gateWall.maxY + 9 / 5 ∧
          Single.IntersectsXZ unitBox gateWall.boxXZ = true) := by
  constructor
  · rw [single_IntersectsWallAtHeight_eq_true_iff, single_IntersectsXZ_eq_true_iff]
    norm_num [Single.heightGates, gateWall, gateFoot, unitBox, fsub, fadd, round32_zero,
      abs_eq_max_neg, round32_exact_values, round32_rounded_values]
  · norm_num [gateWall, gateFoot]

/-- C8, amended: in binary32 arithmetic `IntersectsWallAtHeight(w, r, f)` is true if and
only if `fl(w.minY - 0.6f) <= f <= fl(w.maxY + 1.8f)` and `IntersectsXZ(r, w.boxXZ)` is
true, where `0.6f = 5033165 / 8388608`, `1.8f = 7549747 / 4194304` and `fl` rounds to
binary32; the computed bounds are within `2^-24` relative (plus `2^-150`) and the
representation errors of the two constants of `w.minY - 0.6` and `w.maxY + 1.8`.
Consequently the wall loop of `TryMoveWithStepUp` and the lambda `blocked` of `NudgeSpawn`
are true if and only if some wall volume of the dataset both height-gates `f` in this
sense and horizontally overlaps the footprint. -/
theorem IntersectsWallAtHeight_single_gating (w : WallBox) (gWalls : List WallBox)
    (r : AABB2D) (f : ℚ) (p : Vec3) :
    (Single.IntersectsWallAtHeight w r f = true ↔
        (fsub w.minY (5033165 / 8388608) ≤ f ∧ f ≤ fadd w.maxY (7549747 / 4194304)) ∧
          Single.IntersectsXZ r w.boxXZ = true) ∧
      (Single.collide gWalls r f = true ↔
        ∃ w ∈ gWalls, (fsub w.minY (5033165 / 8388608) ≤ f ∧
          f ≤ fadd w.maxY (7549747 / 4194304)) ∧ Single.IntersectsXZ r w.boxXZ = true) ∧
      (Single.blocked gWalls r f p = true ↔
        ∃ w ∈ gWalls, (fsub w.minY (5033165 / 8388608) ≤ f ∧
          f ≤ fadd w.maxY (7549747 / 4194304)) ∧
          Single.IntersectsXZ (footprintAt r p) w.boxXZ = true) ∧
      |fsub w.minY (5033165 / 8388608) - (w.minY - 3 / 5)| ≤
        |w.minY - 5033165 / 8388608| / 16777216 + 1 / 2 ^ 150 + 1 / 41943040 ∧
      |fadd w.maxY (7549747 / 4194304) - (w.maxY + 9 / 5)| ≤
        |w.maxY + 7549747 / 4194304| / 16777216 + 1 / 2 ^ 150 + 1 / 20971520 := by
  have e1 := abs_fsub_pad_down_le w.minY
  have e2 := abs_fadd_pad_up_le w.maxY
  have h1 := single_IntersectsWallAtHeight_eq_true_iff w r f
  have h2 := single_collide_eq_true_iff gWalls r f
  have h3 := single_collide_eq_true_iff gWalls (footprintAt r p) f
  rw [← single_blocked_eq_collide] at h3
  unfold Single.wallBlocks at h2 h3
  unfold Single.heightGates at h1 h2 h3
  simp only [round32_rounded_values] at h1 h2 h3 e1 e2
  exact ⟨h1, h2, h3, e1, e2⟩

/-! ## Single precision: floor sampling -/

lemma single_RaycastTri_pos (ro rd : Vec3) (tri : Tri) (t : ℚ)
    (h : Single.RaycastTri ro rd tri = some t) : 0 < t := by
  unfold Single.RaycastTri at h
  simp only at h
  split_ifs at h with h1 h2 h3 h4
  rw [Option.some.injEq] at h
  rw [← h]
  exact not_le.mp h4

lemma single_sampleStep_none_of_some (ro rd : Vec3) (tri : Tri) (t : ℚ)
    (h : Single.RaycastTri ro rd tri = some t) : Single.sampleStep ro rd none tri = some t := by
  have ht := single_RaycastTri_pos ro rd tri t h
  unfold Single.sampleStep
  rw [h]
  simp [ltBest, ht]

/-- The single precision sampler at a position given by its coordinates. -/
lemma single_SampleFloorY_mk (gFloorTris : List Tri) (MAP_Y_OFFSET x y z : ℚ) :
    Single.SampleFloorY gFloorTris MAP_Y_OFFSET ⟨x, y, z⟩ =
      match gFloorTris.foldl (Single.sampleStep ⟨x, 1000, z⟩ ⟨0, -1, 0⟩) none with
      | some bestT => fadd 1000 (fmul bestT (-1))
      | none => MAP_Y_OFFSET := rfl

/-- The single precision `RaycastTri` for the vertical probe, written out on the
coordinates of the triangle. -/
lemma single_RaycastTri_vertical (x z ax ay az bx by1 bz cx cy cz : ℚ) (n : Vec3) :
    Single.RaycastTri ⟨x, 1000, z⟩ ⟨0, -1, 0⟩ ⟨⟨ax, ay, az⟩, ⟨bx, by1, bz⟩, ⟨cx, cy, cz⟩, n⟩ =
      if |fadd (fadd (fmul (fsub (bx) (ax)) (fsub (fmul (-1) (fsub (cz) (az))) (fmul (fsub (cy)
        (ay)) (0)))) (fmul (fsub (by1) (ay)) (fsub (fmul (0) (fsub (cx) (ax))) (fmul (fsub (cz)
        (az)) (0))))) (fmul (fsub (bz) (az)) (fsub (fmul (0) (fsub (cy) (ay))) (fmul (fsub (cx)
        (ax)) (-1))))| < round32 (1 / 1000000) then none
      else if fmul (fadd (fadd (fmul (fsub (x) (ax)) (fsub (fmul (-1) (fsub (cz) (az))) (fmul (fsub
        (cy) (ay)) (0)))) (fmul (fsub (1000) (ay)) (fsub (fmul (0) (fsub (cx) (ax))) (fmul (fsub
        (cz) (az)) (0))))) (fmul (fsub (z) (az)) (fsub (fmul (0) (fsub (cy) (ay))) (fmul (fsub (cx)
        (ax)) (-1))))) (fdiv (1) (fadd (fadd (fmul (fsub (bx) (ax)) (fsub (fmul (-1) (fsub (cz)
        (az))) (fmul (fsub (cy) (ay)) (0)))) (fmul (fsub (by1) (ay)) (fsub (fmul (0) (fsub (cx)
        (ax))) (fmul (fsub (cz) (az)) (0))))) (fmul (fsub (bz) (az)) (fsub (fmul (0) (fsub (cy)
        (ay))) (fmul (fsub (cx) (ax)) (-1)))))) < 0 ∨ fmul (fadd (fadd (fmul (fsub (x) (ax)) (fsub
        (fmul (-1) (fsub (cz) (az))) (fmul (fsub (cy) (ay)) (0)))) (fmul (fsub (1000) (ay)) (fsub
        (fmul (0) (fsub (cx) (ax))) (fmul (fsub (cz) (az)) (0))))) (fmul (fsub (z) (az)) (fsub
        (fmul (0) (fsub (cy) (ay))) (fmul (fsub (cx) (ax)) (-1))))) (fdiv (1) (fadd (fadd (fmul
        (fsub (bx) (ax)) (fsub (fmul (-1) (fsub (cz) (az))) (fmul (fsub (cy) (ay)) (0)))) (fmul
        (fsub (by1) (ay)) (fsub (fmul (0) (fsub (cx) (ax))) (fmul (fsub (cz) (az)) (0))))) (fmul
        (fsub (bz) (az)) (fsub (fmul (0) (fsub (cy) (ay))) (fmul (fsub (cx) (ax)) (-1)))))) > 1
        then none
      else if fmul (fadd (fadd (fmul (0) (fsub (fmul (fsub (1000) (ay)) (fsub (bz) (az))) (fmul
        (fsub (by1) (ay)) (fsub (z) (az))))) (fmul (-1) (fsub (fmul (fsub (z) (az)) (fsub (bx)
        (ax))) (fmul (fsub (bz) (az)) (fsub (x) (ax)))))) (fmul (0) (fsub (fmul (fsub (x) (ax))
        (fsub (by1) (ay))) (fmul (fsub (bx) (ax)) (fsub (1000) (ay)))))) (fdiv (1) (fadd (fadd
        (fmul (fsub (bx) (ax)) (fsub (fmul (-1) (fsub (cz) (az))) (fmul (fsub (cy) (ay)) (0))))
        (fmul (fsub (by1) (ay)) (fsub (fmul (0) (fsub (cx) (ax))) (fmul (fsub (cz) (az)) (0)))))
        (fmul (fsub (bz) (az)) (fsub (fmul (0) (fsub (cy) (ay))) (fmul (fsub (cx) (ax)) (-1)))))) <
        0 ∨ fadd (fmul (fadd (fadd (fmul (fsub (x) (ax)) (fsub (fmul (-1) (fsub (cz) (az))) (fmul
        (fsub (cy) (ay)) (0)))) (fmul (fsub (1000) (ay)) (fsub (fmul (0) (fsub (cx) (ax))) (fmul
        (fsub (cz) (az)) (0))))) (fmul (fsub (z) (az)) (fsub (fmul (0) (fsub (cy) (ay))) (fmul
        (fsub (cx) (ax)) (-1))))) (fdiv (1) (fadd (fadd (fmul (fsub (bx) (ax)) (fsub (fmul (-1)
        (fsub (cz) (az))) (fmul (fsub (cy) (ay)) (0)))) (fmul (fsub (by1) (ay)) (fsub (fmul (0)
        (fsub (cx) (ax))) (fmul (fsub (cz) (az)) (0))))) (fmul (fsub (bz) (az)) (fsub (fmul (0)
        (fsub (cy) (ay))) (fmul (fsub (cx) (ax)) (-1))))))) (fmul (fadd (fadd (fmul (0) (fsub (fmul
        (fsub (1000) (ay)) (fsub (bz) (az))) (fmul (fsub (by1) (ay)) (fsub (z) (az))))) (fmul (-1)
        (fsub (fmul (fsub (z) (az)) (fsub (bx) (ax))) (fmul (fsub (bz) (az)) (fsub (x) (ax))))))
        (fmul (0) (fsub (fmul (fsub (x) (ax)) (fsub (by1) (ay))) (fmul (fsub (bx) (ax)) (fsub
        (1000) (ay)))))) (fdiv (1) (fadd (fadd (fmul (fsub (bx) (ax)) (fsub (fmul (-1) (fsub (cz)
        (az))) (fmul (fsub (cy) (ay)) (0)))) (fmul (fsub (by1) (ay)) (fsub (fmul (0) (fsub (cx)
        (ax))) (fmul (fsub (cz) (az)) (0))))) (fmul (fsub (bz) (az)) (fsub (fmul (0) (fsub (cy)
        (ay))) (fmul (fsub (cx) (ax)) (-1))))))) > 1 then none
      else if fmul (fadd (fadd (fmul (fsub (cx) (ax)) (fsub (fmul (fsub (1000) (ay)) (fsub (bz)
        (az))) (fmul (fsub (by1) (ay)) (fsub (z) (az))))) (fmul (fsub (cy) (ay)) (fsub (fmul (fsub
        (z) (az)) (fsub (bx) (ax))) (fmul (fsub (bz) (az)) (fsub (x) (ax)))))) (fmul (fsub (cz)
        (az)) (fsub (fmul (fsub (x) (ax)) (fsub (by1) (ay))) (fmul (fsub (bx) (ax)) (fsub (1000)
        (ay)))))) (fdiv (1) (fadd (fadd (fmul (fsub (bx) (ax)) (fsub (fmul (-1) (fsub (cz) (az)))
        (fmul (fsub (cy) (ay)) (0)))) (fmul (fsub (by1) (ay)) (fsub (fmul (0) (fsub (cx) (ax)))
        (fmul (fsub (cz) (az)) (0))))) (fmul (fsub (bz) (az)) (fsub (fmul (0) (fsub (cy) (ay)))
        (fmul (fsub (cx) (ax)) (-1)))))) ≤ 0 then none
      else some (fmul (fadd (fadd (fmul (fsub (cx) (ax)) (fsub (fmul (fsub (1000) (ay)) (fsub (bz)
        (az))) (fmul (fsub (by1) (ay)) (fsub (z) (az))))) (fmul (fsub (cy) (ay)) (fsub (fmul (fsub
        (z) (az)) (fsub (bx) (ax))) (fmul (fsub (bz) (az)) (fsub (x) (ax)))))) (fmul (fsub (cz)
        (az)) (fsub (fmul (fsub (x) (ax)) (fsub (by1) (ay))) (fmul (fsub (bx) (ax)) (fsub (1000)
        (ay)))))) (fdiv (1) (fadd (fadd (fmul (fsub (bx) (ax)) (fsub (fmul (-1) (fsub (cz) (az)))
        (fmul (fsub (cy) (ay)) (0)))) (fmul (fsub (by1) (ay)) (fsub (fmul (0) (fsub (cx) (ax)))
        (fmul (fsub (cz) (az)) (0))))) (fmul (fsub (bz) (az)) (fsub (fmul (0) (fsub (cy) (ay)))
        (fmul (fsub (cx) (ax)) (-1))))))) := rfl

/-! ## Single precision: the horizontal step -/

lemma single_TryMoveWithStepUp_of_free (d : CollisionData) (MAP_Y_OFFSET : ℚ)
    (posXZ moveXZ : Vec3) (f : ℚ) (playerBox : AABB2D) (out : ℚ)
    (h : Single.isFree d posXZ moveXZ f playerBox) :
    Single.TryMoveWithStepUp d MAP_Y_OFFSET posXZ moveXZ f playerBox out =
      ⟨true, Single.vadd posXZ moveXZ, footprintAt playerBox (Single.vadd posXZ moveXZ),
        f⟩ := by
  unfold Single.isFree at h
  rw [← single_collide_eq_true_iff, Bool.not_eq_true] at h
  unfold footprintAt at h
  unfold Single.TryMoveWithStepUp footprintAt
  simp only [h, Bool.not_false, if_true]

lemma single_TryMoveWithStepUp_of_stepUp (d : CollisionData) (MAP_Y_OFFSET : ℚ)
    (posXZ moveXZ : Vec3) (f : ℚ) (playerBox : AABB2D) (out : ℚ)
    (h : Single.isStepUp d MAP_Y_OFFSET posXZ moveXZ f playerBox) :
    Single.TryMoveWithStepUp d MAP_Y_OFFSET posXZ moveXZ f playerBox out =
      ⟨true, Single.vadd posXZ moveXZ, footprintAt playerBox (Single.vadd posXZ moveXZ),
        Single.SampleFloorY d.gFloorTris MAP_Y_OFFSET (Single.vadd posXZ moveXZ)⟩ := by
  obtain ⟨hb, h1, h2, hn⟩ := h
  rw [← single_collide_eq_true_iff] at hb
  rw [← single_collide_eq_true_iff, Bool.not_eq_true] at hn
  unfold footprintAt at hb hn
  unfold Single.TryMoveWithStepUp footprintAt
  simp only [hb, hn, Bool.not_true, Bool.not_false, if_true, Bool.false_eq_true, if_false]
  rw [if_pos ⟨h1, h2⟩]

lemma single_TryMoveWithStepUp_of_blocked (d : CollisionData) (MAP_Y_OFFSET : ℚ)
    (posXZ moveXZ : Vec3) (f : ℚ) (playerBox : AABB2D) (out : ℚ)
    (hf : ¬ Single.isFree d posXZ moveXZ f playerBox)
    (hs : ¬ Single.isStepUp d MAP_Y_OFFSET posXZ moveXZ f playerBox) :
    Single.TryMoveWithStepUp d MAP_Y_OFFSET posXZ moveXZ f playerBox out =
      ⟨false, posXZ, playerBox, out⟩ := by
  unfold Single.isFree at hf
  rw [not_not] at hf
  have hb := hf
  rw [← single_collide_eq_true_iff] at hb
  unfold footprintAt at hb
  unfold Single.TryMoveWithStepUp
  simp only [hb, Bool.not_true, Bool.false_eq_true, if_false]
  split_ifs with h1 h2
  · exfalso
    apply hs
    refine ⟨hf, h1.1, h1.2, ?_⟩
    rw [← single_collide_eq_true_iff]
    unfold footprintAt
    simpa using h2
  · rfl
  · rfl

lemma single_STEP_MAX_eq : Single.STEP_MAX = 5 / 4 := round32_at_5_4

lemma single_STEP_SNAP_EPS_eq : Single.STEP_SNAP_EPS = 16106127 / 536870912 :=
  round32_at_3_100

/-- The step window test on the rounded difference, in terms of the exact difference. -/
lemma single_step_window_iff (F f : ℚ) :
    (-Single.STEP_SNAP_EPS < fsub F f ∧ fsub F f ≤ Single.STEP_MAX) ↔
      -(32212253 / 1073741824) ≤ F - f ∧ F - f ≤ 5 / 4 + 1 / 16777216 := by
  rw [single_STEP_MAX_eq, single_STEP_SNAP_EPS_eq]
  unfold fsub
  rw [neg_step_snap_eps_lt_round32_iff, round32_le_step_max_iff]

/-- The candidate of the ledge scene. -/
lemma ledge_candidate_eq : Single.vadd ledgePos agentMove = ⟨7 / 2, 0, 4⟩ := by
  norm_num [Single.vadd, ledgePos, agentMove, fadd, round32_zero, round32_exact_values]

/-- The single precision probe at the column `(7/2, 4)` hits `ledgeTri` at ray parameter
`3995 / 4 = 1000 - 1.25`. -/
lemma single_RaycastTri_ledgeTri :
    Single.RaycastTri ⟨7 / 2, 1000, 4⟩ ⟨0, -1, 0⟩ ledgeTri = some (3995 / 4) := by
  unfold ledgeTri
  rw [single_RaycastTri_vertical]
  norm_num [fadd, fsub, fmul, fdiv, abs_eq_max_neg, round32_zero, round32_exact_values,
    round32_rounded_values]

/-- The single precision floor sampled at the candidate of the ledge scene is 1.25. -/
lemma single_SampleFloorY_ledge (mapY y : ℚ) :
    Single.SampleFloorY [ledgeTri] mapY ⟨7 / 2, y, 4⟩ = 5 / 4 := by
  have e : Single.sampleStep ⟨7 / 2, 1000, 4⟩ ⟨0, -1, 0⟩ none ledgeTri = some (3995 / 4) :=
    single_sampleStep_none_of_some _ _ _ _ single_RaycastTri_ledgeTri
  rw [single_SampleFloorY_mk, List.foldl_cons, List.foldl_nil, e]
  norm_num [fadd, fmul, round32_exact_values]

/-- The candidate footprint of the ledge scene overlaps `ledgeWall` horizontally. -/
lemma ledge_candidate_overlaps :
    Single.IntersectsXZ (footprintAt ledgeBox ⟨7 / 2, 0, 4⟩) ledgeWall.boxXZ = true := by
  rw [single_IntersectsXZ_eq_true_iff]
  norm_num [footprintAt, ledgeBox, ledgeWall, fsub, fadd, round32_zero, abs_eq_max_neg,
    round32_exact_values, round32_rounded_values]

lemma ledge_wallBlocks_iff (f : ℚ) :
    Single.wallBlocks [ledgeWall] (footprintAt ledgeBox ⟨7 / 2, 0, 4⟩) f ↔
      -(15518925 / 8388608) ≤ f ∧ f ≤ 3355443 / 4194304 := by
  unfold Single.wallBlocks
  simp only [List.mem_singleton, exists_eq_left, ledge_candidate_overlaps, and_true]
  have e1 : ledgeWall.minY = -(5 / 4) := rfl
  have e2 : ledgeWall.maxY = -1 := rfl
  unfold Single.heightGates
  rw [e1, e2]
  norm_num [fsub, fadd, round32_exact_values, round32_rounded_values]

/-- The ledge scene is a StepUp case in single precision: the candidate footprint is
blocked at the foot elevation `-2^-27`, the sampled floor is 1.25, the computed difference
rounds to 1.25, and the wall does not gate the elevation 1.25. -/
lemma ledge_isStepUp : Single.isStepUp ledgeScene (-20) ledgePos agentMove ledgeFoot ledgeBox := by
  have hF : Single.SampleFloorY ledgeScene.gFloorTris (-20) (Single.vadd ledgePos agentMove)
      = 5 / 4 := by
    rw [ledge_candidate_eq]
    exact single_SampleFloorY_ledge (-20) 0
  unfold Single.isStepUp
  rw [hF, ledge_candidate_eq]
  have hw : ledgeScene.gWalls = [ledgeWall] := rfl
  rw [hw, ledge_wallBlocks_iff, ledge_wallBlocks_iff, single_STEP_MAX_eq,
    single_STEP_SNAP_EPS_eq]
  norm_num [ledgeFoot, fsub, round32_rounded_values]

/-- C5, original statement refuted in single precision: in the ledge scene the candidate
footprint is blocked at the current foot elevation `f = -2^-27`, the floor sampled at the
candidate is `F = 1.25`, so `F - f = 1.25 + 2^-27` exceeds `STEP_MAX = 1.25`; the
difference computed in binary32 rounds to 1.25 and `TryMoveWithStepUp` returns true with
the output foot elevation 1.25. -/
theorem TryMoveWithStepUp_single_counterexample :
    Single.wallBlocks ledgeScene.gWalls
        (footprintAt ledgeBox (Single.vadd ledgePos agentMove)) ledgeFoot ∧
      Single.SampleFloorY ledgeScene.gFloorTris (-20) (Single.vadd ledgePos agentMove) -
          ledgeFoot = 5 / 4 + 1 / 134217728 ∧
      ¬ (Single.SampleFloorY ledgeScene.gFloorTris (-20) (Single.vadd ledgePos agentMove) -
          ledgeFoot ≤ 5 / 4) ∧
      Single.TryMoveWithStepUp ledgeScene (-20) ledgePos agentMove ledgeFoot ledgeBox
          ledgeFoot =
        ⟨true, ⟨7 / 2, 0, 4⟩, ⟨⟨7 / 2, 4⟩, ledgeBox.halfExt⟩, 5 / 4⟩ := by
  have hF : Single.SampleFloorY ledgeScene.gFloorTris (-20) (Single.vadd ledgePos agentMove)
      = 5 / 4 := by
    rw [ledge_candidate_eq]
    exact single_SampleFloorY_ledge (-20) 0
  have hs := ledge_isStepUp
  refine ⟨hs.1, ?_, ?_, ?_⟩
  · rw [hF]; norm_num [ledgeFoot]
  · rw [hF]; norm_num [ledgeFoot]
  · rw [single_TryMoveWithStepUp_of_stepUp _ _ _ _ _ _ _ hs, hF, ledge_candidate_eq]
    rfl

/-- C5, amended: Free / StepUp / Blocked decision in binary32 arithmetic. With candidate =
`fl(position + displacement)` and `F = SampleFloorY(candidate)`: `TryMoveWithStepUp`
returns true exactly in the Free case (no wall blocks the candidate footprint at `f`) or
the StepUp case (blocked at `f`, `-0.03f < fl(F - f) <= 1.25`, not blocked at `F`); in the
Free case position and footprint centre become the candidate and the output foot
elevation is `f`; in the StepUp case they become the candidate and the output foot
elevation is `F`; in every other case it returns false and leaves position, footprint and
output foot elevation unchanged. The window is tested on the rounded difference: it holds
exactly when the exact difference `F - f` lies in
`[-(0.03f - 2^-30), 1.25 + 2^-24]`, where `0.03f = 16106127 / 536870912`; so a delta of
1.25, and of up to `1.25 + 2^-24`, is admitted, and a larger one is rejected. -/
theorem TryMoveWithStepUp_single_decision (d : CollisionData) (MAP_Y_OFFSET : ℚ)
    (posXZ moveXZ : Vec3) (f : ℚ) (playerBox : AABB2D) (out : ℚ) :
    ((Single.TryMoveWithStepUp d MAP_Y_OFFSET posXZ moveXZ f playerBox out).ok = true ↔
        Single.isFree d posXZ moveXZ f playerBox ∨
          Single.isStepUp d MAP_Y_OFFSET posXZ moveXZ f playerBox) ∧
      (Single.isFree d posXZ moveXZ f playerBox →
        Single.TryMoveWithStepUp d MAP_Y_OFFSET posXZ moveXZ f playerBox out =
          ⟨true, Single.vadd posXZ moveXZ,
            ⟨⟨(Single.vadd posXZ moveXZ).x, (Single.vadd posXZ moveXZ).z⟩,
              playerBox.halfExt⟩, f⟩) ∧
      (Single.isStepUp d MAP_Y_OFFSET posXZ moveXZ f playerBox →
        Single.TryMoveWithStepUp d MAP_Y_OFFSET posXZ moveXZ f playerBox out =
          ⟨true, Single.vadd posXZ moveXZ,
            ⟨⟨(Single.vadd posXZ moveXZ).x, (Single.vadd posXZ moveXZ).z⟩,
              playerBox.halfExt⟩,
            Single.SampleFloorY d.gFloorTris MAP_Y_OFFSET (Single.vadd posXZ moveXZ)⟩) ∧
      (¬ Single.isFree d posXZ moveXZ f playerBox →
        ¬ Single.isStepUp d MAP_Y_OFFSET posXZ moveXZ f playerBox →
        Single.TryMoveWithStepUp d MAP_Y_OFFSET posXZ moveXZ f playerBox out =
          ⟨false, posXZ, playerBox, out⟩) ∧
      (Single.isStepUp d MAP_Y_OFFSET posXZ moveXZ f playerBox ↔
        Single.wallBlocks d.gWalls (footprintAt playerBox (Single.vadd posXZ moveXZ)) f ∧
          -(32212253 / 1073741824) ≤
            Single.SampleFloorY d.gFloorTris MAP_Y_OFFSET (Single.vadd posXZ moveXZ) - f ∧
          Single.SampleFloorY d.gFloorTris MAP_Y_OFFSET (Single.vadd posXZ moveXZ) - f ≤
            5 / 4 + 1 / 16777216 ∧
          ¬ Single.wallBlocks d.gWalls (footprintAt playerBox (Single.vadd posXZ moveXZ))
              (Single.SampleFloorY d.gFloorTris MAP_Y_OFFSET
                (Single.vadd posXZ moveXZ))) := by
  have hfree := single_TryMoveWithStepUp_of_free d MAP_Y_OFFSET posXZ moveXZ f playerBox out
  have hstep := single_TryMoveWithStepUp_of_stepUp d MAP_Y_OFFSET posXZ moveXZ f playerBox out
  have hblk := single_TryMoveWithStepUp_of_blocked d MAP_Y_OFFSET posXZ moveXZ f playerBox out
  refine ⟨?_, hfree, hstep, hblk, ?_⟩
  · constructor
    · intro hok
      by_contra hc
      rw [not_or] at hc
      rw [hblk hc.1 hc.2] at hok
      exact Bool.false_ne_true hok
    · rintro (h | h)
      · rw [hfree h]
      · rw [hstep h]
  · have hw := single_step_window_iff
      (Single.SampleFloorY d.gFloorTris MAP_Y_OFFSET (Single.vadd posXZ moveXZ)) f
    unfold Single.isStepUp
    constructor
    · rintro ⟨h1, h2, h3, h4⟩
      exact ⟨h1, (hw.mp ⟨h2, h3⟩).1, (hw.mp ⟨h2, h3⟩).2, h4⟩
    · rintro ⟨h1, h2, h3, h4⟩
      exact ⟨h1, (hw.mpr ⟨h2, h3⟩).1, (hw.mpr ⟨h2, h3⟩).2, h4⟩

/-- Witness of `TryMoveWithStepUp_single_decision`: the ledge scene is a StepUp case, and
the step is taken to the candidate `(7/2, 4)` with output foot elevation 1.25. -/
theorem TryMoveWithStepUp_single_decision_witness :
    Single.isStepUp ledgeScene (-20) ledgePos agentMove ledgeFoot ledgeBox ∧
      Single.TryMoveWithStepUp ledgeScene (-20) ledgePos agentMove ledgeFoot ledgeBox 0 =
        ⟨true, Single.vadd ledgePos agentMove,
          ⟨⟨(Single.vadd ledgePos agentMove).x, (Single.vadd ledgePos agentMove).z⟩,
            ledgeBox.halfExt⟩,
          Single.SampleFloorY ledgeScene.gFloorTris (-20) (Single.vadd ledgePos agentMove)⟩ :=
  ⟨ledge_isStepUp,
    (TryMoveWithStepUp_single_decision ledgeScene (-20) ledgePos agentMove ledgeFoot ledgeBox
      0).2.2.1 ledge_isStepUp⟩

/-! ## Single precision: the sampled floor -/

lemma single_verticalPhysics_of_le (d : CollisionData)
    (MAP_Y_OFFSET PLAYER_FOOT_BIAS deltaTime : ℚ) (s : PlayerState)
    (h : Single.proposedHeight deltaTime s ≤
      fadd (Single.sampledFloor d MAP_Y_OFFSET s) PLAYER_FOOT_BIAS) :
    Single.verticalPhysics d MAP_Y_OFFSET PLAYER_FOOT_BIAS deltaTime s =
      { s with
        playerAbs := ⟨s.playerPosXZ.x,
          fadd (Single.sampledFloor d MAP_Y_OFFSET s) PLAYER_FOOT_BIAS, s.playerPosXZ.z⟩
        gVelY := 0
        gGrounded := true
        playerFootY := Single.sampledFloor d MAP_Y_OFFSET s } := by
  unfold Single.proposedHeight Single.integratedVel Single.sampledFloor at h
  unfold Single.verticalPhysics Single.sampledFloor
  simp only
  rw [if_pos h]

lemma single_verticalPhysics_of_not_le (d : CollisionData)
    (MAP_Y_OFFSET PLAYER_FOOT_BIAS deltaTime : ℚ) (s : PlayerState)
    (h : ¬ Single.proposedHeight deltaTime s ≤
      fadd (Single.sampledFloor d MAP_Y_OFFSET s) PLAYER_FOOT_BIAS) :
    Single.verticalPhysics d MAP_Y_OFFSET PLAYER_FOOT_BIAS deltaTime s =
      { s with
        playerAbs := ⟨s.playerPosXZ.x, Single.proposedHeight deltaTime s, s.playerPosXZ.z⟩
        gVelY := Single.integratedVel deltaTime s
        gGrounded := false } := by
  unfold Single.proposedHeight Single.integratedVel Single.sampledFloor at h
  unfold Single.verticalPhysics Single.proposedHeight Single.integratedVel
  simp only
  rw [if_neg h]

lemma ledgePlayer_sampledFloor : Single.sampledFloor ledgeScene (-20) ledgePlayer = 5 / 4 :=
  single_SampleFloorY_ledge (-20) 0

lemma ledgePlayer_proposedHeight :
    Single.proposedHeight (1 / 4096) ledgePlayer = 5033165 / 2097152 := by
  norm_num [Single.proposedHeight, Single.integratedVel, Single.GRAVITY, ledgePlayer, fadd, fsub,
    fmul, round32_exact_values, round32_rounded_values]

lemma ledgePlayer_minY : fadd (5 / 4) footBias = 5033165 / 2097152 := by
  norm_num [fadd, footBias, round32_rounded_values]

/-- C10, original statement refuted in single precision: for the player on the ledge
(floor `F = 1.25` sampled at the column, `PLAYER_FOOT_BIAS = 1.15f`, height
`y = fl(1.25 + 1.15f)`, velocity `v = 26 / 4096`, `dt = 1 / 4096`) the proposed height
`y + (v - GRAVITY * dt) * dt = y + 2^-24` exceeds `F + PLAYER_FOOT_BIAS` and also its
rounded value, so the statement takes the branch "otherwise" (height = proposed,
grounded = false); the sum computed in binary32 rounds back to `y`, and the code clamps:
grounded = true, vertical velocity 0 and height `fl(F + PLAYER_FOOT_BIAS)`, which differs
from the proposed height. -/
theorem verticalPhysics_single_counterexample :
    ¬ (proposedHeight (1 / 4096) ledgePlayer ≤
        Single.sampledFloor ledgeScene (-20) ledgePlayer + footBias) ∧
      fadd (Single.sampledFloor ledgeScene (-20) ledgePlayer) footBias <
        proposedHeight (1 / 4096) ledgePlayer ∧
      (Single.verticalPhysics ledgeScene (-20) footBias (1 / 4096) ledgePlayer).gGrounded =
        true ∧
      (Single.verticalPhysics ledgeScene (-20) footBias (1 / 4096) ledgePlayer).gVelY = 0 ∧
      (Single.verticalPhysics ledgeScene (-20) footBias (1 / 4096) ledgePlayer).playerAbs.y ≠
        proposedHeight (1 / 4096) ledgePlayer := by
  have hF := ledgePlayer_sampledFloor
  have hle : Single.proposedHeight (1 / 4096) ledgePlayer ≤
      fadd (Single.sampledFloor ledgeScene (-20) ledgePlayer) footBias := by
    rw [hF, ledgePlayer_minY, ledgePlayer_proposedHeight]
  have hp : proposedHeight (1 / 4096) ledgePlayer = 40265321 / 16777216 := by
    norm_num [proposedHeight, integratedVel, GRAVITY, ledgePlayer]
  rw [single_verticalPhysics_of_le _ _ _ _ _ hle, hF, ledgePlayer_minY, hp]
  refine ⟨?_, ?_, rfl, rfl, ?_⟩
  · norm_num [footBias]
  · norm_num
  · show (5033165 / 2097152 : ℚ) ≠ 40265321 / 16777216
    norm_num

/-- C10, amended: floor clamping in vertical integration in binary32 arithmetic. With `F`
the floor sampled at the current column, `v' = fl(v - fl(GRAVITY * dt))`,
`proposed = fl(y + fl(v' * dt))` and `minY = fl(F + PLAYER_FOOT_BIAS)`: if
`proposed <= minY` then afterwards height = `minY`, vertical velocity = 0, grounded = true
and foot elevation = `F`; otherwise height = `proposed`, vertical velocity = `v'`,
grounded = false and the foot elevation is unchanged; in both cases the resulting height
is at least `minY`, and grounded = true implies vertical velocity = 0. -/
theorem verticalPhysics_single_floor_clamp (d : CollisionData)
    (MAP_Y_OFFSET PLAYER_FOOT_BIAS deltaTime : ℚ) (s : PlayerState) :
    (Single.proposedHeight deltaTime s ≤
          fadd (Single.sampledFloor d MAP_Y_OFFSET s) PLAYER_FOOT_BIAS →
        (Single.verticalPhysics d MAP_Y_OFFSET PLAYER_FOOT_BIAS deltaTime s).playerAbs.y =
            fadd (Single.sampledFloor d MAP_Y_OFFSET s) PLAYER_FOOT_BIAS ∧
          (Single.verticalPhysics d MAP_Y_OFFSET PLAYER_FOOT_BIAS deltaTime s).gVelY = 0 ∧
          (Single.verticalPhysics d MAP_Y_OFFSET PLAYER_FOOT_BIAS deltaTime s).gGrounded =
            true ∧
          (Single.verticalPhysics d MAP_Y_OFFSET PLAYER_FOOT_BIAS deltaTime s).playerFootY =
            Single.sampledFloor d MAP_Y_OFFSET s) ∧
      (¬ Single.proposedHeight deltaTime s ≤
          fadd (Single.sampledFloor d MAP_Y_OFFSET s) PLAYER_FOOT_BIAS →
        (Single.verticalPhysics d MAP_Y_OFFSET PLAYER_FOOT_BIAS deltaTime s).playerAbs.y =
            Single.proposedHeight deltaTime s ∧
          (Single.verticalPhysics d MAP_Y_OFFSET PLAYER_FOOT_BIAS deltaTime s).gVelY =
            Single.integratedVel deltaTime s ∧
          (Single.verticalPhysics d MAP_Y_OFFSET PLAYER_FOOT_BIAS deltaTime s).gGrounded =
            false ∧
          (Single.verticalPhysics d MAP_Y_OFFSET PLAYER_FOOT_BIAS deltaTime s).playerFootY =
            s.playerFootY) ∧
      fadd (Single.sampledFloor d MAP_Y_OFFSET s) PLAYER_FOOT_BIAS ≤
        (Single.verticalPhysics d MAP_Y_OFFSET PLAYER_FOOT_BIAS deltaTime s).playerAbs.y ∧
      ((Single.verticalPhysics d MAP_Y_OFFSET PLAYER_FOOT_BIAS deltaTime s).gGrounded = true →
        (Single.verticalPhysics d MAP_Y_OFFSET PLAYER_FOOT_BIAS deltaTime s).gVelY = 0) := by
  by_cases h : Single.proposedHeight deltaTime s ≤
      fadd (Single.sampledFloor d MAP_Y_OFFSET s) PLAYER_FOOT_BIAS
  · rw [single_verticalPhysics_of_le _ _ _ _ _ h]
    exact ⟨fun _ => ⟨rfl, rfl, rfl, rfl⟩, fun hn => absurd h hn, le_refl _, fun _ => rfl⟩
  · rw [single_verticalPhysics_of_not_le _ _ _ _ _ h]
    refine ⟨fun hp => absurd hp h, fun _ => ⟨rfl, rfl, rfl, rfl⟩, le_of_lt (not_le.mp h), ?_⟩
    intro hg
    exact absurd hg Bool.false_ne_true

/-- Witness of `verticalPhysics_single_floor_clamp`: the player on the ledge, integrated
over `dt = 1 / 4096` with foot bias `1.15f`, is clamped: height `fl(1.25 + 1.15f)`,
velocity 0, grounded, foot elevation 1.25. -/
theorem verticalPhysics_single_floor_clamp_witness :
    Single.proposedHeight (1 / 4096) ledgePlayer ≤
        fadd (Single.sampledFloor ledgeScene (-20) ledgePlayer) footBias ∧
      (Single.verticalPhysics ledgeScene (-20) footBias (1 / 4096) ledgePlayer).playerAbs.y =
        fadd (Single.sampledFloor ledgeScene (-20) ledgePlayer) footBias ∧
      (Single.verticalPhysics ledgeScene (-20) footBias (1 / 4096) ledgePlayer).gVelY = 0 ∧
      (Single.verticalPhysics ledgeScene (-20) footBias (1 / 4096) ledgePlayer).gGrounded =
        true ∧
      (Single.verticalPhysics ledgeScene (-20) footBias (1 / 4096) ledgePlayer).playerFootY =
        Single.sampledFloor ledgeScene (-20) ledgePlayer ∧
      Single.sampledFloor ledgeScene (-20) ledgePlayer = 5 / 4 :=
  have hle : Single.proposedHeight (1 / 4096) ledgePlayer ≤
      fadd (Single.sampledFloor ledgeScene (-20) ledgePlayer) footBias := by
    rw [ledgePlayer_sampledFloor, ledgePlayer_minY, ledgePlayer_proposedHeight]
  have h := (verticalPhysics_single_floor_clamp ledgeScene (-20) footBias (1 / 4096)
    ledgePlayer).1 hle
  ⟨hle, h.1, h.2.1, h.2.2.1, h.2.2.2, ledgePlayer_sampledFloor⟩

/-! ## Single precision: push-out resolution -/

/-- A number that rounds to zero is at most `2^-150` in magnitude. -/
lemma abs_le_of_round32_eq_zero (x : ℚ) (h : round32 x = 0) : |x| ≤ 1 / 2 ^ 150 := by
  by_cases hx : x = 0
  · rw [hx]; norm_num
  have hpos : 0 < |x| := abs_pos.mpr hx
  have he := abs_round32_sub_le_ulp x
  rw [h, zero_sub, abs_neg] at he
  have hb : binade |x| = binade x := by
    unfold binade
    rw [abs_abs]
  by_cases hbin : -126 < binade x
  · exfalso
    have hle := two_zpow_binade_le |x| hpos (by rw [hb]; exact hbin)
    rw [hb, two_zpow_split'] at hle
    unfold ulp32 at he
    have hu : 0 < (2 : ℚ) ^ (binade x - 23) := by positivity
    linarith
  · have hbe : binade x = -126 := by
      have : -126 ≤ binade x := by
        unfold binade
        exact le_max_right _ _
      omega
    unfold ulp32 at he
    rw [hbe] at he
    have e : (2 : ℚ) ^ ((-126 : ℤ) - 23) / 2 = 1 / 2 ^ 150 := by norm_num
    rw [e] at he
    exact he

/-- Every binary32 number is an integer multiple of `2^-149`. -/
lemma round32_eq_int_mul (x : ℚ) : ∃ n : ℤ, round32 x = (n : ℚ) * (1 / 2 ^ 149) := by
  have hb : -126 ≤ binade x := by
    unfold binade
    exact le_max_right _ _
  obtain ⟨j, hj⟩ := Int.eq_ofNat_of_zero_le (show 0 ≤ binade x + 126 by omega)
  refine ⟨roundEven (x / ulp32 x) * 2 ^ j, ?_⟩
  unfold round32
  have hu : ulp32 x = (2 : ℚ) ^ (j : ℤ) * (1 / 2 ^ 149) := by
    unfold ulp32
    have e : binade x - 23 = (j : ℤ) + (-149) := by omega
    rw [e, zpow_add₀ (by norm_num : (2 : ℚ) ≠ 0)]
    norm_num
  rw [hu, zpow_natCast]
  push_cast
  ring

/-- The rounded difference of two binary32 numbers has the sign of the difference: no
difference of two distinct binary32 numbers rounds to zero. -/
lemma round32_sub_neg (a b : ℚ) (h : round32 a < round32 b) :
    round32 (round32 a - round32 b) < 0 := by
  have hle := round32_nonpos (round32 a - round32 b) (by linarith)
  rcases lt_or_eq_of_le hle with hlt | heq
  · exact hlt
  · exfalso
    have h0 := abs_le_of_round32_eq_zero _ heq
    obtain ⟨n, hn⟩ := round32_eq_int_mul a
    obtain ⟨m, hm⟩ := round32_eq_int_mul b
    rw [hn, hm] at h h0
    have hnm : n < m := by
      have hp : (0 : ℚ) < 1 / 2 ^ 149 := by positivity
      have := lt_of_mul_lt_mul_right h (le_of_lt hp)
      exact_mod_cast this
    have hnm1 : (n : ℚ) + 1 ≤ m := by exact_mod_cast hnm
    rw [abs_le] at h0
    have : (n : ℚ) * (1 / 2 ^ 149) - (m : ℚ) * (1 / 2 ^ 149) ≤ -(1 / 2 ^ 149) := by
      have : (n : ℚ) * (1 / 2 ^ 149) - (m : ℚ) * (1 / 2 ^ 149) =
          ((n : ℚ) - m) * (1 / 2 ^ 149) := by ring
      rw [this]
      have hp : (0 : ℚ) < 1 / 2 ^ 149 := by positivity
      nlinarith
    have e : (1 : ℚ) / 2 ^ 149 = 2 * (1 / 2 ^ 150) := by norm_num
    have hp : (0 : ℚ) < 1 / 2 ^ 150 := by positivity
    linarith [h0.1]

/-- The computed x penetration is non-negative exactly when the computed x distance is
within the computed sum of the half-extents. -/
lemma single_penX_nonneg_iff (S D : AABB2D) :
    0 ≤ Single.penX S D ↔
      |fsub D.center.x S.center.x| ≤ fadd D.halfExt.x S.halfExt.x := by
  unfold Single.penX
  constructor
  · intro h
    by_contra hc
    push_neg at hc
    have habs : |fsub D.center.x S.center.x| = round32 |D.center.x - S.center.x| := by
      unfold fsub
      exact abs_round32 _
    rw [habs] at hc h
    unfold fadd at hc h
    have := round32_sub_neg _ _ hc
    unfold fsub at h
    linarith
  · intro h
    unfold fsub
    exact round32_nonneg _ (by unfold fsub at h; linarith)

lemma single_penZ_nonneg_iff (S D : AABB2D) :
    0 ≤ Single.penZ S D ↔
      |fsub D.center.y S.center.y| ≤ fadd D.halfExt.y S.halfExt.y := by
  unfold Single.penZ
  constructor
  · intro h
    by_contra hc
    push_neg at hc
    have habs : |fsub D.center.y S.center.y| = round32 |D.center.y - S.center.y| := by
      unfold fsub
      exact abs_round32 _
    rw [habs] at hc h
    unfold fadd at hc h
    have := round32_sub_neg _ _ hc
    unfold fsub at h
    linarith
  · intro h
    unfold fsub
    exact round32_nonneg _ (by unfold fsub at h; linarith)

lemma abs_fsub_comm (a b : ℚ) : |fsub a b| = |fsub b a| := by
  unfold fsub
  rw [show a - b = -(b - a) by ring, round32_neg, abs_neg]

lemma fadd_comm (a b : ℚ) : fadd a b = fadd b a := by
  unfold fadd
  rw [add_comm]

/-- The single precision overlap test agrees with the sign test on the computed
penetrations of `ResolveStaticXZ`. -/
lemma single_IntersectsXZ_iff_pen (S D : AABB2D) :
    Single.IntersectsXZ S D = true ↔ 0 ≤ Single.penX S D ∧ 0 ≤ Single.penZ S D := by
  rw [single_IntersectsXZ_eq_true_iff, single_penX_nonneg_iff, single_penZ_nonneg_iff,
    abs_fsub_comm S.center.x, abs_fsub_comm S.center.y, fadd_comm S.halfExt.x,
    fadd_comm S.halfExt.y]

lemma single_ResolveStaticXZ_of_not_overlap (S D : AABB2D) (posXZ : Vec3)
    (h : Single.IntersectsXZ S D = false) : Single.ResolveStaticXZ S D posXZ = (D, posXZ) := by
  have hn : ¬ (0 ≤ Single.penX S D ∧ 0 ≤ Single.penZ S D) := by
    rw [← single_IntersectsXZ_iff_pen, h]
    exact Bool.false_ne_true
  have hor : Single.penX S D < 0 ∨ Single.penZ S D < 0 := by
    by_contra hc
    rw [not_or, not_lt, not_lt] at hc
    exact hn hc
  unfold Single.penX Single.penZ at hor
  unfold Single.ResolveStaticXZ
  simp only
  rw [if_pos hor]

lemma single_ResolveStaticXZ_of_x (S D : AABB2D) (posXZ : Vec3)
    (h : Single.IntersectsXZ S D = true) (hlt : Single.penX S D < Single.penZ S D) :
    Single.ResolveStaticXZ S D posXZ =
      (⟨⟨fadd D.center.x (awaySign (fsub D.center.x S.center.x) * Single.penX S D),
          D.center.y⟩, D.halfExt⟩,
        ⟨fadd posXZ.x (awaySign (fsub D.center.x S.center.x) * Single.penX S D),
          posXZ.y, posXZ.z⟩) := by
  obtain ⟨h1, h2⟩ := (single_IntersectsXZ_iff_pen S D).mp h
  have hq : fmul (awaySign (fsub D.center.x S.center.x)) (Single.penX S D) =
      awaySign (fsub D.center.x S.center.x) * Single.penX S D := by
    unfold Single.penX
    unfold fsub
    exact fmul_awaySign_round32 _ _
  rw [← hq]
  simp only [Single.penX, Single.penZ] at h1 h2 hlt
  unfold Single.ResolveStaticXZ Single.penX awaySign
  simp only
  rw [if_neg (by rw [not_or, not_lt, not_lt]; exact ⟨h1, h2⟩), if_pos hlt]

lemma single_ResolveStaticXZ_of_z (S D : AABB2D) (posXZ : Vec3)
    (h : Single.IntersectsXZ S D = true) (hle : Single.penZ S D ≤ Single.penX S D) :
    Single.ResolveStaticXZ S D posXZ =
      (⟨⟨D.center.x,
          fadd D.center.y (awaySign (fsub D.center.y S.center.y) * Single.penZ S D)⟩,
          D.halfExt⟩,
        ⟨posXZ.x, posXZ.y,
          fadd posXZ.z (awaySign (fsub D.center.y S.center.y) * Single.penZ S D)⟩) := by
  obtain ⟨h1, h2⟩ := (single_IntersectsXZ_iff_pen S D).mp h
  have hq : fmul (awaySign (fsub D.center.y S.center.y)) (Single.penZ S D) =
      awaySign (fsub D.center.y S.center.y) * Single.penZ S D := by
    unfold Single.penZ
    unfold fsub
    exact fmul_awaySign_round32 _ _
  rw [← hq]
  simp only [Single.penX, Single.penZ] at h1 h2 hle
  unfold Single.ResolveStaticXZ Single.penZ awaySign
  simp only
  rw [if_neg (by rw [not_or, not_lt, not_lt]; exact ⟨h1, h2⟩), if_neg (not_lt.mpr hle)]

/-! ## Single precision: accuracy of the push-out -/

/-- The computed penetration is within `2^-21 B` of the exact one when the centres and the
sum of the half-extents are bounded by `B >= 1`. -/
lemma abs_fpen_sub_le (cd cs hd hs B : ℚ) (hB : 1 ≤ B) (h1 : |cd| ≤ B) (h2 : |cs| ≤ B)
    (h3 : |hd + hs| ≤ B) :
    |fsub (fadd hd hs) (|fsub cd cs|) - ((hd + hs) - |cd - cs|)| ≤ B / 2097152 ∧
      |fsub (fadd hd hs) (|fsub cd cs|)| ≤ 4 * B := by
  have e1 := abs_round32_sub_le (cd - cs)
  have e2 := abs_round32_sub_le (hd + hs)
  have e3 := abs_round32_sub_le (round32 (hd + hs) - |round32 (cd - cs)|)
  have hd1 : |cd - cs| ≤ 2 * B := by
    have := abs_sub cd cs
    linarith
  have hda : |(|round32 (cd - cs)| - |cd - cs|)| ≤ |round32 (cd - cs) - (cd - cs)| :=
    abs_abs_sub_abs_le_abs_sub _ _
  have ht : (1 : ℚ) / 2 ^ 150 ≤ 1 / 16777216 := by norm_num
  have hdhat : |round32 (cd - cs)| ≤ 2 * B + (2 * B / 16777216 + 1 / 2 ^ 150) := by
    have := (abs_le.mp hda).2
    linarith
  have hshat : |round32 (hd + hs)| ≤ B + (B / 16777216 + 1 / 2 ^ 150) := by
    have := abs_sub_abs_le_abs_sub (round32 (hd + hs)) (hd + hs)
    linarith
  have harg : |round32 (hd + hs) - (|round32 (cd - cs)|)| ≤
      |round32 (hd + hs)| + |round32 (cd - cs)| := by
    have := abs_sub (round32 (hd + hs)) |round32 (cd - cs)|
    rwa [abs_abs] at this
  have key : fsub (fadd hd hs) (|fsub cd cs|) - ((hd + hs) - |cd - cs|) =
      (round32 (round32 (hd + hs) - |round32 (cd - cs)|) -
          (round32 (hd + hs) - |round32 (cd - cs)|)) +
        (round32 (hd + hs) - (hd + hs)) - (|round32 (cd - cs)| - |cd - cs|) := by
    unfold fsub fadd
    ring
  have hsplit : |fsub (fadd hd hs) (|fsub cd cs|) - ((hd + hs) - |cd - cs|)| ≤
      |round32 (round32 (hd + hs) - |round32 (cd - cs)|) -
          (round32 (hd + hs) - |round32 (cd - cs)|)| +
        |round32 (hd + hs) - (hd + hs)| + |(|round32 (cd - cs)| - |cd - cs|)| := by
    rw [key]
    have a1 := abs_sub ((round32 (round32 (hd + hs) - |round32 (cd - cs)|) -
          (round32 (hd + hs) - |round32 (cd - cs)|)) +
        (round32 (hd + hs) - (hd + hs))) (|round32 (cd - cs)| - |cd - cs|)
    have a2 := abs_add (round32 (round32 (hd + hs) - |round32 (cd - cs)|) -
          (round32 (hd + hs) - |round32 (cd - cs)|)) (round32 (hd + hs) - (hd + hs))
    linarith
  have hfirst : |fsub (fadd hd hs) (|fsub cd cs|) - ((hd + hs) - |cd - cs|)| ≤ B / 2097152 := by
    have hp : (0 : ℚ) < 1 / 2 ^ 150 := by positivity
    have hnum : (1 : ℚ) / 2 ^ 150 ≤ 1 / 16777216 / 16777216 := by norm_num
    linarith
  refine ⟨hfirst, ?_⟩
  have hexact : |(hd + hs) - (|cd - cs|)| ≤ 3 * B := by
    have := abs_sub (hd + hs) |cd - cs|
    rw [abs_abs] at this
    linarith
  have := abs_sub_abs_le_abs_sub (fsub (fadd hd hs) (|fsub cd cs|)) ((hd + hs) - |cd - cs|)
  linarith

/-- After the push along one axis the exact penetration on that axis is within `2^-19 B`
of zero when the centres and the sum of the half-extents are bounded by `B >= 1`. -/
lemma abs_residual_le (cd cs hd hs B : ℚ) (hB : 1 ≤ B) (h1 : |cd| ≤ B) (h2 : |cs| ≤ B)
    (h3 : |hd + hs| ≤ B) (hp : 0 ≤ fsub (fadd hd hs) (|fsub cd cs|)) :
    |(hd + hs) -
        (|fadd cd (awaySign (fsub cd cs) * fsub (fadd hd hs) (|fsub cd cs|)) - cs|)| ≤
      B / 524288 := by
  obtain ⟨hpe, hpb⟩ := abs_fpen_sub_le cd cs hd hs B hB h1 h2 h3
  have hw := abs_add_awaySign_mul (fsub cd cs) _ hp
  have e1 := abs_round32_sub_le (cd - cs)
  have e5 := abs_round32_sub_le (cd + awaySign (fsub cd cs) * fsub (fadd hd hs) (|fsub cd cs|))
  have hs1 : |awaySign (fsub cd cs) * fsub (fadd hd hs) (|fsub cd cs|)| ≤ 4 * B := by
    rw [abs_mul]
    have : |awaySign (fsub cd cs)| = 1 := by
      unfold awaySign
      split_ifs <;> norm_num
    rw [this, one_mul]
    exact hpb
  have harg : |cd + awaySign (fsub cd cs) * fsub (fadd hd hs) (|fsub cd cs|)| ≤ 5 * B := by
    have := abs_add cd (awaySign (fsub cd cs) * fsub (fadd hd hs) (|fsub cd cs|))
    linarith
  have hd1 : |cd - cs| ≤ 2 * B := by
    have := abs_sub cd cs
    linarith
  -- the new centre difference is the rounded difference pushed by the computed
  -- penetration, up to the two rounding errors
  have key : fadd cd (awaySign (fsub cd cs) * fsub (fadd hd hs) (|fsub cd cs|)) - cs =
      (fsub cd cs + awaySign (fsub cd cs) * fsub (fadd hd hs) (|fsub cd cs|)) +
        ((round32 (cd + awaySign (fsub cd cs) * fsub (fadd hd hs) (|fsub cd cs|)) -
            (cd + awaySign (fsub cd cs) * fsub (fadd hd hs) (|fsub cd cs|))) -
          (round32 (cd - cs) - (cd - cs))) := by
    unfold fadd
    have : fsub cd cs = round32 (cd - cs) := rfl
    rw [this]
    ring
  have hdelta : |(round32 (cd + awaySign (fsub cd cs) * fsub (fadd hd hs) (|fsub cd cs|)) -
            (cd + awaySign (fsub cd cs) * fsub (fadd hd hs) (|fsub cd cs|))) -
          (round32 (cd - cs) - (cd - cs))| ≤ 7 * B / 16777216 + 2 * (1 / 2 ^ 150) := by
    have := abs_sub (round32 (cd + awaySign (fsub cd cs) * fsub (fadd hd hs) (|fsub cd cs|)) -
            (cd + awaySign (fsub cd cs) * fsub (fadd hd hs) (|fsub cd cs|)))
          (round32 (cd - cs) - (cd - cs))
    linarith
  have hup := abs_add (fsub cd cs + awaySign (fsub cd cs) * fsub (fadd hd hs) (|fsub cd cs|))
    ((round32 (cd + awaySign (fsub cd cs) * fsub (fadd hd hs) (|fsub cd cs|)) -
            (cd + awaySign (fsub cd cs) * fsub (fadd hd hs) (|fsub cd cs|))) -
          (round32 (cd - cs) - (cd - cs)))
  have hlo := abs_sub_abs_le_abs_sub
    (fsub cd cs + awaySign (fsub cd cs) * fsub (fadd hd hs) (|fsub cd cs|))
    (-((round32 (cd + awaySign (fsub cd cs) * fsub (fadd hd hs) (|fsub cd cs|)) -
            (cd + awaySign (fsub cd cs) * fsub (fadd hd hs) (|fsub cd cs|))) -
          (round32 (cd - cs) - (cd - cs))))
  rw [abs_neg, sub_neg_eq_add] at hlo
  rw [← key] at hup hlo
  rw [hw] at hup hlo
  -- |fsub cd cs| is within the rounding error of |cd - cs|
  have hda : |(|fsub cd cs| - |cd - cs|)| ≤ |round32 (cd - cs) - (cd - cs)| :=
    abs_abs_sub_abs_le_abs_sub _ _
  have hpe' := abs_le.mp hpe
  have hda' := abs_le.mp hda
  have hnum : (1 : ℚ) / 2 ^ 150 ≤ 1 / 16777216 / 16777216 := by norm_num
  have hpos : (0 : ℚ) < 1 / 2 ^ 150 := by positivity
  rw [abs_le]
  constructor <;> linarith

/-- The unit square at `(3/2, 0)` is pushed out of the unit square at the origin along x
to the centre `(2, 0)`; every operation is exact. -/
lemma single_ResolveStaticXZ_overlapBox :
    Single.ResolveStaticXZ unitBox overlapBox ⟨3 / 2, 0, 0⟩ = (touchingBox, ⟨2, 0, 0⟩) := by
  have h : Single.IntersectsXZ unitBox overlapBox = true := by
    rw [single_IntersectsXZ_eq_true_iff]
    norm_num [unitBox, overlapBox, fsub, fadd, round32_zero, abs_eq_max_neg, round32_exact_values]
  have hpx : Single.penX unitBox overlapBox = 1 / 2 := by
    norm_num [Single.penX, unitBox, overlapBox, fsub, fadd, abs_eq_max_neg, round32_exact_values]
  have hpz : Single.penZ unitBox overlapBox = 2 := by
    norm_num [Single.penZ, unitBox, overlapBox, fsub, fadd, round32_zero, abs_eq_max_neg,
      round32_exact_values]
  have hs : awaySign (fsub overlapBox.center.x unitBox.center.x) = 1 := by
    norm_num [awaySign, unitBox, overlapBox, fsub, round32_exact_values]
  rw [single_ResolveStaticXZ_of_x _ _ _ h (by rw [hpx, hpz]; norm_num), hs, hpx]
  norm_num [touchingBox, overlapBox, fadd, round32_exact_values]

/-- C3, original statement refuted in single precision: the unit square at `(3/2, 0)`
overlaps the unit square at the origin; `ResolveStaticXZ` pushes it to `(2, 0)`, where the
two squares touch along an edge, and `IntersectsXZ(static, resolved)` is still true. -/
theorem ResolveStaticXZ_single_still_intersects_counterexample :
    0 ≤ unitBox.halfExt.x ∧ 0 ≤ unitBox.halfExt.y ∧ 0 ≤ overlapBox.halfExt.x ∧
      0 ≤ overlapBox.halfExt.y ∧
      Single.IntersectsXZ unitBox overlapBox = true ∧
      Single.IntersectsXZ unitBox
        (Single.ResolveStaticXZ unitBox overlapBox ⟨3 / 2, 0, 0⟩).1 = true := by
  refine ⟨by norm_num [unitBox], by norm_num [unitBox], by norm_num [overlapBox],
    by norm_num [overlapBox], ?_, ?_⟩
  · rw [single_IntersectsXZ_eq_true_iff]
    norm_num [unitBox, overlapBox, fsub, fadd, round32_zero, abs_eq_max_neg, round32_exact_values]
  · rw [single_ResolveStaticXZ_overlapBox, single_IntersectsXZ_eq_true_iff]
    norm_num [unitBox, touchingBox, fsub, fadd, round32_zero, abs_eq_max_neg, round32_exact_values]

/-- C3, amended: push-out within floating-point tolerance. For every static rectangle and
every dynamic rectangle that the binary32 overlap test `IntersectsXZ` reports as
overlapping, whose centre coordinates and sums of half-extents are at most `B` in
magnitude (`B >= 1`): after `ResolveStaticXZ(static, dynamic, pos)` the exact penetration
depth of the resolved dynamic rectangle on the axis that was resolved (x when the computed
`px < pz`, z otherwise) is within `2^-19 * B` of zero, so the rectangles touch on that axis
up to the rounding errors. Whether `IntersectsXZ(static, resolved)` is then true or false
depends on the direction of the rounding. -/
theorem ResolveStaticXZ_single_residual (statBox dynBox : AABB2D) (posXZ : Vec3) (B : ℚ)
    (hov : Single.IntersectsXZ statBox dynBox = true) (hB : 1 ≤ B)
    (hdx : |dynBox.center.x| ≤ B) (hdz : |dynBox.center.y| ≤ B)
    (hsx : |statBox.center.x| ≤ B) (hsz : |statBox.center.y| ≤ B)
    (hhx : |dynBox.halfExt.x + statBox.halfExt.x| ≤ B)
    (hhz : |dynBox.halfExt.y + statBox.halfExt.y| ≤ B) :
    (Single.penX statBox dynBox < Single.penZ statBox dynBox ∧
        |penX statBox (Single.ResolveStaticXZ statBox dynBox posXZ).1| ≤ B / 524288) ∨
      (Single.penZ statBox dynBox ≤ Single.penX statBox dynBox ∧
        |penZ statBox (Single.ResolveStaticXZ statBox dynBox posXZ).1| ≤ B / 524288) := by
  obtain ⟨h1, h2⟩ := (single_IntersectsXZ_iff_pen statBox dynBox).mp hov
  rcases lt_or_le (Single.penX statBox dynBox) (Single.penZ statBox dynBox) with hlt | hle
  · left
    refine ⟨hlt, ?_⟩
    rw [single_ResolveStaticXZ_of_x _ _ _ hov hlt]
    exact abs_residual_le dynBox.center.x statBox.center.x dynBox.halfExt.x
      statBox.halfExt.x B hB hdx hsx hhx h1
  · right
    refine ⟨hle, ?_⟩
    rw [single_ResolveStaticXZ_of_z _ _ _ hov hle]
    exact abs_residual_le dynBox.center.y statBox.center.y dynBox.halfExt.y
      statBox.halfExt.y B hB hdz hsz hhz h2

/-- Witness of `ResolveStaticXZ_single_residual`: the unit squares at the origin and at
`(3/2, 0)` overlap, all magnitudes are at most 2, and the x axis is resolved. -/
theorem ResolveStaticXZ_single_residual_witness :
    Single.IntersectsXZ unitBox overlapBox = true ∧
      ((Single.penX unitBox overlapBox < Single.penZ unitBox overlapBox ∧
          |penX unitBox (Single.ResolveStaticXZ unitBox overlapBox ⟨3 / 2, 0, 0⟩).1| ≤
            2 / 524288) ∨
        (Single.penZ unitBox overlapBox ≤ Single.penX unitBox overlapBox ∧
          |penZ unitBox (Single.ResolveStaticXZ unitBox overlapBox ⟨3 / 2, 0, 0⟩).1| ≤
            2 / 524288)) :=
  have h : Single.IntersectsXZ unitBox overlapBox = true := by
    rw [single_IntersectsXZ_eq_true_iff]
    norm_num [unitBox, overlapBox, fsub, fadd, round32_zero, abs_eq_max_neg, round32_exact_values]
  ⟨h, ResolveStaticXZ_single_residual unitBox overlapBox ⟨3 / 2, 0, 0⟩ 2 h (by norm_num)
    (by norm_num [overlapBox, abs_eq_max_neg]) (by norm_num [overlapBox])
    (by norm_num [unitBox]) (by norm_num [unitBox])
    (by norm_num [unitBox, overlapBox, abs_eq_max_neg])
    (by norm_num [unitBox, overlapBox, abs_eq_max_neg])⟩

lemma farDyn_overlaps : Single.IntersectsXZ farBox farDyn = true := by
  rw [single_IntersectsXZ_eq_true_iff]
  norm_num [farBox, farDyn, fsub, fadd, round32_zero, abs_eq_max_neg, round32_exact_values]

lemma farDyn_penX : Single.penX farBox farDyn = 524289 / 1048576 := by
  norm_num [Single.penX, farBox, farDyn, fsub, fadd, abs_eq_max_neg, round32_exact_values]

lemma farDyn_penZ : Single.penZ farBox farDyn = 2 := by
  norm_num [Single.penZ, farBox, farDyn, fsub, fadd, round32_zero, abs_eq_max_neg,
    round32_exact_values]

/-- The dynamic rectangle at `(1024, 0)` is pushed along x to the centre `(1023.5, 0)`:
the sum `1024 - (1/2 + 2^-20)` rounds to `1023.5`. -/
lemma single_ResolveStaticXZ_farDyn :
    Single.ResolveStaticXZ farBox farDyn ⟨1024, 0, 0⟩ =
      (⟨⟨2047 / 2, 0⟩, farDyn.halfExt⟩, ⟨2047 / 2, 0, 0⟩) := by
  have hs : awaySign (fsub farDyn.center.x farBox.center.x) = -1 := by
    norm_num [awaySign, farBox, farDyn, fsub, round32_exact_values]
  rw [single_ResolveStaticXZ_of_x _ _ _ farDyn_overlaps
    (by rw [farDyn_penX, farDyn_penZ]; norm_num), hs, farDyn_penX]
  norm_num [farDyn, fadd, round32_rounded_values]

/-- C9, original statement refuted in single precision: the dynamic rectangle centred at
`(1024, 0)` with half-extents `(1 + 2^-20, 1)` overlaps the static unit square centred at
`(1025.5, 0)` with penetration depths `1/2 + 2^-20` on x and 2 on z; `ResolveStaticXZ`
translates it along x to the centre `(1023.5, 0)`, that is by `1/2`, not by exactly the
penetration depth. -/
theorem ResolveStaticXZ_single_counterexample :
    Single.IntersectsXZ farBox farDyn = true ∧
      penX farBox farDyn = 1 / 2 + 1 / 1048576 ∧ penZ farBox farDyn = 2 ∧
      (Single.ResolveStaticXZ farBox farDyn ⟨1024, 0, 0⟩).1.center.x = 2047 / 2 ∧
      (Single.ResolveStaticXZ farBox farDyn ⟨1024, 0, 0⟩).1.center.x ≠
        farDyn.center.x +
          awaySign (farDyn.center.x - farBox.center.x) * penX farBox farDyn := by
  rw [single_ResolveStaticXZ_farDyn]
  refine ⟨farDyn_overlaps, ?_, ?_, rfl, ?_⟩
  · norm_num [penX, farBox, farDyn, abs_eq_max_neg]
  · norm_num [penZ, farBox, farDyn, abs_eq_max_neg]
  · norm_num [penX, awaySign, farBox, farDyn, abs_eq_max_neg]

/-- C9, amended: minimum-translation push-out in binary32 arithmetic. With
`dx = fl(cd.x - cs.x)`, `dz` likewise, `px = fl(fl(hd.x + hs.x) - |dx|)`, `pz` likewise
the computed penetration depths, and `awaySign` the sign `(d < 0 ? -1 : 1)`: if
`IntersectsXZ` reports an overlap and `px < pz`, `ResolveStaticXZ` replaces the x
coordinate of the dynamic centre and of the caller position by `fl(x + awaySign dx * px)`
and leaves the other coordinates and the half-extents unchanged; if it reports an overlap
and `pz <= px` the same holds along z with `pz`; if `IntersectsXZ` reports no overlap, the
dynamic rectangle and the position are unchanged. The computed penetration depths are
within `2^-21 * B` of the exact ones when the centre coordinates and the sums of the
half-extents are at most `B >= 1` in magnitude. -/
theorem ResolveStaticXZ_single_min_translation (statBox dynBox : AABB2D) (posXZ : Vec3) :
    (Single.IntersectsXZ statBox dynBox = true →
      Single.penX statBox dynBox < Single.penZ statBox dynBox →
      (Single.ResolveStaticXZ statBox dynBox posXZ).1.center.x =
          fadd dynBox.center.x
            (awaySign (fsub dynBox.center.x statBox.center.x) *
              Single.penX statBox dynBox) ∧
        (Single.ResolveStaticXZ statBox dynBox posXZ).2.x =
          fadd posXZ.x
            (awaySign (fsub dynBox.center.x statBox.center.x) *
              Single.penX statBox dynBox) ∧
        (Single.ResolveStaticXZ statBox dynBox posXZ).1.center.y = dynBox.center.y ∧
        (Single.ResolveStaticXZ statBox dynBox posXZ).1.halfExt = dynBox.halfExt ∧
        (Single.ResolveStaticXZ statBox dynBox posXZ).2.y = posXZ.y ∧
        (Single.ResolveStaticXZ statBox dynBox posXZ).2.z = posXZ.z) ∧
    (Single.IntersectsXZ statBox dynBox = true →
      Single.penZ statBox dynBox ≤ Single.penX statBox dynBox →
      (Single.ResolveStaticXZ statBox dynBox posXZ).1.center.y =
          fadd dynBox.center.y
            (awaySign (fsub dynBox.center.y statBox.center.y) *
              Single.penZ statBox dynBox) ∧
        (Single.ResolveStaticXZ statBox dynBox posXZ).2.z =
          fadd posXZ.z
            (awaySign (fsub dynBox.center.y statBox.center.y) *
              Single.penZ statBox dynBox) ∧
        (Single.ResolveStaticXZ statBox dynBox posXZ).1.center.x = dynBox.center.x ∧
        (Single.ResolveStaticXZ statBox dynBox posXZ).1.halfExt = dynBox.halfExt ∧
        (Single.ResolveStaticXZ statBox dynBox posXZ).2.x = posXZ.x ∧
        (Single.ResolveStaticXZ statBox dynBox posXZ).2.y = posXZ.y) ∧
    (Single.IntersectsXZ statBox dynBox = false →
      Single.ResolveStaticXZ statBox dynBox posXZ = (dynBox, posXZ)) ∧
    (∀ B : ℚ, 1 ≤ B → |dynBox.center.x| ≤ B → |statBox.center.x| ≤ B →
      |dynBox.halfExt.x + statBox.halfExt.x| ≤ B →
      |Single.penX statBox dynBox - penX statBox dynBox| ≤ B / 2097152) ∧
    (∀ B : ℚ, 1 ≤ B → |dynBox.center.y| ≤ B → |statBox.center.y| ≤ B →
      |dynBox.halfExt.y + statBox.halfExt.y| ≤ B →
      |Single.penZ statBox dynBox - penZ statBox dynBox| ≤ B / 2097152) := by
  refine ⟨fun h hlt => ?_, fun h hle => ?_,
    fun h => single_ResolveStaticXZ_of_not_overlap _ _ _ h, ?_, ?_⟩
  · rw [single_ResolveStaticXZ_of_x statBox dynBox posXZ h hlt]
    exact ⟨rfl, rfl, rfl, rfl, rfl, rfl⟩
  · rw [single_ResolveStaticXZ_of_z statBox dynBox posXZ h hle]
    exact ⟨rfl, rfl, rfl, rfl, rfl, rfl⟩
  · intro B hB h1 h2 h3
    exact (abs_fpen_sub_le dynBox.center.x statBox.center.x dynBox.halfExt.x
      statBox.halfExt.x B hB h1 h2 h3).1
  · intro B hB h1 h2 h3
    exact (abs_fpen_sub_le dynBox.center.y statBox.center.y dynBox.halfExt.y
      statBox.halfExt.y B hB h1 h2 h3).1

/-- Witness of `ResolveStaticXZ_single_min_translation`: the rectangle at `(1024, 0)`
overlaps the unit square at `(1025.5, 0)` with computed penetrations `1/2 + 2^-20` on x
and 2 on z, and its centre is moved along x to `fl(1024 - (1/2 + 2^-20)) = 1023.5`. -/
theorem ResolveStaticXZ_single_min_translation_witness :
    Single.IntersectsXZ farBox farDyn = true ∧
      Single.penX farBox farDyn < Single.penZ farBox farDyn ∧
      (Single.ResolveStaticXZ farBox farDyn ⟨1024, 0, 0⟩).1.center.x =
        fadd farDyn.center.x
          (awaySign (fsub farDyn.center.x farBox.center.x) * Single.penX farBox farDyn) :=
  have hlt : Single.penX farBox farDyn < Single.penZ farBox farDyn := by
    rw [farDyn_penX, farDyn_penZ]; norm_num
  ⟨farDyn_overlaps, hlt,
    ((ResolveStaticXZ_single_min_translation farBox farDyn ⟨1024, 0, 0⟩).1
      farDyn_overlaps hlt).1⟩

/-! ## Single precision: push-out loops -/

end ModelLoading
